import Mathlib

/-! Web-Ping-Pong: the frame update of `script_updated.js`.

A shallow embedding of the simulation part of `src/script_updated.js`.

* JavaScript numbers are modelled by exact rationals (`ℚ`); timestamps returned
  by `Date.now()` are integers (milliseconds). `NaN` and the infinities are
  outside the model.
* The module-level `let` variables of the script become the fields of `State`.
* `draw` is one call of the script's `draw()`; everything that only paints on the
  canvas is left out, everything that assigns a module-level variable is kept, in
  source order.
* What a frame reads from outside the script (the clock, `Math.random()`, two DOM
  input values) is the `FrameInput` argument.
* `alert(...)` calls are recorded in the log `State.alerts`; callbacks handed to
  `setTimeout` are recorded in `State.pending` and run by `fire`.
-/

namespace PingPong

/-- The values of the `difficulty` variable the script knows about. -/
inductive Difficulty where
  | easy | medium | hard | impossible | custom | disable
  deriving DecidableEq, Repr

/-- An element `{x: .., y: ..}` of a trail array. -/
structure Pos where
  x : ℚ
  y : ℚ
  deriving DecidableEq, Repr

/-- A callback given to `setTimeout` on line 415: its delay and the value of the
frame-local `computerSpeed` that the closure captured. -/
structure PendingMove where
  delay : ℕ
  computerSpeed : ℚ
  deriving DecidableEq, Repr

/-- The module-level variables of the script. `canvas_width` and `canvas_height`
are the DOM properties `canvas.width` and `canvas.height`. `ballX` and `ballY`
are `undefined` exactly when `ballDefined` is false (the script always assigns
the two together). `alerts` and `pending` record the `alert` and `setTimeout`
calls made so far. -/
structure State where
  canvas_width : ℚ
  canvas_height : ℚ
  ballRadius : ℚ
  canvasWidth : ℚ
  canvasHeight : ℚ
  paddleHeight : ℚ
  paddleWidth : ℚ
  paddleGap : ℚ
  playerPaddleY : ℚ
  computerPaddleY : ℚ
  ballDefined : Bool
  ballX : ℚ
  ballY : ℚ
  ballSpeedX : ℚ
  ballSpeedY : ℚ
  playerScore : ℕ
  computerScore : ℕ
  lastPlayerPaddleY : ℚ
  difficulty : Difficulty
  customComputerSpeed : ℚ
  speedBoostActive : Bool
  speedBoostStartTime : ℤ
  gameActive : Bool
  ballTrailEnabled : Bool
  ballTrail : List Pos
  glowTrail : List Pos
  maxBallSpeed : ℚ
  ledOffset : ℚ
  ledTrail : List Pos
  ledSpeed : ℚ
  spinningLEDEnabled : Bool
  upPressed : Bool
  downPressed : Bool
  wPressed : Bool
  sPressed : Bool
  alerts : List String
  pending : List PendingMove

/-- What one call of `draw()` reads from outside the script. `rand k` is the value
returned by the `Math.random()` call at the k-th call site of the frame (sites 0-3:
left scoring branch, sites 4-7: right scoring branch; in each branch first the two
calls of the `resetBall` inside `checkWinner`, then the two of the `resetBall`
that follows it). -/
structure FrameInput where
  nowAtHit : ℤ
  nowAtCheck : ℤ
  rand : ℕ → ℚ
  customSpeedInput : ℚ
  paddleSpeedInput : ℚ

/-- The variable `speedBoostDuration` of line 25 (2000, never reassigned). -/
def speedBoostDuration : ℤ := 2000

/-- The variable `speedBoostFactor` of line 26 (1.5, never reassigned). -/
def speedBoostFactor : ℚ := 3 / 2

/-- The constant `innerOffset` of line 47. -/
def innerOffset : ℚ := 10

/-- The function `Math.sign`. -/
def sign (x : ℚ) : ℚ := if 0 < x then 1 else if x < 0 then -1 else 0

/-- The expression `Math.sign(v) * Math.min(Math.abs(v), m)` of lines 435-436
and 505-506. -/
def clampSpeed (v m : ℚ) : ℚ := sign v * min |v| m

/-- The remainder operator `%` on finite numbers with a non-zero divisor: the
quotient is truncated towards zero. -/
def jsMod (a b : ℚ) : ℚ :=
  a - b * (if 0 ≤ a / b then ((a / b).floor : ℚ) else ((a / b).ceil : ℚ))

/-- The two statements `t.push(p); if (t.length > cap) t.shift();`. -/
def trailPush (cap : ℕ) (t : List Pos) (p : Pos) : List Pos :=
  if (t ++ [p]).length > cap then (t ++ [p]).tail else t ++ [p]

/-- The function `displayWinner(winner)`, lines 104-142: the alert, then the match reset of
lines 133-135. (The `location.reload()` on line 106 only takes effect after the
running script has finished.) -/
def displayWinner (winner : String) (s : State) : State :=
  { s with
    alerts := s.alerts ++ [winner ++ " wins!"]
    playerScore := 0
    computerScore := 0
    gameActive := false }

/-- The function `resetBall()`, lines 496-507; `r1` and `r2` are its two `Math.random()` values. -/
def resetBall (r1 r2 : ℚ) (s : State) : State :=
  let initialSpeed : ℚ := (s.canvas_width / 800) * 3
  let vx : ℚ := if r1 > 1 / 2 then initialSpeed else -initialSpeed
  let vy : ℚ := (r2 - 1 / 2) * (initialSpeed * 2)
  { s with
    ballDefined := true
    ballX := s.canvas_width / 2
    ballY := s.canvas_height / 2
    ballSpeedX := clampSpeed vx s.maxBallSpeed
    ballSpeedY := clampSpeed vy s.maxBallSpeed }

/-- The function `checkWinner()`, lines 481-494. -/
def checkWinner (r1 r2 : ℚ) (s : State) : State :=
  if !s.gameActive then s
  else if s.playerScore ≥ 20 then resetBall r1 r2 (displayWinner "Player" s)
  else if s.computerScore ≥ 20 then resetBall r1 r2 (displayWinner "Computer" s)
  else s

/-- The function `canSpawnBall()`, lines 509-511. -/
def canSpawnBall (s : State) : Bool :=
  decide (s.playerScore < 20) && decide (s.computerScore < 20)

/-- Lines 335-343: the vertical speed computed from the hit offset, with the
minimum-speed rule. -/
def hitSpeedY (relativeHit : ℚ) : ℚ :=
  let v : ℚ := relativeHit * (1 / 10)
  if |v| < 1 then sign v * 1 else v

/-- Lines 173-226, the spinning LED: only the assignments to `ledOffset` and
`ledTrail` (there is a single LED, `numLEDs = 1`, so `dist = ledOffset`). -/
def ledStep (s : State) : State :=
  if s.spinningLEDEnabled then
    let w : ℚ := s.canvas_width - 2 * innerOffset
    let h : ℚ := s.canvas_height - 2 * innerOffset
    let perimeter : ℚ := 2 * (s.canvas_width + s.canvas_height - 4 * innerOffset)
    let dist : ℚ := jsMod (s.ledOffset + s.ledSpeed) perimeter
    let p : Pos :=
      if dist < w then ⟨innerOffset + dist, innerOffset⟩
      else if dist < w + h then ⟨s.canvas_width - innerOffset, innerOffset + (dist - w)⟩
      else if dist < 2 * w + h then
        ⟨s.canvas_width - innerOffset - (dist - (w + h)), s.canvas_height - innerOffset⟩
      else ⟨innerOffset, s.canvas_height - innerOffset - (dist - (2 * w + h))⟩
    { s with ledOffset := dist, ledTrail := trailPush 15 s.ledTrail p }
  else s

/-- Lines 295-296: `ballX += ballSpeedX; ballY += ballSpeedY`. -/
def moveStep (s : State) : State :=
  { s with ballX := s.ballX + s.ballSpeedX, ballY := s.ballY + s.ballSpeedY }

/-- Lines 299-311: the ball trail and the glow trail. -/
def trailStep (s : State) : State :=
  if s.ballTrailEnabled then
    { s with
      ballTrail := trailPush 30 s.ballTrail ⟨s.ballX, s.ballY⟩
      glowTrail := trailPush 80 s.glowTrail ⟨s.ballX, s.ballY⟩ }
  else { s with ballTrail := [], glowTrail := [] }

/-- Lines 314-316: collision with the top and the bottom of the canvas. -/
def wallStep (s : State) : State :=
  if s.ballY + s.ballRadius > s.canvas_height ∨ s.ballY - s.ballRadius < 0 then
    { s with ballSpeedY := -s.ballSpeedY }
  else s

/-- The condition of the `if` on line 319. -/
def overlapsPlayerPaddle (s : State) : Prop :=
  s.ballX - s.ballRadius < s.paddleWidth + s.paddleGap ∧
    s.ballY + s.ballRadius > s.playerPaddleY ∧
    s.ballY - s.ballRadius < s.playerPaddleY + s.paddleHeight

instance (s : State) : Decidable (overlapsPlayerPaddle s) := by
  unfold overlapsPlayerPaddle; infer_instance

/-- The condition of the `if` on line 367. -/
def overlapsComputerPaddle (s : State) : Prop :=
  s.ballX + s.ballRadius > s.canvas_width - s.paddleWidth - s.paddleGap ∧
    s.ballY + s.ballRadius > s.computerPaddleY ∧
    s.ballY - s.ballRadius < s.computerPaddleY + s.paddleHeight

instance (s : State) : Decidable (overlapsComputerPaddle s) := by
  unfold overlapsComputerPaddle; infer_instance

/-- Lines 345-357: the speed boost is switched on unless it is on already. -/
def activateBoost (now : ℤ) (s : State) : State :=
  if !s.speedBoostActive then
    { s with
      speedBoostActive := true
      speedBoostStartTime := now
      ballSpeedX := s.ballSpeedX * speedBoostFactor
      ballSpeedY := s.ballSpeedY * speedBoostFactor }
  else s

/-- Lines 321-359: the body of the player-paddle branch. -/
def playerPaddleHit (now : ℤ) (s : State) : State :=
  if s.ballSpeedX < 0 ∧ s.ballY + s.ballRadius > s.playerPaddleY ∧
      s.ballY - s.ballRadius < s.playerPaddleY + s.paddleHeight then
    let paddleCenterY : ℚ := s.playerPaddleY + s.paddleHeight / 2
    let relativeHit : ℚ := s.ballY - paddleCenterY
    activateBoost now
      { s with ballSpeedX := -s.ballSpeedX, ballSpeedY := hitSpeedY relativeHit }
  else s

/-- Lines 360-365: the body of the `else if (ballX - ballRadius < 0)` branch. -/
def leftScore (inp : FrameInput) (s : State) : State :=
  resetBall (inp.rand 2) (inp.rand 3)
    (checkWinner (inp.rand 0) (inp.rand 1) { s with computerScore := s.computerScore + 1 })

/-- Lines 319-365: the player paddle, or else scoring on the left. -/
def leftStep (inp : FrameInput) (s : State) : State :=
  if overlapsPlayerPaddle s then playerPaddleHit inp.nowAtHit s
  else if s.ballX - s.ballRadius < 0 then leftScore inp s
  else s

/-- Lines 367-390: the computer paddle. -/
def rightPaddleStep (s : State) : State :=
  if overlapsComputerPaddle s then
    if s.ballSpeedX > 0 ∧ s.ballY + s.ballRadius > s.computerPaddleY ∧
        s.ballY - s.ballRadius < s.computerPaddleY + s.paddleHeight then
      let paddleCenterY : ℚ := s.computerPaddleY + s.paddleHeight / 2
      let relativeHit : ℚ := s.ballY - paddleCenterY
      { s with ballSpeedX := -s.ballSpeedX, ballSpeedY := hitSpeedY relativeHit }
    else s
  else s

/-- Lines 393-395: the body of the `if (ballX + ballRadius > canvas.width)`. -/
def rightScore (inp : FrameInput) (s : State) : State :=
  resetBall (inp.rand 6) (inp.rand 7)
    (checkWinner (inp.rand 4) (inp.rand 5) { s with playerScore := s.playerScore + 1 })

/-- Lines 391-396: scoring on the right. -/
def rightScoreStep (inp : FrameInput) (s : State) : State :=
  if s.ballX + s.ballRadius > s.canvas_width then rightScore inp s else s

/-- The `computerSpeeds` table of lines 51-56. Line 407 looks up the keys `easy`,
`medium` and `hard` only, and the script only ever writes the same three numbers
back under them; the remaining entry is the one for `custom`. -/
def computerSpeeds (d : Difficulty) (customComputerSpeed : ℚ) : ℚ :=
  match d with
  | .easy => 3 / 2
  | .medium => 2
  | .hard => 3
  | _ => customComputerSpeed

/-- Lines 399-408: the frame-local `computerSpeed`. -/
def computerSpeedOf (s : State) : ℚ :=
  if s.difficulty = .disable then 0
  else if s.difficulty = .impossible then 10
  else if s.difficulty = .custom then s.customComputerSpeed
  else computerSpeeds s.difficulty s.customComputerSpeed

/-- Line 413: `responseDelay`. -/
def responseDelay (d : Difficulty) : ℕ :=
  if d = .easy then 200 else if d = .medium then 100 else if d = .hard then 50 else 0

/-- The body of the callback of lines 415-422, run with the captured
`computerSpeed` on the state it finds when the timer fires. (A comparison with an
`undefined` `ballY` is false.) -/
def timerCallback (computerSpeed : ℚ) (s : State) : State :=
  if s.ballDefined ∧ s.ballY > s.computerPaddleY + s.paddleHeight / 2 then
    { s with computerPaddleY := s.computerPaddleY + computerSpeed }
  else { s with computerPaddleY := s.computerPaddleY - computerSpeed }

/-- Lines 398-425: the speed is chosen, `customComputerSpeed` is re-read from its
input, the move is handed to `setTimeout`, and `computerPaddleY` is clamped. -/
def aiStep (inp : FrameInput) (s : State) : State :=
  { s with
    customComputerSpeed :=
      if s.difficulty = .disable then s.customComputerSpeed else inp.customSpeedInput
    pending := s.pending ++ [⟨responseDelay s.difficulty, computerSpeedOf s⟩]
    computerPaddleY := max 0 (min s.computerPaddleY (s.canvas_height - s.paddleHeight)) }

/-- Lines 427-432: the end of the speed boost. -/
def boostExpiryStep (now : ℤ) (s : State) : State :=
  if s.speedBoostActive ∧ now - s.speedBoostStartTime > speedBoostDuration then
    { s with
      speedBoostActive := false
      ballSpeedX := s.ballSpeedX / speedBoostFactor
      ballSpeedY := s.ballSpeedY / speedBoostFactor }
  else s

/-- Lines 434-436: both speed components are clamped to `maxBallSpeed`. -/
def clampStep (s : State) : State :=
  { s with
    ballSpeedX := clampSpeed s.ballSpeedX s.maxBallSpeed
    ballSpeedY := clampSpeed s.ballSpeedY s.maxBallSpeed }

/-- The condition of the `if` on line 280: the ball is advanced in this frame. -/
def ballAdvanced (s : State) : Bool :=
  canSpawnBall s && s.ballDefined

/-- Lines 294-396: the ball moves, then the walls, the two paddles and the two
scoring edges are checked, in this order. -/
def collisionPhase (inp : FrameInput) (s : State) : State :=
  rightScoreStep inp (rightPaddleStep (leftStep inp (wallStep (trailStep (moveStep s)))))

/-- Lines 294-436: the body of the `if` on line 280. -/
def ballBody (inp : FrameInput) (s : State) : State :=
  clampStep (boostExpiryStep inp.nowAtCheck (aiStep inp (collisionPhase inp s)))

/-- Lines 279-437. -/
def ballStep (inp : FrameInput) (s : State) : State :=
  if ballAdvanced s then ballBody inp s else s

/-- Lines 439-445: the player paddle follows the `w` and `s` keys. -/
def playerKeyStep (paddleSpeed : ℚ) (s : State) : State :=
  let s1 : State :=
    if s.wPressed then { s with playerPaddleY := max 0 (s.playerPaddleY - paddleSpeed) }
    else s
  if s1.sPressed then
    { s1 with
      playerPaddleY := min (s1.canvas_height - s1.paddleHeight) (s1.playerPaddleY + paddleSpeed) }
  else s1

/-- Lines 447-455: with difficulty `disable` the computer paddle follows the
arrow keys. -/
def computerKeyStep (paddleSpeed : ℚ) (s : State) : State :=
  if s.difficulty = .disable then
    let s1 : State :=
      if s.upPressed then
        { s with computerPaddleY := max 0 (s.computerPaddleY - paddleSpeed) }
      else s
    if s1.downPressed then
      { s1 with
        computerPaddleY :=
          min (s1.canvas_height - s1.paddleHeight) (s1.computerPaddleY + paddleSpeed) }
    else s1
  else s

/-- One call of `draw()`, lines 144-460. -/
def draw (inp : FrameInput) (s : State) : State :=
  computerKeyStep inp.paddleSpeedInput
    (playerKeyStep inp.paddleSpeedInput (ballStep inp (ledStep s)))

/-- The `mousemove` handler of lines 1197-1204; `mouseY` is the value of the
local constant computed on line 1200. -/
def mousemove (mouseY : ℚ) (s : State) : State :=
  { s with
    lastPlayerPaddleY := s.playerPaddleY
    playerPaddleY := max 0 (min (mouseY - s.paddleHeight / 2) (s.canvas_height - s.paddleHeight)) }

/-- The click handler of the start button, lines 1082-1089 (the assignments to
script variables): `customSpeedValue` is the number in the custom-speed input,
`selected` the value of the difficulty selector. -/
def startGame (customSpeedValue : ℚ) (selected : Difficulty) (r1 r2 : ℚ) (s : State) : State :=
  let s1 : State := { s with gameActive := true }
  let s2 : State :=
    if s1.difficulty = .custom then { s1 with customComputerSpeed := customSpeedValue } else s1
  { resetBall r1 r2 s2 with difficulty := selected }

/-- The i-th timer of `pending` fires: its callback runs and it leaves the list. -/
def fire (i : ℕ) (s : State) : State :=
  match s.pending.get? i with
  | some m => timerCallback m.computerSpeed { s with pending := s.pending.eraseIdx i }
  | none => s

/-- The keys the `keydown` and `keyup` handlers of lines 1171-1195 look at. -/
inductive Key where
  | w | s | arrowUp | arrowDown | other
  deriving DecidableEq, Repr

/-- The `keydown` handler of lines 1171-1182. -/
def keydown (k : Key) (s : State) : State :=
  match k with
  | .w => { s with wPressed := true }
  | .s => { s with sPressed := true }
  | .arrowUp => { s with upPressed := true }
  | .arrowDown => { s with downPressed := true }
  | .other => s

/-- The `keyup` handler of lines 1184-1195. -/
def keyup (k : Key) (s : State) : State :=
  match k with
  | .w => { s with wPressed := false }
  | .s => { s with sPressed := false }
  | .arrowUp => { s with upPressed := false }
  | .arrowDown => { s with downPressed := false }
  | .other => s

/-- What can happen to the script while a match is on: a frame, a mouse move, a
timer firing, a key going down or up, a click on the start button. -/
inductive Event where
  | frame (inp : FrameInput)
  | mouse (mouseY : ℚ)
  | timer (i : ℕ)
  | keyDown (k : Key)
  | keyUp (k : Key)
  | start (customSpeedValue : ℚ) (selected : Difficulty) (r1 r2 : ℚ)

/-- The handler of one event. -/
def step (e : Event) (s : State) : State :=
  match e with
  | .frame inp => draw inp s
  | .mouse mouseY => mousemove mouseY s
  | .timer i => fire i s
  | .keyDown k => keydown k s
  | .keyUp k => keyup k s
  | .start c d r1 r2 => startGame c d r1 r2 s

/-- The events of a list handled one after the other. -/
def run : List Event → State → State
  | [], s => s
  | e :: es, s => run es (step e s)

/-- The velocity right after a bounce off the player paddle and before the boost
is applied (lines 327-343), for a frame that starts in `s`. -/
def bounceVelocity (s : State) : ℚ × ℚ :=
  (-s.ballSpeedX,
    hitSpeedY ((moveStep s).ballY - (s.playerPaddleY + s.paddleHeight / 2)))

/-- The event leaves the velocity of the ball alone and does not end the boost:
in a frame that advances the ball, lines 294-396 (walls, paddles, scoring) return
the velocity they found and the boost has not yet run for more than
`speedBoostDuration`; any other event does not assign the velocity. -/
def quiet (e : Event) (s : State) : Prop :=
  match e with
  | .frame inp =>
      ballAdvanced s = true →
        (collisionPhase inp (ledStep s)).ballSpeedX = s.ballSpeedX ∧
        (collisionPhase inp (ledStep s)).ballSpeedY = s.ballSpeedY ∧
        ¬ (inp.nowAtCheck - s.speedBoostStartTime > speedBoostDuration)
  | e => (step e s).ballSpeedX = s.ballSpeedX ∧ (step e s).ballSpeedY = s.ballSpeedY

instance (e : Event) (s : State) : Decidable (quiet e s) := by
  cases e <;> unfold quiet <;> infer_instance

/-- Every event of the list is quiet in the state in which it is handled. -/
def quietRun : List Event → State → Prop
  | [], _ => True
  | e :: es, s => quiet e s ∧ quietRun es (step e s)

/-- Whether a list of events is a quiet run can be computed. -/
def decQuietRun : (es : List Event) → (s : State) → Decidable (quietRun es s)
  | [], _ => isTrue trivial
  | e :: es, s =>
      @instDecidableAnd (quiet e s) (quietRun es (step e s)) inferInstance
        (decQuietRun es (step e s))

instance (es : List Event) (s : State) : Decidable (quietRun es s) := decQuietRun es s

/-- One frame after the other, each followed by the timer that it has scheduled:
`n` times a frame with input `inp` and then the oldest pending timer. -/
def framesWithTimers (inp : FrameInput) : ℕ → State → State
  | 0, s => s
  | n + 1, s => framesWithTimers inp n (fire 0 (draw inp s))

/-- The state right after the script has been loaded with the default settings
(lines 4-48 and the set-up of lines 732-741), 800 x 400. -/
def initial : State where
  canvas_width := 800
  canvas_height := 400
  ballRadius := 10
  canvasWidth := 800
  canvasHeight := 400
  paddleHeight := 85
  paddleWidth := 15
  paddleGap := 15
  playerPaddleY := 315 / 2
  computerPaddleY := 315 / 2
  ballDefined := false
  ballX := 0
  ballY := 0
  ballSpeedX := -3
  ballSpeedY := 3
  playerScore := 0
  computerScore := 0
  lastPlayerPaddleY := 315 / 2
  difficulty := .easy
  customComputerSpeed := 2
  speedBoostActive := false
  speedBoostStartTime := 0
  gameActive := false
  ballTrailEnabled := true
  ballTrail := []
  glowTrail := []
  maxBallSpeed := 5
  ledOffset := 0
  ledTrail := []
  ledSpeed := 5
  spinningLEDEnabled := true
  upPressed := false
  downPressed := false
  wPressed := false
  sPressed := false
  alerts := []
  pending := []

/-- A frame input for the examples: the clock reads `now`, every random draw is
`r`, and both speed inputs hold their default values. -/
def frameAt (now : ℤ) (r : ℚ) : FrameInput where
  nowAtHit := now
  nowAtCheck := now
  rand := fun _ => r
  customSpeedInput := 2
  paddleSpeedInput := 5

/-- A match in progress on the default arena: the ball has slipped past the face
of the player paddle below it (left edge at x = 2) and the player has then moved
the paddle down over the ball. -/
def behindPaddle : State :=
  { initial with
    ballDefined := true, gameActive := true
    ballX := 12, ballY := 300, ballSpeedX := -3, ballSpeedY := 0
    playerPaddleY := 260, lastPlayerPaddleY := 315 / 2 }

/-- A match in progress on the default arena: the ball will be at (-1, 200) after
integration, with horizontal speed -3, and the player paddle is at the top. -/
def leftMiss : State :=
  { initial with
    ballDefined := true, gameActive := true
    ballX := 2, ballY := 200, ballSpeedX := -3, ballSpeedY := 0
    playerPaddleY := 0, lastPlayerPaddleY := 0 }

/-- A match in progress on the default arena with the player at 19 points: the
ball is about to leave on the right, below the computer paddle. -/
def matchPoint : State :=
  { initial with
    ballDefined := true, gameActive := true, playerScore := 19
    ballX := 789, ballY := 300, ballSpeedX := 3, ballSpeedY := 0 }

/-- A match in progress on the default arena: the ball is about to hit the player
paddle 40 pixels below its centre, no boost is active. -/
def boostStart : State :=
  { initial with
    ballDefined := true, gameActive := true
    ballX := 42, ballY := 240, ballSpeedX := -3, ballSpeedY := 0 }

/-- As `boostStart`, with the ball 20 pixels below the centre of the paddle. -/
def boostStartLow : State :=
  { initial with
    ballDefined := true, gameActive := true
    ballX := 42, ballY := 220, ballSpeedX := -3, ballSpeedY := 0 }

/-- Two frames, half a second and a second after the hit, with a mouse move in
between. -/
def boostedFlight : List Event :=
  [.frame (frameAt 500 0), .mouse 100, .frame (frameAt 1000 0)]

/-- An arena 10 pixels wide, narrower than the ball, with both sides at 19
points: the ball leaves on the left and, once reset to the centre, also sticks
out on the right. -/
def tinyArena : State :=
  { initial with
    canvas_width := 10, canvasWidth := 10
    paddleWidth := 3 / 16, paddleGap := 3 / 16
    ballDefined := true, gameActive := true, playerScore := 19, computerScore := 19
    ballX := 5, ballY := 300, ballSpeedX := -3, ballSpeedY := 0 }

/-- The value of a hexadecimal digit, given as a UTF-16 code unit: `0`-`9`,
`a`-`f` or `A`-`F`. -/
def hexDigitValue (u : ℕ) : Option ℕ :=
  if 48 ≤ u ∧ u ≤ 57 then some (u - 48)
  else if 97 ≤ u ∧ u ≤ 102 then some (u - 87)
  else if 65 ≤ u ∧ u ≤ 70 then some (u - 55)
  else none

/-- The code units that the conversion of a string to a number strips from both
ends: white space and line terminators. -/
def isStrWhiteSpace (u : ℕ) : Bool :=
  decide (u ∈ [0x09, 0x0A, 0x0B, 0x0C, 0x0D, 0x20, 0xA0, 0x1680, 0x2000, 0x2001, 0x2002,
    0x2003, 0x2004, 0x2005, 0x2006, 0x2007, 0x2008, 0x2009, 0x200A, 0x2028, 0x2029, 0x202F,
    0x205F, 0x3000, 0xFEFF])

/-- The unary `+` of line 478 applied to the string `"0x" + c1 + c2` built on lines
468-476, for two code units `c1` and `c2`: two hexadecimal digits give a byte, a
digit followed by white space gives the digit, everything else gives `NaN`
(`none`). -/
def plus0x (c1 c2 : ℕ) : Option ℕ :=
  match hexDigitValue c1, hexDigitValue c2 with
  | some d1, some d2 => some (16 * d1 + d2)
  | some d1, none => if isStrWhiteSpace c2 then some d1 else none
  | none, _ => none

/-- The text that string concatenation produces for a number that is a natural
number or `NaN`. -/
def numberText : Option ℕ → String
  | some n => toString n
  | none => "NaN"

/-- The function `hexToRGBA(hex, alpha)` of lines 463-479. The string `hex` is given
by its UTF-16 code units, whose number is `hex.length`; `alpha` is given by the text
that string concatenation produces for it. -/
def hexToRGBA (hex : List ℕ) (alpha : String) : String :=
  let rgb : Option ℕ × Option ℕ × Option ℕ :=
    if hex.length = 4 then
      (plus0x (hex.getD 1 0) (hex.getD 1 0), plus0x (hex.getD 2 0) (hex.getD 2 0),
        plus0x (hex.getD 3 0) (hex.getD 3 0))
    else if hex.length = 7 then
      (plus0x (hex.getD 1 0) (hex.getD 2 0), plus0x (hex.getD 3 0) (hex.getD 4 0),
        plus0x (hex.getD 5 0) (hex.getD 6 0))
    else (some 0, some 0, some 0)
  "rgba(" ++ numberText rgb.1 ++ "," ++ numberText rgb.2.1 ++ "," ++ numberText rgb.2.2 ++ ","
    ++ alpha ++ ")"

/-- The UTF-16 code units of a text whose characters all lie in the Basic
Multilingual Plane. -/
def codeUnits (s : String) : List ℕ := s.data.map Char.toNat

/-- Lines 678-712, the assignments of `updateCanvasSize()`: `maxBallSpeedValue` is
the number in the speed slider, `r1` and `r2` are the two `Math.random()` values. -/
def updateCanvasSizeBody (maxBallSpeedValue r1 r2 : ℚ) (s : State) : State :=
  let paddleHeight : ℚ := (17 / 80) * s.canvasHeight
  let s1 : State :=
    { s with
      canvas_width := s.canvasWidth
      canvas_height := s.canvasHeight
      paddleHeight := paddleHeight
      paddleWidth := (3 / 160) * s.canvasWidth
      paddleGap := (3 / 160) * s.canvasWidth
      maxBallSpeed := maxBallSpeedValue
      playerPaddleY := (s.canvasHeight - paddleHeight) / 2
      computerPaddleY := (s.canvasHeight - paddleHeight) / 2 }
  let initialSpeed : ℚ := (s.canvasWidth / 800) * 3
  let s2 : State :=
    if s1.ballDefined then
      { s1 with
        ballX := s.canvasWidth / 2
        ballY := s.canvasHeight / 2
        ballSpeedX := clampSpeed (if r1 > 1 / 2 then initialSpeed else -initialSpeed)
          maxBallSpeedValue
        ballSpeedY := clampSpeed ((r2 - 1 / 2) * (initialSpeed * 2)) maxBallSpeedValue }
    else s1
  { s2 with ballTrail := [], glowTrail := [] }

/-- The function `updateCanvasSize()` of lines 677-715: the assignments, then the
call of `draw()` on line 714, which reads `inp`. -/
def updateCanvasSize (maxBallSpeedValue r1 r2 : ℚ) (inp : FrameInput) (s : State) : State :=
  draw inp (updateCanvasSizeBody maxBallSpeedValue r1 r2 s)

/-- The `input` handler of the width slider, lines 719-722; `v` is the integer
that `parseInt` reads from the slider. -/
def canvasWidthInput (v : ℤ) (maxBallSpeedValue r1 r2 : ℚ) (inp : FrameInput) (s : State) :
    State :=
  updateCanvasSize maxBallSpeedValue r1 r2 inp { s with canvasWidth := v }

/-- The `input` handler of the height slider, lines 727-730. -/
def canvasHeightInput (v : ℤ) (maxBallSpeedValue r1 r2 : ℚ) (inp : FrameInput) (s : State) :
    State :=
  updateCanvasSize maxBallSpeedValue r1 r2 inp { s with canvasHeight := v }

/-- The initial set-up of lines 732-740 in the `load` handler. -/
def initialSetup (s : State) : State :=
  { s with
    canvas_width := s.canvasWidth
    canvas_height := s.canvasHeight
    paddleHeight := (17 / 80) * s.canvasHeight
    paddleWidth := (3 / 160) * s.canvasWidth
    paddleGap := (3 / 160) * s.canvasWidth
    playerPaddleY := (s.canvasHeight - (17 / 80) * s.canvasHeight) / 2
    computerPaddleY := (s.canvasHeight - (17 / 80) * s.canvasHeight) / 2 }

/-- The position of the ball after `moveStep`, as a trail entry. -/
def nextPos (s : State) : Pos := ⟨s.ballX + s.ballSpeedX, s.ballY + s.ballSpeedY⟩

/-- A match in progress on the default arena: the ball at (400, 2) moves straight
up with speed 3. -/
def wallExample : State :=
  { initial with
    ballDefined := true, gameActive := true
    ballX := 400, ballY := 2, ballSpeedX := 0, ballSpeedY := -3 }

/-- A match in progress on the default arena: the player paddle spans y in
[100, 185], the ball is at (30, 142) with horizontal speed -3, no boost is on. -/
def paddleHitExample : State :=
  { initial with
    ballDefined := true, gameActive := true
    ballX := 30, ballY := 142, ballSpeedX := -3, ballSpeedY := 0
    playerPaddleY := 100, lastPlayerPaddleY := 100 }

/-- As `paddleHitExample`, with a boost that was switched on at time 0 and a
boosted ball. -/
def boostedHitExample : State :=
  { paddleHitExample with
    speedBoostActive := true, speedBoostStartTime := 0
    ballSpeedX := -9 / 2, ballSpeedY := 3 / 2 }

/-- A match in progress on the default arena with all three trail buffers full. -/
def fullTrails : State :=
  { boostStart with
    ballTrail := List.replicate 30 ⟨400, 200⟩
    glowTrail := List.replicate 80 ⟨400, 200⟩
    ledTrail := List.replicate 15 ⟨10, 10⟩ }

/-- A run from the initial state: the start button is clicked, the player moves
the paddle to the top, and the ball (all random draws are 1/2, so it flies
horizontally to the left) passes below the paddle in the 131st frame: the computer
scores the first point. -/
def firstPoint : List Event :=
  [.start 2 .easy (1 / 2) (1 / 2), .mouse 0] ++ List.replicate 131 (.frame (frameAt 0 (1 / 2)))

/-- The default arena with the `w` key held down. -/
def wHeld : State := keydown .w initial

/-- The `change` handler of the ball-trail checkbox, lines 644-646; `checked` is
the state of the checkbox. -/
def ballTrailChange (checked : Bool) (s : State) : State :=
  { s with ballTrailEnabled := checked }

/-- An event, or a call of `checkWinner()` on its own; `r1` and `r2` are the
`Math.random()` values of the `resetBall` inside it. -/
inductive Action where
  | event (e : Event)
  | winCheck (r1 r2 : ℚ)

/-- The effect of one action. -/
def perform (a : Action) (s : State) : State :=
  match a with
  | .event e => step e s
  | .winCheck r1 r2 => checkWinner r1 r2 s

/-- The actions of a list performed one after the other. -/
def performAll : List Action → State → State
  | [], s => s
  | a :: as, s => performAll as (perform a s)

/-- A match in progress on the default arena: the ball is about to hit the
computer paddle 30 pixels below its centre, moving right with speed 3. -/
def rightHitExample : State :=
  { initial with
    ballDefined := true, gameActive := true
    ballX := 768, ballY := 230, ballSpeedX := 3, ballSpeedY := 0 }

/-- A match in progress on the default arena: the ball crosses the middle of the
arena 7 pixels below the centre of the computer paddle, moving up and left. -/
def staleMove : State :=
  { initial with
    ballDefined := true, gameActive := true
    ballX := 400, ballY := 207, ballSpeedX := -3, ballSpeedY := -3 }

/-- As `leftMiss`, with a boost that was switched on at time 0 still flagged
active. -/
def boostedMiss : State :=
  { leftMiss with speedBoostActive := true, speedBoostStartTime := 0 }

/-- The state in which lines 367-396 run, in the frame that starts in `s`. -/
def beforeRightScore (inp : FrameInput) (s : State) : State :=
  rightPaddleStep (leftStep inp (wallStep (trailStep (moveStep (ledStep s)))))

/-- The setting of `wallExample` apart from the height and the vertical speed of
the ball: the default arena, a ball in the middle with no horizontal speed, both
scores below 20, speed limit 5, no boost. -/
def wallLoop (t : State) : Prop :=
  t.ballDefined = true ∧ t.playerScore < 20 ∧ t.computerScore < 20 ∧
    t.ballX = 400 ∧ t.ballSpeedX = 0 ∧ t.canvas_width = 800 ∧ t.canvas_height = 400 ∧
    t.ballRadius = 10 ∧ t.paddleWidth = 15 ∧ t.paddleGap = 15 ∧ t.maxBallSpeed = 5 ∧
    t.speedBoostActive = false

instance (t : State) : Decidable (wallLoop t) := by
  unfold wallLoop; infer_instance

/-- The run `firstPoint`, followed by a win check, the timer of the first frame
and a second click on the start button. -/
def firstPointAndMore : List Action :=
  firstPoint.map Action.event ++
    [.winCheck 0 0, .event (.timer 0), .event (.start 2 .easy 0 0)]

/-- The values that the settings handlers give to the settings variables of the
script: the numbers, texts and check marks read from the controls of the settings
menu (`applySettings`, lines 846-858) or from `localStorage` (the `load` handler,
lines 544-561). -/
structure Settings where
  difficulty : Difficulty
  ballTrailEnabled : Bool
  spinningLEDEnabled : Bool
  maxBallSpeed : ℚ
  customComputerSpeed : ℚ
  canvasWidth : ℤ
  canvasHeight : ℤ

/-- Lines 846-850 and 857-858 of `applySettings`: the assignments to the settings
variables that are fields of `State`. The `load` handler (lines 544-550 and
560-561) and the reset handler (lines 923-927 and 935-936) assign the same
variables. -/
def assignSettings (v : Settings) (s : State) : State :=
  { s with
    difficulty := v.difficulty
    ballTrailEnabled := v.ballTrailEnabled
    spinningLEDEnabled := v.spinningLEDEnabled
    maxBallSpeed := v.maxBallSpeed
    customComputerSpeed := v.customComputerSpeed
    canvasWidth := v.canvasWidth
    canvasHeight := v.canvasHeight }

/-- The function `applySettings()` of lines 827-878, as far as it assigns script
variables: the assignments of lines 846-858, then `updateCanvasSize()` on line
869, which reads the speed slider again. -/
def applySettings (v : Settings) (r1 r2 : ℚ) (inp : FrameInput) (s : State) : State :=
  updateCanvasSize v.maxBallSpeed r1 r2 inp (assignSettings v s)

/-- The defaults that the reset handler assigns on lines 923-936. -/
def defaultSettings : Settings where
  difficulty := .easy
  ballTrailEnabled := true
  spinningLEDEnabled := true
  maxBallSpeed := 5
  customComputerSpeed := 2
  canvasWidth := 800
  canvasHeight := 400

/-- The click handler of the reset button, lines 887-960, as far as it assigns
script variables: the defaults of lines 923-936, then `updateCanvasSize()` on line
951, which reads the speed slider that line 909 has set to 5. -/
def resetSettings (r1 r2 : ℚ) (inp : FrameInput) (s : State) : State :=
  updateCanvasSize 5 r1 r2 inp (assignSettings defaultSettings s)

/-- The `load` handler of lines 542-1164, as far as it assigns script variables
itself: `v` holds the values that the settings variables have after lines 544-561,
650, 718 and 726; then the initial set-up of lines 734-740. -/
def loadSettings (v : Settings) (s : State) : State :=
  initialSetup (assignSettings v s)

/-- The `input` handler of the speed slider, lines 651-653; `v` is the number in
the slider. -/
def maxBallSpeedInput (v : ℚ) (s : State) : State :=
  { s with maxBallSpeed := v }

/-- Everything that assigns a variable of `State` while the page is open: an
`Action`, the `load` handler, and the handlers of the settings menu. -/
inductive PageAction where
  | action (a : Action)
  | load (v : Settings)
  | trailBox (checked : Bool)
  | speedSlider (v : ℚ)
  | widthSlider (v : ℤ) (maxBallSpeedValue r1 r2 : ℚ) (inp : FrameInput)
  | heightSlider (v : ℤ) (maxBallSpeedValue r1 r2 : ℚ) (inp : FrameInput)
  | applyButton (v : Settings) (r1 r2 : ℚ) (inp : FrameInput)
  | resetButton (r1 r2 : ℚ) (inp : FrameInput)

/-- The effect of one page action. -/
def handle (a : PageAction) (s : State) : State :=
  match a with
  | .action a => perform a s
  | .load v => loadSettings v s
  | .trailBox checked => ballTrailChange checked s
  | .speedSlider v => maxBallSpeedInput v s
  | .widthSlider v m r1 r2 inp => canvasWidthInput v m r1 r2 inp s
  | .heightSlider v m r1 r2 inp => canvasHeightInput v m r1 r2 inp s
  | .applyButton v r1 r2 inp => applySettings v r1 r2 inp s
  | .resetButton r1 r2 inp => resetSettings r1 r2 inp s

/-- The page actions of a list handled one after the other. -/
def handleAll : List PageAction → State → State
  | [], s => s
  | a :: as, s => handleAll as (handle a s)

/-- A page right after the script has been loaded, whatever the stored settings
and the size of the arena: the ball is `undefined` (line 15), no match is on (line
30), both scores are 0 (lines 19-20), both ball trails are empty (lines 33-34) and
no `alert` has been shown. -/
def freshPage (s : State) : Prop :=
  s.ballDefined = false ∧ s.gameActive = false ∧ s.playerScore = 0 ∧ s.computerScore = 0 ∧
    s.ballTrail = [] ∧ s.glowTrail = [] ∧ s.alerts = []

instance (s : State) : Decidable (freshPage s) := by
  unfold freshPage; infer_instance

/-- What holds on a page as long as no winner has been announced: both scores are
below 20, a ball exists only while a match is on, and without a ball both ball
trails are empty. -/
def beforeWin (s : State) : Prop :=
  s.playerScore < 20 ∧ s.computerScore < 20 ∧ (s.ballDefined = true → s.gameActive = true) ∧
    (s.ballDefined = false → s.ballTrail = [] ∧ s.glowTrail = [])

/-- A match in which the trail is switched off after two frames: a click on the
start button, two frames, then the ball-trail check box is cleared. -/
def trailSwitchedOff : List PageAction :=
  [.action (.event (.start 2 .easy 0 0)), .action (.event (.frame (frameAt 0 0))),
    .action (.event (.frame (frameAt 0 0))), .trailBox false]

/-- A page before the first click on the start button: a mouse move, a frame, the
ball-trail check box is cleared, a key goes down, the arena is made wider. -/
def menuActions : List PageAction :=
  [.action (.event (.mouse 100)), .action (.event (.frame (frameAt 0 0))), .trailBox false,
    .action (.event (.keyDown .w)), .widthSlider 1000 5 0 0 (frameAt 0 0)]

/-! ## Which variables each step leaves alone -/

@[simp] theorem ledStep_canvas_width (s : State) :
    (ledStep s).canvas_width = s.canvas_width := by unfold ledStep; split <;> rfl
@[simp] theorem ledStep_canvas_height (s : State) :
    (ledStep s).canvas_height = s.canvas_height := by unfold ledStep; split <;> rfl
@[simp] theorem ledStep_ballRadius (s : State) :
    (ledStep s).ballRadius = s.ballRadius := by unfold ledStep; split <;> rfl
@[simp] theorem ledStep_paddleHeight (s : State) :
    (ledStep s).paddleHeight = s.paddleHeight := by unfold ledStep; split <;> rfl
@[simp] theorem ledStep_paddleWidth (s : State) :
    (ledStep s).paddleWidth = s.paddleWidth := by unfold ledStep; split <;> rfl
@[simp] theorem ledStep_paddleGap (s : State) :
    (ledStep s).paddleGap = s.paddleGap := by unfold ledStep; split <;> rfl
@[simp] theorem ledStep_playerPaddleY (s : State) :
    (ledStep s).playerPaddleY = s.playerPaddleY := by unfold ledStep; split <;> rfl
@[simp] theorem ledStep_computerPaddleY (s : State) :
    (ledStep s).computerPaddleY = s.computerPaddleY := by unfold ledStep; split <;> rfl
@[simp] theorem ledStep_ballDefined (s : State) :
    (ledStep s).ballDefined = s.ballDefined := by unfold ledStep; split <;> rfl
@[simp] theorem ledStep_ballX (s : State) :
    (ledStep s).ballX = s.ballX := by unfold ledStep; split <;> rfl
@[simp] theorem ledStep_ballY (s : State) :
    (ledStep s).ballY = s.ballY := by unfold ledStep; split <;> rfl
@[simp] theorem ledStep_ballSpeedX (s : State) :
    (ledStep s).ballSpeedX = s.ballSpeedX := by unfold ledStep; split <;> rfl
@[simp] theorem ledStep_ballSpeedY (s : State) :
    (ledStep s).ballSpeedY = s.ballSpeedY := by unfold ledStep; split <;> rfl
@[simp] theorem ledStep_playerScore (s : State) :
    (ledStep s).playerScore = s.playerScore := by unfold ledStep; split <;> rfl
@[simp] theorem ledStep_computerScore (s : State) :
    (ledStep s).computerScore = s.computerScore := by unfold ledStep; split <;> rfl
@[simp] theorem ledStep_speedBoostActive (s : State) :
    (ledStep s).speedBoostActive = s.speedBoostActive := by unfold ledStep; split <;> rfl
@[simp] theorem ledStep_speedBoostStartTime (s : State) :
    (ledStep s).speedBoostStartTime = s.speedBoostStartTime := by unfold ledStep; split <;> rfl
@[simp] theorem ledStep_gameActive (s : State) :
    (ledStep s).gameActive = s.gameActive := by unfold ledStep; split <;> rfl
@[simp] theorem ledStep_maxBallSpeed (s : State) :
    (ledStep s).maxBallSpeed = s.maxBallSpeed := by unfold ledStep; split <;> rfl
@[simp] theorem ledStep_alerts (s : State) :
    (ledStep s).alerts = s.alerts := by unfold ledStep; split <;> rfl
@[simp] theorem ledStep_difficulty (s : State) :
    (ledStep s).difficulty = s.difficulty := by unfold ledStep; split <;> rfl

@[simp] theorem moveStep_canvas_width (s : State) :
    (moveStep s).canvas_width = s.canvas_width := by rfl
@[simp] theorem moveStep_canvas_height (s : State) :
    (moveStep s).canvas_height = s.canvas_height := by rfl
@[simp] theorem moveStep_ballRadius (s : State) :
    (moveStep s).ballRadius = s.ballRadius := by rfl
@[simp] theorem moveStep_paddleHeight (s : State) :
    (moveStep s).paddleHeight = s.paddleHeight := by rfl
@[simp] theorem moveStep_paddleWidth (s : State) :
    (moveStep s).paddleWidth = s.paddleWidth := by rfl
@[simp] theorem moveStep_paddleGap (s : State) :
    (moveStep s).paddleGap = s.paddleGap := by rfl
@[simp] theorem moveStep_playerPaddleY (s : State) :
    (moveStep s).playerPaddleY = s.playerPaddleY := by rfl
@[simp] theorem moveStep_computerPaddleY (s : State) :
    (moveStep s).computerPaddleY = s.computerPaddleY := by rfl
@[simp] theorem moveStep_ballDefined (s : State) :
    (moveStep s).ballDefined = s.ballDefined := by rfl
@[simp] theorem moveStep_ballSpeedX (s : State) :
    (moveStep s).ballSpeedX = s.ballSpeedX := by rfl
@[simp] theorem moveStep_ballSpeedY (s : State) :
    (moveStep s).ballSpeedY = s.ballSpeedY := by rfl
@[simp] theorem moveStep_playerScore (s : State) :
    (moveStep s).playerScore = s.playerScore := by rfl
@[simp] theorem moveStep_computerScore (s : State) :
    (moveStep s).computerScore = s.computerScore := by rfl
@[simp] theorem moveStep_speedBoostActive (s : State) :
    (moveStep s).speedBoostActive = s.speedBoostActive := by rfl
@[simp] theorem moveStep_speedBoostStartTime (s : State) :
    (moveStep s).speedBoostStartTime = s.speedBoostStartTime := by rfl
@[simp] theorem moveStep_gameActive (s : State) :
    (moveStep s).gameActive = s.gameActive := by rfl
@[simp] theorem moveStep_maxBallSpeed (s : State) :
    (moveStep s).maxBallSpeed = s.maxBallSpeed := by rfl
@[simp] theorem moveStep_alerts (s : State) :
    (moveStep s).alerts = s.alerts := by rfl
@[simp] theorem moveStep_difficulty (s : State) :
    (moveStep s).difficulty = s.difficulty := by rfl

@[simp] theorem trailStep_canvas_width (s : State) :
    (trailStep s).canvas_width = s.canvas_width := by unfold trailStep; split <;> rfl
@[simp] theorem trailStep_canvas_height (s : State) :
    (trailStep s).canvas_height = s.canvas_height := by unfold trailStep; split <;> rfl
@[simp] theorem trailStep_ballRadius (s : State) :
    (trailStep s).ballRadius = s.ballRadius := by unfold trailStep; split <;> rfl
@[simp] theorem trailStep_paddleHeight (s : State) :
    (trailStep s).paddleHeight = s.paddleHeight := by unfold trailStep; split <;> rfl
@[simp] theorem trailStep_paddleWidth (s : State) :
    (trailStep s).paddleWidth = s.paddleWidth := by unfold trailStep; split <;> rfl
@[simp] theorem trailStep_paddleGap (s : State) :
    (trailStep s).paddleGap = s.paddleGap := by unfold trailStep; split <;> rfl
@[simp] theorem trailStep_playerPaddleY (s : State) :
    (trailStep s).playerPaddleY = s.playerPaddleY := by unfold trailStep; split <;> rfl
@[simp] theorem trailStep_computerPaddleY (s : State) :
    (trailStep s).computerPaddleY = s.computerPaddleY := by unfold trailStep; split <;> rfl
@[simp] theorem trailStep_ballDefined (s : State) :
    (trailStep s).ballDefined = s.ballDefined := by unfold trailStep; split <;> rfl
@[simp] theorem trailStep_ballX (s : State) :
    (trailStep s).ballX = s.ballX := by unfold trailStep; split <;> rfl
@[simp] theorem trailStep_ballY (s : State) :
    (trailStep s).ballY = s.ballY := by unfold trailStep; split <;> rfl
@[simp] theorem trailStep_ballSpeedX (s : State) :
    (trailStep s).ballSpeedX = s.ballSpeedX := by unfold trailStep; split <;> rfl
@[simp] theorem trailStep_ballSpeedY (s : State) :
    (trailStep s).ballSpeedY = s.ballSpeedY := by unfold trailStep; split <;> rfl
@[simp] theorem trailStep_playerScore (s : State) :
    (trailStep s).playerScore = s.playerScore := by unfold trailStep; split <;> rfl
@[simp] theorem trailStep_computerScore (s : State) :
    (trailStep s).computerScore = s.computerScore := by unfold trailStep; split <;> rfl
@[simp] theorem trailStep_speedBoostActive (s : State) :
    (trailStep s).speedBoostActive = s.speedBoostActive := by unfold trailStep; split <;> rfl
@[simp] theorem trailStep_speedBoostStartTime (s : State) :
    (trailStep s).speedBoostStartTime = s.speedBoostStartTime := by unfold trailStep; split <;> rfl
@[simp] theorem trailStep_gameActive (s : State) :
    (trailStep s).gameActive = s.gameActive := by unfold trailStep; split <;> rfl
@[simp] theorem trailStep_maxBallSpeed (s : State) :
    (trailStep s).maxBallSpeed = s.maxBallSpeed := by unfold trailStep; split <;> rfl
@[simp] theorem trailStep_alerts (s : State) :
    (trailStep s).alerts = s.alerts := by unfold trailStep; split <;> rfl
@[simp] theorem trailStep_difficulty (s : State) :
    (trailStep s).difficulty = s.difficulty := by unfold trailStep; split <;> rfl

@[simp] theorem wallStep_canvas_width (s : State) :
    (wallStep s).canvas_width = s.canvas_width := by unfold wallStep; split <;> rfl
@[simp] theorem wallStep_canvas_height (s : State) :
    (wallStep s).canvas_height = s.canvas_height := by unfold wallStep; split <;> rfl
@[simp] theorem wallStep_ballRadius (s : State) :
    (wallStep s).ballRadius = s.ballRadius := by unfold wallStep; split <;> rfl
@[simp] theorem wallStep_paddleHeight (s : State) :
    (wallStep s).paddleHeight = s.paddleHeight := by unfold wallStep; split <;> rfl
@[simp] theorem wallStep_paddleWidth (s : State) :
    (wallStep s).paddleWidth = s.paddleWidth := by unfold wallStep; split <;> rfl
@[simp] theorem wallStep_paddleGap (s : State) :
    (wallStep s).paddleGap = s.paddleGap := by unfold wallStep; split <;> rfl
@[simp] theorem wallStep_playerPaddleY (s : State) :
    (wallStep s).playerPaddleY = s.playerPaddleY := by unfold wallStep; split <;> rfl
@[simp] theorem wallStep_computerPaddleY (s : State) :
    (wallStep s).computerPaddleY = s.computerPaddleY := by unfold wallStep; split <;> rfl
@[simp] theorem wallStep_ballDefined (s : State) :
    (wallStep s).ballDefined = s.ballDefined := by unfold wallStep; split <;> rfl
@[simp] theorem wallStep_ballX (s : State) :
    (wallStep s).ballX = s.ballX := by unfold wallStep; split <;> rfl
@[simp] theorem wallStep_ballY (s : State) :
    (wallStep s).ballY = s.ballY := by unfold wallStep; split <;> rfl
@[simp] theorem wallStep_ballSpeedX (s : State) :
    (wallStep s).ballSpeedX = s.ballSpeedX := by unfold wallStep; split <;> rfl
@[simp] theorem wallStep_playerScore (s : State) :
    (wallStep s).playerScore = s.playerScore := by unfold wallStep; split <;> rfl
@[simp] theorem wallStep_computerScore (s : State) :
    (wallStep s).computerScore = s.computerScore := by unfold wallStep; split <;> rfl
@[simp] theorem wallStep_speedBoostActive (s : State) :
    (wallStep s).speedBoostActive = s.speedBoostActive := by unfold wallStep; split <;> rfl
@[simp] theorem wallStep_speedBoostStartTime (s : State) :
    (wallStep s).speedBoostStartTime = s.speedBoostStartTime := by unfold wallStep; split <;> rfl
@[simp] theorem wallStep_gameActive (s : State) :
    (wallStep s).gameActive = s.gameActive := by unfold wallStep; split <;> rfl
@[simp] theorem wallStep_maxBallSpeed (s : State) :
    (wallStep s).maxBallSpeed = s.maxBallSpeed := by unfold wallStep; split <;> rfl
@[simp] theorem wallStep_alerts (s : State) :
    (wallStep s).alerts = s.alerts := by unfold wallStep; split <;> rfl
@[simp] theorem wallStep_difficulty (s : State) :
    (wallStep s).difficulty = s.difficulty := by unfold wallStep; split <;> rfl

@[simp] theorem activateBoost_canvas_width (now : ℤ) (s : State) :
    (activateBoost now s).canvas_width = s.canvas_width := by unfold activateBoost; split <;> rfl
@[simp] theorem activateBoost_canvas_height (now : ℤ) (s : State) :
    (activateBoost now s).canvas_height = s.canvas_height := by unfold activateBoost; split <;> rfl
@[simp] theorem activateBoost_ballRadius (now : ℤ) (s : State) :
    (activateBoost now s).ballRadius = s.ballRadius := by unfold activateBoost; split <;> rfl
@[simp] theorem activateBoost_paddleHeight (now : ℤ) (s : State) :
    (activateBoost now s).paddleHeight = s.paddleHeight := by unfold activateBoost; split <;> rfl
@[simp] theorem activateBoost_paddleWidth (now : ℤ) (s : State) :
    (activateBoost now s).paddleWidth = s.paddleWidth := by unfold activateBoost; split <;> rfl
@[simp] theorem activateBoost_paddleGap (now : ℤ) (s : State) :
    (activateBoost now s).paddleGap = s.paddleGap := by unfold activateBoost; split <;> rfl
@[simp] theorem activateBoost_playerPaddleY (now : ℤ) (s : State) :
    (activateBoost now s).playerPaddleY = s.playerPaddleY := by unfold activateBoost; split <;> rfl
@[simp] theorem activateBoost_computerPaddleY (now : ℤ) (s : State) :
    (activateBoost now s).computerPaddleY = s.computerPaddleY := by unfold activateBoost; split <;> rfl
@[simp] theorem activateBoost_ballDefined (now : ℤ) (s : State) :
    (activateBoost now s).ballDefined = s.ballDefined := by unfold activateBoost; split <;> rfl
@[simp] theorem activateBoost_ballX (now : ℤ) (s : State) :
    (activateBoost now s).ballX = s.ballX := by unfold activateBoost; split <;> rfl
@[simp] theorem activateBoost_ballY (now : ℤ) (s : State) :
    (activateBoost now s).ballY = s.ballY := by unfold activateBoost; split <;> rfl
@[simp] theorem activateBoost_playerScore (now : ℤ) (s : State) :
    (activateBoost now s).playerScore = s.playerScore := by unfold activateBoost; split <;> rfl
@[simp] theorem activateBoost_computerScore (now : ℤ) (s : State) :
    (activateBoost now s).computerScore = s.computerScore := by unfold activateBoost; split <;> rfl
@[simp] theorem activateBoost_gameActive (now : ℤ) (s : State) :
    (activateBoost now s).gameActive = s.gameActive := by unfold activateBoost; split <;> rfl
@[simp] theorem activateBoost_maxBallSpeed (now : ℤ) (s : State) :
    (activateBoost now s).maxBallSpeed = s.maxBallSpeed := by unfold activateBoost; split <;> rfl
@[simp] theorem activateBoost_alerts (now : ℤ) (s : State) :
    (activateBoost now s).alerts = s.alerts := by unfold activateBoost; split <;> rfl
@[simp] theorem activateBoost_difficulty (now : ℤ) (s : State) :
    (activateBoost now s).difficulty = s.difficulty := by unfold activateBoost; split <;> rfl

@[simp] theorem playerPaddleHit_canvas_width (now : ℤ) (s : State) :
    (playerPaddleHit now s).canvas_width = s.canvas_width := by unfold playerPaddleHit; split <;> simp
@[simp] theorem playerPaddleHit_canvas_height (now : ℤ) (s : State) :
    (playerPaddleHit now s).canvas_height = s.canvas_height := by unfold playerPaddleHit; split <;> simp
@[simp] theorem playerPaddleHit_ballRadius (now : ℤ) (s : State) :
    (playerPaddleHit now s).ballRadius = s.ballRadius := by unfold playerPaddleHit; split <;> simp
@[simp] theorem playerPaddleHit_paddleHeight (now : ℤ) (s : State) :
    (playerPaddleHit now s).paddleHeight = s.paddleHeight := by unfold playerPaddleHit; split <;> simp
@[simp] theorem playerPaddleHit_paddleWidth (now : ℤ) (s : State) :
    (playerPaddleHit now s).paddleWidth = s.paddleWidth := by unfold playerPaddleHit; split <;> simp
@[simp] theorem playerPaddleHit_paddleGap (now : ℤ) (s : State) :
    (playerPaddleHit now s).paddleGap = s.paddleGap := by unfold playerPaddleHit; split <;> simp
@[simp] theorem playerPaddleHit_playerPaddleY (now : ℤ) (s : State) :
    (playerPaddleHit now s).playerPaddleY = s.playerPaddleY := by unfold playerPaddleHit; split <;> simp
@[simp] theorem playerPaddleHit_computerPaddleY (now : ℤ) (s : State) :
    (playerPaddleHit now s).computerPaddleY = s.computerPaddleY := by unfold playerPaddleHit; split <;> simp
@[simp] theorem playerPaddleHit_ballDefined (now : ℤ) (s : State) :
    (playerPaddleHit now s).ballDefined = s.ballDefined := by unfold playerPaddleHit; split <;> simp
@[simp] theorem playerPaddleHit_ballX (now : ℤ) (s : State) :
    (playerPaddleHit now s).ballX = s.ballX := by unfold playerPaddleHit; split <;> simp
@[simp] theorem playerPaddleHit_ballY (now : ℤ) (s : State) :
    (playerPaddleHit now s).ballY = s.ballY := by unfold playerPaddleHit; split <;> simp
@[simp] theorem playerPaddleHit_playerScore (now : ℤ) (s : State) :
    (playerPaddleHit now s).playerScore = s.playerScore := by unfold playerPaddleHit; split <;> simp
@[simp] theorem playerPaddleHit_computerScore (now : ℤ) (s : State) :
    (playerPaddleHit now s).computerScore = s.computerScore := by unfold playerPaddleHit; split <;> simp
@[simp] theorem playerPaddleHit_gameActive (now : ℤ) (s : State) :
    (playerPaddleHit now s).gameActive = s.gameActive := by unfold playerPaddleHit; split <;> simp
@[simp] theorem playerPaddleHit_maxBallSpeed (now : ℤ) (s : State) :
    (playerPaddleHit now s).maxBallSpeed = s.maxBallSpeed := by unfold playerPaddleHit; split <;> simp
@[simp] theorem playerPaddleHit_alerts (now : ℤ) (s : State) :
    (playerPaddleHit now s).alerts = s.alerts := by unfold playerPaddleHit; split <;> simp
@[simp] theorem playerPaddleHit_difficulty (now : ℤ) (s : State) :
    (playerPaddleHit now s).difficulty = s.difficulty := by unfold playerPaddleHit; split <;> simp

@[simp] theorem displayWinner_canvas_width (w : String) (s : State) :
    (displayWinner w s).canvas_width = s.canvas_width := by rfl
@[simp] theorem displayWinner_canvas_height (w : String) (s : State) :
    (displayWinner w s).canvas_height = s.canvas_height := by rfl
@[simp] theorem displayWinner_ballRadius (w : String) (s : State) :
    (displayWinner w s).ballRadius = s.ballRadius := by rfl
@[simp] theorem displayWinner_paddleHeight (w : String) (s : State) :
    (displayWinner w s).paddleHeight = s.paddleHeight := by rfl
@[simp] theorem displayWinner_paddleWidth (w : String) (s : State) :
    (displayWinner w s).paddleWidth = s.paddleWidth := by rfl
@[simp] theorem displayWinner_paddleGap (w : String) (s : State) :
    (displayWinner w s).paddleGap = s.paddleGap := by rfl
@[simp] theorem displayWinner_playerPaddleY (w : String) (s : State) :
    (displayWinner w s).playerPaddleY = s.playerPaddleY := by rfl
@[simp] theorem displayWinner_computerPaddleY (w : String) (s : State) :
    (displayWinner w s).computerPaddleY = s.computerPaddleY := by rfl
@[simp] theorem displayWinner_ballDefined (w : String) (s : State) :
    (displayWinner w s).ballDefined = s.ballDefined := by rfl
@[simp] theorem displayWinner_ballX (w : String) (s : State) :
    (displayWinner w s).ballX = s.ballX := by rfl
@[simp] theorem displayWinner_ballY (w : String) (s : State) :
    (displayWinner w s).ballY = s.ballY := by rfl
@[simp] theorem displayWinner_ballSpeedX (w : String) (s : State) :
    (displayWinner w s).ballSpeedX = s.ballSpeedX := by rfl
@[simp] theorem displayWinner_ballSpeedY (w : String) (s : State) :
    (displayWinner w s).ballSpeedY = s.ballSpeedY := by rfl
@[simp] theorem displayWinner_speedBoostActive (w : String) (s : State) :
    (displayWinner w s).speedBoostActive = s.speedBoostActive := by rfl
@[simp] theorem displayWinner_speedBoostStartTime (w : String) (s : State) :
    (displayWinner w s).speedBoostStartTime = s.speedBoostStartTime := by rfl
@[simp] theorem displayWinner_maxBallSpeed (w : String) (s : State) :
    (displayWinner w s).maxBallSpeed = s.maxBallSpeed := by rfl
@[simp] theorem displayWinner_difficulty (w : String) (s : State) :
    (displayWinner w s).difficulty = s.difficulty := by rfl

@[simp] theorem resetBall_canvas_width (r1 r2 : ℚ) (s : State) :
    (resetBall r1 r2 s).canvas_width = s.canvas_width := by rfl
@[simp] theorem resetBall_canvas_height (r1 r2 : ℚ) (s : State) :
    (resetBall r1 r2 s).canvas_height = s.canvas_height := by rfl
@[simp] theorem resetBall_ballRadius (r1 r2 : ℚ) (s : State) :
    (resetBall r1 r2 s).ballRadius = s.ballRadius := by rfl
@[simp] theorem resetBall_paddleHeight (r1 r2 : ℚ) (s : State) :
    (resetBall r1 r2 s).paddleHeight = s.paddleHeight := by rfl
@[simp] theorem resetBall_paddleWidth (r1 r2 : ℚ) (s : State) :
    (resetBall r1 r2 s).paddleWidth = s.paddleWidth := by rfl
@[simp] theorem resetBall_paddleGap (r1 r2 : ℚ) (s : State) :
    (resetBall r1 r2 s).paddleGap = s.paddleGap := by rfl
@[simp] theorem resetBall_playerPaddleY (r1 r2 : ℚ) (s : State) :
    (resetBall r1 r2 s).playerPaddleY = s.playerPaddleY := by rfl
@[simp] theorem resetBall_computerPaddleY (r1 r2 : ℚ) (s : State) :
    (resetBall r1 r2 s).computerPaddleY = s.computerPaddleY := by rfl
@[simp] theorem resetBall_playerScore (r1 r2 : ℚ) (s : State) :
    (resetBall r1 r2 s).playerScore = s.playerScore := by rfl
@[simp] theorem resetBall_computerScore (r1 r2 : ℚ) (s : State) :
    (resetBall r1 r2 s).computerScore = s.computerScore := by rfl
@[simp] theorem resetBall_speedBoostActive (r1 r2 : ℚ) (s : State) :
    (resetBall r1 r2 s).speedBoostActive = s.speedBoostActive := by rfl
@[simp] theorem resetBall_speedBoostStartTime (r1 r2 : ℚ) (s : State) :
    (resetBall r1 r2 s).speedBoostStartTime = s.speedBoostStartTime := by rfl
@[simp] theorem resetBall_gameActive (r1 r2 : ℚ) (s : State) :
    (resetBall r1 r2 s).gameActive = s.gameActive := by rfl
@[simp] theorem resetBall_maxBallSpeed (r1 r2 : ℚ) (s : State) :
    (resetBall r1 r2 s).maxBallSpeed = s.maxBallSpeed := by rfl
@[simp] theorem resetBall_alerts (r1 r2 : ℚ) (s : State) :
    (resetBall r1 r2 s).alerts = s.alerts := by rfl
@[simp] theorem resetBall_difficulty (r1 r2 : ℚ) (s : State) :
    (resetBall r1 r2 s).difficulty = s.difficulty := by rfl

@[simp] theorem checkWinner_canvas_width (r1 r2 : ℚ) (s : State) :
    (checkWinner r1 r2 s).canvas_width = s.canvas_width := by unfold checkWinner; split_ifs <;> simp
@[simp] theorem checkWinner_canvas_height (r1 r2 : ℚ) (s : State) :
    (checkWinner r1 r2 s).canvas_height = s.canvas_height := by unfold checkWinner; split_ifs <;> simp
@[simp] theorem checkWinner_ballRadius (r1 r2 : ℚ) (s : State) :
    (checkWinner r1 r2 s).ballRadius = s.ballRadius := by unfold checkWinner; split_ifs <;> simp
@[simp] theorem checkWinner_paddleHeight (r1 r2 : ℚ) (s : State) :
    (checkWinner r1 r2 s).paddleHeight = s.paddleHeight := by unfold checkWinner; split_ifs <;> simp
@[simp] theorem checkWinner_paddleWidth (r1 r2 : ℚ) (s : State) :
    (checkWinner r1 r2 s).paddleWidth = s.paddleWidth := by unfold checkWinner; split_ifs <;> simp
@[simp] theorem checkWinner_paddleGap (r1 r2 : ℚ) (s : State) :
    (checkWinner r1 r2 s).paddleGap = s.paddleGap := by unfold checkWinner; split_ifs <;> simp
@[simp] theorem checkWinner_playerPaddleY (r1 r2 : ℚ) (s : State) :
    (checkWinner r1 r2 s).playerPaddleY = s.playerPaddleY := by unfold checkWinner; split_ifs <;> simp
@[simp] theorem checkWinner_computerPaddleY (r1 r2 : ℚ) (s : State) :
    (checkWinner r1 r2 s).computerPaddleY = s.computerPaddleY := by unfold checkWinner; split_ifs <;> simp
@[simp] theorem checkWinner_speedBoostActive (r1 r2 : ℚ) (s : State) :
    (checkWinner r1 r2 s).speedBoostActive = s.speedBoostActive := by unfold checkWinner; split_ifs <;> simp
@[simp] theorem checkWinner_speedBoostStartTime (r1 r2 : ℚ) (s : State) :
    (checkWinner r1 r2 s).speedBoostStartTime = s.speedBoostStartTime := by unfold checkWinner; split_ifs <;> simp
@[simp] theorem checkWinner_maxBallSpeed (r1 r2 : ℚ) (s : State) :
    (checkWinner r1 r2 s).maxBallSpeed = s.maxBallSpeed := by unfold checkWinner; split_ifs <;> simp
@[simp] theorem checkWinner_difficulty (r1 r2 : ℚ) (s : State) :
    (checkWinner r1 r2 s).difficulty = s.difficulty := by unfold checkWinner; split_ifs <;> simp

@[simp] theorem leftScore_canvas_width (inp : FrameInput) (s : State) :
    (leftScore inp s).canvas_width = s.canvas_width := by simp [leftScore]
@[simp] theorem leftScore_canvas_height (inp : FrameInput) (s : State) :
    (leftScore inp s).canvas_height = s.canvas_height := by simp [leftScore]
@[simp] theorem leftScore_ballRadius (inp : FrameInput) (s : State) :
    (leftScore inp s).ballRadius = s.ballRadius := by simp [leftScore]
@[simp] theorem leftScore_paddleHeight (inp : FrameInput) (s : State) :
    (leftScore inp s).paddleHeight = s.paddleHeight := by simp [leftScore]
@[simp] theorem leftScore_paddleWidth (inp : FrameInput) (s : State) :
    (leftScore inp s).paddleWidth = s.paddleWidth := by simp [leftScore]
@[simp] theorem leftScore_paddleGap (inp : FrameInput) (s : State) :
    (leftScore inp s).paddleGap = s.paddleGap := by simp [leftScore]
@[simp] theorem leftScore_playerPaddleY (inp : FrameInput) (s : State) :
    (leftScore inp s).playerPaddleY = s.playerPaddleY := by simp [leftScore]
@[simp] theorem leftScore_computerPaddleY (inp : FrameInput) (s : State) :
    (leftScore inp s).computerPaddleY = s.computerPaddleY := by simp [leftScore]
@[simp] theorem leftScore_speedBoostActive (inp : FrameInput) (s : State) :
    (leftScore inp s).speedBoostActive = s.speedBoostActive := by simp [leftScore]
@[simp] theorem leftScore_speedBoostStartTime (inp : FrameInput) (s : State) :
    (leftScore inp s).speedBoostStartTime = s.speedBoostStartTime := by simp [leftScore]
@[simp] theorem leftScore_maxBallSpeed (inp : FrameInput) (s : State) :
    (leftScore inp s).maxBallSpeed = s.maxBallSpeed := by simp [leftScore]
@[simp] theorem leftScore_difficulty (inp : FrameInput) (s : State) :
    (leftScore inp s).difficulty = s.difficulty := by simp [leftScore]

@[simp] theorem leftStep_canvas_width (inp : FrameInput) (s : State) :
    (leftStep inp s).canvas_width = s.canvas_width := by unfold leftStep; split_ifs <;> simp
@[simp] theorem leftStep_canvas_height (inp : FrameInput) (s : State) :
    (leftStep inp s).canvas_height = s.canvas_height := by unfold leftStep; split_ifs <;> simp
@[simp] theorem leftStep_ballRadius (inp : FrameInput) (s : State) :
    (leftStep inp s).ballRadius = s.ballRadius := by unfold leftStep; split_ifs <;> simp
@[simp] theorem leftStep_paddleHeight (inp : FrameInput) (s : State) :
    (leftStep inp s).paddleHeight = s.paddleHeight := by unfold leftStep; split_ifs <;> simp
@[simp] theorem leftStep_paddleWidth (inp : FrameInput) (s : State) :
    (leftStep inp s).paddleWidth = s.paddleWidth := by unfold leftStep; split_ifs <;> simp
@[simp] theorem leftStep_paddleGap (inp : FrameInput) (s : State) :
    (leftStep inp s).paddleGap = s.paddleGap := by unfold leftStep; split_ifs <;> simp
@[simp] theorem leftStep_playerPaddleY (inp : FrameInput) (s : State) :
    (leftStep inp s).playerPaddleY = s.playerPaddleY := by unfold leftStep; split_ifs <;> simp
@[simp] theorem leftStep_computerPaddleY (inp : FrameInput) (s : State) :
    (leftStep inp s).computerPaddleY = s.computerPaddleY := by unfold leftStep; split_ifs <;> simp
@[simp] theorem leftStep_maxBallSpeed (inp : FrameInput) (s : State) :
    (leftStep inp s).maxBallSpeed = s.maxBallSpeed := by unfold leftStep; split_ifs <;> simp
@[simp] theorem leftStep_difficulty (inp : FrameInput) (s : State) :
    (leftStep inp s).difficulty = s.difficulty := by unfold leftStep; split_ifs <;> simp

@[simp] theorem rightPaddleStep_canvas_width (s : State) :
    (rightPaddleStep s).canvas_width = s.canvas_width := by unfold rightPaddleStep; split_ifs <;> rfl
@[simp] theorem rightPaddleStep_canvas_height (s : State) :
    (rightPaddleStep s).canvas_height = s.canvas_height := by unfold rightPaddleStep; split_ifs <;> rfl
@[simp] theorem rightPaddleStep_ballRadius (s : State) :
    (rightPaddleStep s).ballRadius = s.ballRadius := by unfold rightPaddleStep; split_ifs <;> rfl
@[simp] theorem rightPaddleStep_paddleHeight (s : State) :
    (rightPaddleStep s).paddleHeight = s.paddleHeight := by unfold rightPaddleStep; split_ifs <;> rfl
@[simp] theorem rightPaddleStep_paddleWidth (s : State) :
    (rightPaddleStep s).paddleWidth = s.paddleWidth := by unfold rightPaddleStep; split_ifs <;> rfl
@[simp] theorem rightPaddleStep_paddleGap (s : State) :
    (rightPaddleStep s).paddleGap = s.paddleGap := by unfold rightPaddleStep; split_ifs <;> rfl
@[simp] theorem rightPaddleStep_playerPaddleY (s : State) :
    (rightPaddleStep s).playerPaddleY = s.playerPaddleY := by unfold rightPaddleStep; split_ifs <;> rfl
@[simp] theorem rightPaddleStep_computerPaddleY (s : State) :
    (rightPaddleStep s).computerPaddleY = s.computerPaddleY := by unfold rightPaddleStep; split_ifs <;> rfl
@[simp] theorem rightPaddleStep_ballDefined (s : State) :
    (rightPaddleStep s).ballDefined = s.ballDefined := by unfold rightPaddleStep; split_ifs <;> rfl
@[simp] theorem rightPaddleStep_ballX (s : State) :
    (rightPaddleStep s).ballX = s.ballX := by unfold rightPaddleStep; split_ifs <;> rfl
@[simp] theorem rightPaddleStep_ballY (s : State) :
    (rightPaddleStep s).ballY = s.ballY := by unfold rightPaddleStep; split_ifs <;> rfl
@[simp] theorem rightPaddleStep_playerScore (s : State) :
    (rightPaddleStep s).playerScore = s.playerScore := by unfold rightPaddleStep; split_ifs <;> rfl
@[simp] theorem rightPaddleStep_computerScore (s : State) :
    (rightPaddleStep s).computerScore = s.computerScore := by unfold rightPaddleStep; split_ifs <;> rfl
@[simp] theorem rightPaddleStep_speedBoostActive (s : State) :
    (rightPaddleStep s).speedBoostActive = s.speedBoostActive := by unfold rightPaddleStep; split_ifs <;> rfl
@[simp] theorem rightPaddleStep_speedBoostStartTime (s : State) :
    (rightPaddleStep s).speedBoostStartTime = s.speedBoostStartTime := by unfold rightPaddleStep; split_ifs <;> rfl
@[simp] theorem rightPaddleStep_gameActive (s : State) :
    (rightPaddleStep s).gameActive = s.gameActive := by unfold rightPaddleStep; split_ifs <;> rfl
@[simp] theorem rightPaddleStep_maxBallSpeed (s : State) :
    (rightPaddleStep s).maxBallSpeed = s.maxBallSpeed := by unfold rightPaddleStep; split_ifs <;> rfl
@[simp] theorem rightPaddleStep_alerts (s : State) :
    (rightPaddleStep s).alerts = s.alerts := by unfold rightPaddleStep; split_ifs <;> rfl
@[simp] theorem rightPaddleStep_difficulty (s : State) :
    (rightPaddleStep s).difficulty = s.difficulty := by unfold rightPaddleStep; split_ifs <;> rfl

@[simp] theorem rightScore_canvas_width (inp : FrameInput) (s : State) :
    (rightScore inp s).canvas_width = s.canvas_width := by simp [rightScore]
@[simp] theorem rightScore_canvas_height (inp : FrameInput) (s : State) :
    (rightScore inp s).canvas_height = s.canvas_height := by simp [rightScore]
@[simp] theorem rightScore_ballRadius (inp : FrameInput) (s : State) :
    (rightScore inp s).ballRadius = s.ballRadius := by simp [rightScore]
@[simp] theorem rightScore_paddleHeight (inp : FrameInput) (s : State) :
    (rightScore inp s).paddleHeight = s.paddleHeight := by simp [rightScore]
@[simp] theorem rightScore_paddleWidth (inp : FrameInput) (s : State) :
    (rightScore inp s).paddleWidth = s.paddleWidth := by simp [rightScore]
@[simp] theorem rightScore_paddleGap (inp : FrameInput) (s : State) :
    (rightScore inp s).paddleGap = s.paddleGap := by simp [rightScore]
@[simp] theorem rightScore_playerPaddleY (inp : FrameInput) (s : State) :
    (rightScore inp s).playerPaddleY = s.playerPaddleY := by simp [rightScore]
@[simp] theorem rightScore_computerPaddleY (inp : FrameInput) (s : State) :
    (rightScore inp s).computerPaddleY = s.computerPaddleY := by simp [rightScore]
@[simp] theorem rightScore_speedBoostActive (inp : FrameInput) (s : State) :
    (rightScore inp s).speedBoostActive = s.speedBoostActive := by simp [rightScore]
@[simp] theorem rightScore_speedBoostStartTime (inp : FrameInput) (s : State) :
    (rightScore inp s).speedBoostStartTime = s.speedBoostStartTime := by simp [rightScore]
@[simp] theorem rightScore_maxBallSpeed (inp : FrameInput) (s : State) :
    (rightScore inp s).maxBallSpeed = s.maxBallSpeed := by simp [rightScore]
@[simp] theorem rightScore_difficulty (inp : FrameInput) (s : State) :
    (rightScore inp s).difficulty = s.difficulty := by simp [rightScore]

@[simp] theorem rightScoreStep_canvas_width (inp : FrameInput) (s : State) :
    (rightScoreStep inp s).canvas_width = s.canvas_width := by unfold rightScoreStep; split_ifs <;> simp
@[simp] theorem rightScoreStep_canvas_height (inp : FrameInput) (s : State) :
    (rightScoreStep inp s).canvas_height = s.canvas_height := by unfold rightScoreStep; split_ifs <;> simp
@[simp] theorem rightScoreStep_ballRadius (inp : FrameInput) (s : State) :
    (rightScoreStep inp s).ballRadius = s.ballRadius := by unfold rightScoreStep; split_ifs <;> simp
@[simp] theorem rightScoreStep_paddleHeight (inp : FrameInput) (s : State) :
    (rightScoreStep inp s).paddleHeight = s.paddleHeight := by unfold rightScoreStep; split_ifs <;> simp
@[simp] theorem rightScoreStep_paddleWidth (inp : FrameInput) (s : State) :
    (rightScoreStep inp s).paddleWidth = s.paddleWidth := by unfold rightScoreStep; split_ifs <;> simp
@[simp] theorem rightScoreStep_paddleGap (inp : FrameInput) (s : State) :
    (rightScoreStep inp s).paddleGap = s.paddleGap := by unfold rightScoreStep; split_ifs <;> simp
@[simp] theorem rightScoreStep_playerPaddleY (inp : FrameInput) (s : State) :
    (rightScoreStep inp s).playerPaddleY = s.playerPaddleY := by unfold rightScoreStep; split_ifs <;> simp
@[simp] theorem rightScoreStep_computerPaddleY (inp : FrameInput) (s : State) :
    (rightScoreStep inp s).computerPaddleY = s.computerPaddleY := by unfold rightScoreStep; split_ifs <;> simp
@[simp] theorem rightScoreStep_speedBoostActive (inp : FrameInput) (s : State) :
    (rightScoreStep inp s).speedBoostActive = s.speedBoostActive := by unfold rightScoreStep; split_ifs <;> simp
@[simp] theorem rightScoreStep_speedBoostStartTime (inp : FrameInput) (s : State) :
    (rightScoreStep inp s).speedBoostStartTime = s.speedBoostStartTime := by unfold rightScoreStep; split_ifs <;> simp
@[simp] theorem rightScoreStep_maxBallSpeed (inp : FrameInput) (s : State) :
    (rightScoreStep inp s).maxBallSpeed = s.maxBallSpeed := by unfold rightScoreStep; split_ifs <;> simp
@[simp] theorem rightScoreStep_difficulty (inp : FrameInput) (s : State) :
    (rightScoreStep inp s).difficulty = s.difficulty := by unfold rightScoreStep; split_ifs <;> simp

@[simp] theorem collisionPhase_canvas_width (inp : FrameInput) (s : State) :
    (collisionPhase inp s).canvas_width = s.canvas_width := by simp [collisionPhase]
@[simp] theorem collisionPhase_canvas_height (inp : FrameInput) (s : State) :
    (collisionPhase inp s).canvas_height = s.canvas_height := by simp [collisionPhase]
@[simp] theorem collisionPhase_ballRadius (inp : FrameInput) (s : State) :
    (collisionPhase inp s).ballRadius = s.ballRadius := by simp [collisionPhase]
@[simp] theorem collisionPhase_paddleHeight (inp : FrameInput) (s : State) :
    (collisionPhase inp s).paddleHeight = s.paddleHeight := by simp [collisionPhase]
@[simp] theorem collisionPhase_paddleWidth (inp : FrameInput) (s : State) :
    (collisionPhase inp s).paddleWidth = s.paddleWidth := by simp [collisionPhase]
@[simp] theorem collisionPhase_paddleGap (inp : FrameInput) (s : State) :
    (collisionPhase inp s).paddleGap = s.paddleGap := by simp [collisionPhase]
@[simp] theorem collisionPhase_playerPaddleY (inp : FrameInput) (s : State) :
    (collisionPhase inp s).playerPaddleY = s.playerPaddleY := by simp [collisionPhase]
@[simp] theorem collisionPhase_computerPaddleY (inp : FrameInput) (s : State) :
    (collisionPhase inp s).computerPaddleY = s.computerPaddleY := by simp [collisionPhase]
@[simp] theorem collisionPhase_maxBallSpeed (inp : FrameInput) (s : State) :
    (collisionPhase inp s).maxBallSpeed = s.maxBallSpeed := by simp [collisionPhase]
@[simp] theorem collisionPhase_difficulty (inp : FrameInput) (s : State) :
    (collisionPhase inp s).difficulty = s.difficulty := by simp [collisionPhase]

@[simp] theorem aiStep_canvas_width (inp : FrameInput) (s : State) :
    (aiStep inp s).canvas_width = s.canvas_width := by rfl
@[simp] theorem aiStep_canvas_height (inp : FrameInput) (s : State) :
    (aiStep inp s).canvas_height = s.canvas_height := by rfl
@[simp] theorem aiStep_ballRadius (inp : FrameInput) (s : State) :
    (aiStep inp s).ballRadius = s.ballRadius := by rfl
@[simp] theorem aiStep_paddleHeight (inp : FrameInput) (s : State) :
    (aiStep inp s).paddleHeight = s.paddleHeight := by rfl
@[simp] theorem aiStep_paddleWidth (inp : FrameInput) (s : State) :
    (aiStep inp s).paddleWidth = s.paddleWidth := by rfl
@[simp] theorem aiStep_paddleGap (inp : FrameInput) (s : State) :
    (aiStep inp s).paddleGap = s.paddleGap := by rfl
@[simp] theorem aiStep_playerPaddleY (inp : FrameInput) (s : State) :
    (aiStep inp s).playerPaddleY = s.playerPaddleY := by rfl
@[simp] theorem aiStep_ballDefined (inp : FrameInput) (s : State) :
    (aiStep inp s).ballDefined = s.ballDefined := by rfl
@[simp] theorem aiStep_ballX (inp : FrameInput) (s : State) :
    (aiStep inp s).ballX = s.ballX := by rfl
@[simp] theorem aiStep_ballY (inp : FrameInput) (s : State) :
    (aiStep inp s).ballY = s.ballY := by rfl
@[simp] theorem aiStep_ballSpeedX (inp : FrameInput) (s : State) :
    (aiStep inp s).ballSpeedX = s.ballSpeedX := by rfl
@[simp] theorem aiStep_ballSpeedY (inp : FrameInput) (s : State) :
    (aiStep inp s).ballSpeedY = s.ballSpeedY := by rfl
@[simp] theorem aiStep_playerScore (inp : FrameInput) (s : State) :
    (aiStep inp s).playerScore = s.playerScore := by rfl
@[simp] theorem aiStep_computerScore (inp : FrameInput) (s : State) :
    (aiStep inp s).computerScore = s.computerScore := by rfl
@[simp] theorem aiStep_speedBoostActive (inp : FrameInput) (s : State) :
    (aiStep inp s).speedBoostActive = s.speedBoostActive := by rfl
@[simp] theorem aiStep_speedBoostStartTime (inp : FrameInput) (s : State) :
    (aiStep inp s).speedBoostStartTime = s.speedBoostStartTime := by rfl
@[simp] theorem aiStep_gameActive (inp : FrameInput) (s : State) :
    (aiStep inp s).gameActive = s.gameActive := by rfl
@[simp] theorem aiStep_maxBallSpeed (inp : FrameInput) (s : State) :
    (aiStep inp s).maxBallSpeed = s.maxBallSpeed := by rfl
@[simp] theorem aiStep_alerts (inp : FrameInput) (s : State) :
    (aiStep inp s).alerts = s.alerts := by rfl
@[simp] theorem aiStep_difficulty (inp : FrameInput) (s : State) :
    (aiStep inp s).difficulty = s.difficulty := by rfl

@[simp] theorem boostExpiryStep_canvas_width (now : ℤ) (s : State) :
    (boostExpiryStep now s).canvas_width = s.canvas_width := by unfold boostExpiryStep; split <;> rfl
@[simp] theorem boostExpiryStep_canvas_height (now : ℤ) (s : State) :
    (boostExpiryStep now s).canvas_height = s.canvas_height := by unfold boostExpiryStep; split <;> rfl
@[simp] theorem boostExpiryStep_ballRadius (now : ℤ) (s : State) :
    (boostExpiryStep now s).ballRadius = s.ballRadius := by unfold boostExpiryStep; split <;> rfl
@[simp] theorem boostExpiryStep_paddleHeight (now : ℤ) (s : State) :
    (boostExpiryStep now s).paddleHeight = s.paddleHeight := by unfold boostExpiryStep; split <;> rfl
@[simp] theorem boostExpiryStep_paddleWidth (now : ℤ) (s : State) :
    (boostExpiryStep now s).paddleWidth = s.paddleWidth := by unfold boostExpiryStep; split <;> rfl
@[simp] theorem boostExpiryStep_paddleGap (now : ℤ) (s : State) :
    (boostExpiryStep now s).paddleGap = s.paddleGap := by unfold boostExpiryStep; split <;> rfl
@[simp] theorem boostExpiryStep_playerPaddleY (now : ℤ) (s : State) :
    (boostExpiryStep now s).playerPaddleY = s.playerPaddleY := by unfold boostExpiryStep; split <;> rfl
@[simp] theorem boostExpiryStep_computerPaddleY (now : ℤ) (s : State) :
    (boostExpiryStep now s).computerPaddleY = s.computerPaddleY := by unfold boostExpiryStep; split <;> rfl
@[simp] theorem boostExpiryStep_ballDefined (now : ℤ) (s : State) :
    (boostExpiryStep now s).ballDefined = s.ballDefined := by unfold boostExpiryStep; split <;> rfl
@[simp] theorem boostExpiryStep_ballX (now : ℤ) (s : State) :
    (boostExpiryStep now s).ballX = s.ballX := by unfold boostExpiryStep; split <;> rfl
@[simp] theorem boostExpiryStep_ballY (now : ℤ) (s : State) :
    (boostExpiryStep now s).ballY = s.ballY := by unfold boostExpiryStep; split <;> rfl
@[simp] theorem boostExpiryStep_playerScore (now : ℤ) (s : State) :
    (boostExpiryStep now s).playerScore = s.playerScore := by unfold boostExpiryStep; split <;> rfl
@[simp] theorem boostExpiryStep_computerScore (now : ℤ) (s : State) :
    (boostExpiryStep now s).computerScore = s.computerScore := by unfold boostExpiryStep; split <;> rfl
@[simp] theorem boostExpiryStep_speedBoostStartTime (now : ℤ) (s : State) :
    (boostExpiryStep now s).speedBoostStartTime = s.speedBoostStartTime := by unfold boostExpiryStep; split <;> rfl
@[simp] theorem boostExpiryStep_gameActive (now : ℤ) (s : State) :
    (boostExpiryStep now s).gameActive = s.gameActive := by unfold boostExpiryStep; split <;> rfl
@[simp] theorem boostExpiryStep_maxBallSpeed (now : ℤ) (s : State) :
    (boostExpiryStep now s).maxBallSpeed = s.maxBallSpeed := by unfold boostExpiryStep; split <;> rfl
@[simp] theorem boostExpiryStep_alerts (now : ℤ) (s : State) :
    (boostExpiryStep now s).alerts = s.alerts := by unfold boostExpiryStep; split <;> rfl
@[simp] theorem boostExpiryStep_difficulty (now : ℤ) (s : State) :
    (boostExpiryStep now s).difficulty = s.difficulty := by unfold boostExpiryStep; split <;> rfl

@[simp] theorem clampStep_canvas_width (s : State) :
    (clampStep s).canvas_width = s.canvas_width := by rfl
@[simp] theorem clampStep_canvas_height (s : State) :
    (clampStep s).canvas_height = s.canvas_height := by rfl
@[simp] theorem clampStep_ballRadius (s : State) :
    (clampStep s).ballRadius = s.ballRadius := by rfl
@[simp] theorem clampStep_paddleHeight (s : State) :
    (clampStep s).paddleHeight = s.paddleHeight := by rfl
@[simp] theorem clampStep_paddleWidth (s : State) :
    (clampStep s).paddleWidth = s.paddleWidth := by rfl
@[simp] theorem clampStep_paddleGap (s : State) :
    (clampStep s).paddleGap = s.paddleGap := by rfl
@[simp] theorem clampStep_playerPaddleY (s : State) :
    (clampStep s).playerPaddleY = s.playerPaddleY := by rfl
@[simp] theorem clampStep_computerPaddleY (s : State) :
    (clampStep s).computerPaddleY = s.computerPaddleY := by rfl
@[simp] theorem clampStep_ballDefined (s : State) :
    (clampStep s).ballDefined = s.ballDefined := by rfl
@[simp] theorem clampStep_ballX (s : State) :
    (clampStep s).ballX = s.ballX := by rfl
@[simp] theorem clampStep_ballY (s : State) :
    (clampStep s).ballY = s.ballY := by rfl
@[simp] theorem clampStep_playerScore (s : State) :
    (clampStep s).playerScore = s.playerScore := by rfl
@[simp] theorem clampStep_computerScore (s : State) :
    (clampStep s).computerScore = s.computerScore := by rfl
@[simp] theorem clampStep_speedBoostActive (s : State) :
    (clampStep s).speedBoostActive = s.speedBoostActive := by rfl
@[simp] theorem clampStep_speedBoostStartTime (s : State) :
    (clampStep s).speedBoostStartTime = s.speedBoostStartTime := by rfl
@[simp] theorem clampStep_gameActive (s : State) :
    (clampStep s).gameActive = s.gameActive := by rfl
@[simp] theorem clampStep_maxBallSpeed (s : State) :
    (clampStep s).maxBallSpeed = s.maxBallSpeed := by rfl
@[simp] theorem clampStep_alerts (s : State) :
    (clampStep s).alerts = s.alerts := by rfl
@[simp] theorem clampStep_difficulty (s : State) :
    (clampStep s).difficulty = s.difficulty := by rfl

@[simp] theorem ballBody_canvas_width (inp : FrameInput) (s : State) :
    (ballBody inp s).canvas_width = s.canvas_width := by simp [ballBody]
@[simp] theorem ballBody_canvas_height (inp : FrameInput) (s : State) :
    (ballBody inp s).canvas_height = s.canvas_height := by simp [ballBody]
@[simp] theorem ballBody_ballRadius (inp : FrameInput) (s : State) :
    (ballBody inp s).ballRadius = s.ballRadius := by simp [ballBody]
@[simp] theorem ballBody_paddleHeight (inp : FrameInput) (s : State) :
    (ballBody inp s).paddleHeight = s.paddleHeight := by simp [ballBody]
@[simp] theorem ballBody_paddleWidth (inp : FrameInput) (s : State) :
    (ballBody inp s).paddleWidth = s.paddleWidth := by simp [ballBody]
@[simp] theorem ballBody_paddleGap (inp : FrameInput) (s : State) :
    (ballBody inp s).paddleGap = s.paddleGap := by simp [ballBody]
@[simp] theorem ballBody_playerPaddleY (inp : FrameInput) (s : State) :
    (ballBody inp s).playerPaddleY = s.playerPaddleY := by simp [ballBody]
@[simp] theorem ballBody_maxBallSpeed (inp : FrameInput) (s : State) :
    (ballBody inp s).maxBallSpeed = s.maxBallSpeed := by simp [ballBody]
@[simp] theorem ballBody_difficulty (inp : FrameInput) (s : State) :
    (ballBody inp s).difficulty = s.difficulty := by simp [ballBody]

@[simp] theorem ballStep_canvas_width (inp : FrameInput) (s : State) :
    (ballStep inp s).canvas_width = s.canvas_width := by unfold ballStep; split <;> simp
@[simp] theorem ballStep_canvas_height (inp : FrameInput) (s : State) :
    (ballStep inp s).canvas_height = s.canvas_height := by unfold ballStep; split <;> simp
@[simp] theorem ballStep_ballRadius (inp : FrameInput) (s : State) :
    (ballStep inp s).ballRadius = s.ballRadius := by unfold ballStep; split <;> simp
@[simp] theorem ballStep_paddleHeight (inp : FrameInput) (s : State) :
    (ballStep inp s).paddleHeight = s.paddleHeight := by unfold ballStep; split <;> simp
@[simp] theorem ballStep_paddleWidth (inp : FrameInput) (s : State) :
    (ballStep inp s).paddleWidth = s.paddleWidth := by unfold ballStep; split <;> simp
@[simp] theorem ballStep_paddleGap (inp : FrameInput) (s : State) :
    (ballStep inp s).paddleGap = s.paddleGap := by unfold ballStep; split <;> simp
@[simp] theorem ballStep_playerPaddleY (inp : FrameInput) (s : State) :
    (ballStep inp s).playerPaddleY = s.playerPaddleY := by unfold ballStep; split <;> simp
@[simp] theorem ballStep_maxBallSpeed (inp : FrameInput) (s : State) :
    (ballStep inp s).maxBallSpeed = s.maxBallSpeed := by unfold ballStep; split <;> simp
@[simp] theorem ballStep_difficulty (inp : FrameInput) (s : State) :
    (ballStep inp s).difficulty = s.difficulty := by unfold ballStep; split <;> simp

@[simp] theorem playerKeyStep_canvas_width (v : ℚ) (s : State) :
    (playerKeyStep v s).canvas_width = s.canvas_width := by simp only [playerKeyStep]; split_ifs <;> rfl
@[simp] theorem playerKeyStep_canvas_height (v : ℚ) (s : State) :
    (playerKeyStep v s).canvas_height = s.canvas_height := by simp only [playerKeyStep]; split_ifs <;> rfl
@[simp] theorem playerKeyStep_ballRadius (v : ℚ) (s : State) :
    (playerKeyStep v s).ballRadius = s.ballRadius := by simp only [playerKeyStep]; split_ifs <;> rfl
@[simp] theorem playerKeyStep_paddleHeight (v : ℚ) (s : State) :
    (playerKeyStep v s).paddleHeight = s.paddleHeight := by simp only [playerKeyStep]; split_ifs <;> rfl
@[simp] theorem playerKeyStep_paddleWidth (v : ℚ) (s : State) :
    (playerKeyStep v s).paddleWidth = s.paddleWidth := by simp only [playerKeyStep]; split_ifs <;> rfl
@[simp] theorem playerKeyStep_paddleGap (v : ℚ) (s : State) :
    (playerKeyStep v s).paddleGap = s.paddleGap := by simp only [playerKeyStep]; split_ifs <;> rfl
@[simp] theorem playerKeyStep_computerPaddleY (v : ℚ) (s : State) :
    (playerKeyStep v s).computerPaddleY = s.computerPaddleY := by simp only [playerKeyStep]; split_ifs <;> rfl
@[simp] theorem playerKeyStep_ballDefined (v : ℚ) (s : State) :
    (playerKeyStep v s).ballDefined = s.ballDefined := by simp only [playerKeyStep]; split_ifs <;> rfl
@[simp] theorem playerKeyStep_ballX (v : ℚ) (s : State) :
    (playerKeyStep v s).ballX = s.ballX := by simp only [playerKeyStep]; split_ifs <;> rfl
@[simp] theorem playerKeyStep_ballY (v : ℚ) (s : State) :
    (playerKeyStep v s).ballY = s.ballY := by simp only [playerKeyStep]; split_ifs <;> rfl
@[simp] theorem playerKeyStep_ballSpeedX (v : ℚ) (s : State) :
    (playerKeyStep v s).ballSpeedX = s.ballSpeedX := by simp only [playerKeyStep]; split_ifs <;> rfl
@[simp] theorem playerKeyStep_ballSpeedY (v : ℚ) (s : State) :
    (playerKeyStep v s).ballSpeedY = s.ballSpeedY := by simp only [playerKeyStep]; split_ifs <;> rfl
@[simp] theorem playerKeyStep_playerScore (v : ℚ) (s : State) :
    (playerKeyStep v s).playerScore = s.playerScore := by simp only [playerKeyStep]; split_ifs <;> rfl
@[simp] theorem playerKeyStep_computerScore (v : ℚ) (s : State) :
    (playerKeyStep v s).computerScore = s.computerScore := by simp only [playerKeyStep]; split_ifs <;> rfl
@[simp] theorem playerKeyStep_speedBoostActive (v : ℚ) (s : State) :
    (playerKeyStep v s).speedBoostActive = s.speedBoostActive := by simp only [playerKeyStep]; split_ifs <;> rfl
@[simp] theorem playerKeyStep_speedBoostStartTime (v : ℚ) (s : State) :
    (playerKeyStep v s).speedBoostStartTime = s.speedBoostStartTime := by simp only [playerKeyStep]; split_ifs <;> rfl
@[simp] theorem playerKeyStep_gameActive (v : ℚ) (s : State) :
    (playerKeyStep v s).gameActive = s.gameActive := by simp only [playerKeyStep]; split_ifs <;> rfl
@[simp] theorem playerKeyStep_maxBallSpeed (v : ℚ) (s : State) :
    (playerKeyStep v s).maxBallSpeed = s.maxBallSpeed := by simp only [playerKeyStep]; split_ifs <;> rfl
@[simp] theorem playerKeyStep_alerts (v : ℚ) (s : State) :
    (playerKeyStep v s).alerts = s.alerts := by simp only [playerKeyStep]; split_ifs <;> rfl
@[simp] theorem playerKeyStep_difficulty (v : ℚ) (s : State) :
    (playerKeyStep v s).difficulty = s.difficulty := by simp only [playerKeyStep]; split_ifs <;> rfl

@[simp] theorem computerKeyStep_canvas_width (v : ℚ) (s : State) :
    (computerKeyStep v s).canvas_width = s.canvas_width := by simp only [computerKeyStep]; split_ifs <;> rfl
@[simp] theorem computerKeyStep_canvas_height (v : ℚ) (s : State) :
    (computerKeyStep v s).canvas_height = s.canvas_height := by simp only [computerKeyStep]; split_ifs <;> rfl
@[simp] theorem computerKeyStep_ballRadius (v : ℚ) (s : State) :
    (computerKeyStep v s).ballRadius = s.ballRadius := by simp only [computerKeyStep]; split_ifs <;> rfl
@[simp] theorem computerKeyStep_paddleHeight (v : ℚ) (s : State) :
    (computerKeyStep v s).paddleHeight = s.paddleHeight := by simp only [computerKeyStep]; split_ifs <;> rfl
@[simp] theorem computerKeyStep_paddleWidth (v : ℚ) (s : State) :
    (computerKeyStep v s).paddleWidth = s.paddleWidth := by simp only [computerKeyStep]; split_ifs <;> rfl
@[simp] theorem computerKeyStep_paddleGap (v : ℚ) (s : State) :
    (computerKeyStep v s).paddleGap = s.paddleGap := by simp only [computerKeyStep]; split_ifs <;> rfl
@[simp] theorem computerKeyStep_playerPaddleY (v : ℚ) (s : State) :
    (computerKeyStep v s).playerPaddleY = s.playerPaddleY := by simp only [computerKeyStep]; split_ifs <;> rfl
@[simp] theorem computerKeyStep_ballDefined (v : ℚ) (s : State) :
    (computerKeyStep v s).ballDefined = s.ballDefined := by simp only [computerKeyStep]; split_ifs <;> rfl
@[simp] theorem computerKeyStep_ballX (v : ℚ) (s : State) :
    (computerKeyStep v s).ballX = s.ballX := by simp only [computerKeyStep]; split_ifs <;> rfl
@[simp] theorem computerKeyStep_ballY (v : ℚ) (s : State) :
    (computerKeyStep v s).ballY = s.ballY := by simp only [computerKeyStep]; split_ifs <;> rfl
@[simp] theorem computerKeyStep_ballSpeedX (v : ℚ) (s : State) :
    (computerKeyStep v s).ballSpeedX = s.ballSpeedX := by simp only [computerKeyStep]; split_ifs <;> rfl
@[simp] theorem computerKeyStep_ballSpeedY (v : ℚ) (s : State) :
    (computerKeyStep v s).ballSpeedY = s.ballSpeedY := by simp only [computerKeyStep]; split_ifs <;> rfl
@[simp] theorem computerKeyStep_playerScore (v : ℚ) (s : State) :
    (computerKeyStep v s).playerScore = s.playerScore := by simp only [computerKeyStep]; split_ifs <;> rfl
@[simp] theorem computerKeyStep_computerScore (v : ℚ) (s : State) :
    (computerKeyStep v s).computerScore = s.computerScore := by simp only [computerKeyStep]; split_ifs <;> rfl
@[simp] theorem computerKeyStep_speedBoostActive (v : ℚ) (s : State) :
    (computerKeyStep v s).speedBoostActive = s.speedBoostActive := by simp only [computerKeyStep]; split_ifs <;> rfl
@[simp] theorem computerKeyStep_speedBoostStartTime (v : ℚ) (s : State) :
    (computerKeyStep v s).speedBoostStartTime = s.speedBoostStartTime := by simp only [computerKeyStep]; split_ifs <;> rfl
@[simp] theorem computerKeyStep_gameActive (v : ℚ) (s : State) :
    (computerKeyStep v s).gameActive = s.gameActive := by simp only [computerKeyStep]; split_ifs <;> rfl
@[simp] theorem computerKeyStep_maxBallSpeed (v : ℚ) (s : State) :
    (computerKeyStep v s).maxBallSpeed = s.maxBallSpeed := by simp only [computerKeyStep]; split_ifs <;> rfl
@[simp] theorem computerKeyStep_alerts (v : ℚ) (s : State) :
    (computerKeyStep v s).alerts = s.alerts := by simp only [computerKeyStep]; split_ifs <;> rfl
@[simp] theorem computerKeyStep_difficulty (v : ℚ) (s : State) :
    (computerKeyStep v s).difficulty = s.difficulty := by simp only [computerKeyStep]; split_ifs <;> rfl

@[simp] theorem draw_canvas_width (inp : FrameInput) (s : State) :
    (draw inp s).canvas_width = s.canvas_width := by simp [draw]
@[simp] theorem draw_canvas_height (inp : FrameInput) (s : State) :
    (draw inp s).canvas_height = s.canvas_height := by simp [draw]
@[simp] theorem draw_ballRadius (inp : FrameInput) (s : State) :
    (draw inp s).ballRadius = s.ballRadius := by simp [draw]
@[simp] theorem draw_paddleHeight (inp : FrameInput) (s : State) :
    (draw inp s).paddleHeight = s.paddleHeight := by simp [draw]
@[simp] theorem draw_paddleWidth (inp : FrameInput) (s : State) :
    (draw inp s).paddleWidth = s.paddleWidth := by simp [draw]
@[simp] theorem draw_paddleGap (inp : FrameInput) (s : State) :
    (draw inp s).paddleGap = s.paddleGap := by simp [draw]
@[simp] theorem draw_maxBallSpeed (inp : FrameInput) (s : State) :
    (draw inp s).maxBallSpeed = s.maxBallSpeed := by simp [draw]
@[simp] theorem draw_difficulty (inp : FrameInput) (s : State) :
    (draw inp s).difficulty = s.difficulty := by simp [draw]

@[simp] theorem mousemove_canvas_width (mouseY : ℚ) (s : State) :
    (mousemove mouseY s).canvas_width = s.canvas_width := by rfl
@[simp] theorem mousemove_canvas_height (mouseY : ℚ) (s : State) :
    (mousemove mouseY s).canvas_height = s.canvas_height := by rfl
@[simp] theorem mousemove_ballRadius (mouseY : ℚ) (s : State) :
    (mousemove mouseY s).ballRadius = s.ballRadius := by rfl
@[simp] theorem mousemove_paddleHeight (mouseY : ℚ) (s : State) :
    (mousemove mouseY s).paddleHeight = s.paddleHeight := by rfl
@[simp] theorem mousemove_paddleWidth (mouseY : ℚ) (s : State) :
    (mousemove mouseY s).paddleWidth = s.paddleWidth := by rfl
@[simp] theorem mousemove_paddleGap (mouseY : ℚ) (s : State) :
    (mousemove mouseY s).paddleGap = s.paddleGap := by rfl
@[simp] theorem mousemove_computerPaddleY (mouseY : ℚ) (s : State) :
    (mousemove mouseY s).computerPaddleY = s.computerPaddleY := by rfl
@[simp] theorem mousemove_ballDefined (mouseY : ℚ) (s : State) :
    (mousemove mouseY s).ballDefined = s.ballDefined := by rfl
@[simp] theorem mousemove_ballX (mouseY : ℚ) (s : State) :
    (mousemove mouseY s).ballX = s.ballX := by rfl
@[simp] theorem mousemove_ballY (mouseY : ℚ) (s : State) :
    (mousemove mouseY s).ballY = s.ballY := by rfl
@[simp] theorem mousemove_ballSpeedX (mouseY : ℚ) (s : State) :
    (mousemove mouseY s).ballSpeedX = s.ballSpeedX := by rfl
@[simp] theorem mousemove_ballSpeedY (mouseY : ℚ) (s : State) :
    (mousemove mouseY s).ballSpeedY = s.ballSpeedY := by rfl
@[simp] theorem mousemove_playerScore (mouseY : ℚ) (s : State) :
    (mousemove mouseY s).playerScore = s.playerScore := by rfl
@[simp] theorem mousemove_computerScore (mouseY : ℚ) (s : State) :
    (mousemove mouseY s).computerScore = s.computerScore := by rfl
@[simp] theorem mousemove_speedBoostActive (mouseY : ℚ) (s : State) :
    (mousemove mouseY s).speedBoostActive = s.speedBoostActive := by rfl
@[simp] theorem mousemove_speedBoostStartTime (mouseY : ℚ) (s : State) :
    (mousemove mouseY s).speedBoostStartTime = s.speedBoostStartTime := by rfl
@[simp] theorem mousemove_gameActive (mouseY : ℚ) (s : State) :
    (mousemove mouseY s).gameActive = s.gameActive := by rfl
@[simp] theorem mousemove_maxBallSpeed (mouseY : ℚ) (s : State) :
    (mousemove mouseY s).maxBallSpeed = s.maxBallSpeed := by rfl
@[simp] theorem mousemove_alerts (mouseY : ℚ) (s : State) :
    (mousemove mouseY s).alerts = s.alerts := by rfl
@[simp] theorem mousemove_difficulty (mouseY : ℚ) (s : State) :
    (mousemove mouseY s).difficulty = s.difficulty := by rfl

@[simp] theorem keydown_canvas_width (k : Key) (s : State) :
    (keydown k s).canvas_width = s.canvas_width := by cases k <;> rfl
@[simp] theorem keydown_canvas_height (k : Key) (s : State) :
    (keydown k s).canvas_height = s.canvas_height := by cases k <;> rfl
@[simp] theorem keydown_ballRadius (k : Key) (s : State) :
    (keydown k s).ballRadius = s.ballRadius := by cases k <;> rfl
@[simp] theorem keydown_paddleHeight (k : Key) (s : State) :
    (keydown k s).paddleHeight = s.paddleHeight := by cases k <;> rfl
@[simp] theorem keydown_paddleWidth (k : Key) (s : State) :
    (keydown k s).paddleWidth = s.paddleWidth := by cases k <;> rfl
@[simp] theorem keydown_paddleGap (k : Key) (s : State) :
    (keydown k s).paddleGap = s.paddleGap := by cases k <;> rfl
@[simp] theorem keydown_playerPaddleY (k : Key) (s : State) :
    (keydown k s).playerPaddleY = s.playerPaddleY := by cases k <;> rfl
@[simp] theorem keydown_computerPaddleY (k : Key) (s : State) :
    (keydown k s).computerPaddleY = s.computerPaddleY := by cases k <;> rfl
@[simp] theorem keydown_ballDefined (k : Key) (s : State) :
    (keydown k s).ballDefined = s.ballDefined := by cases k <;> rfl
@[simp] theorem keydown_ballX (k : Key) (s : State) :
    (keydown k s).ballX = s.ballX := by cases k <;> rfl
@[simp] theorem keydown_ballY (k : Key) (s : State) :
    (keydown k s).ballY = s.ballY := by cases k <;> rfl
@[simp] theorem keydown_ballSpeedX (k : Key) (s : State) :
    (keydown k s).ballSpeedX = s.ballSpeedX := by cases k <;> rfl
@[simp] theorem keydown_ballSpeedY (k : Key) (s : State) :
    (keydown k s).ballSpeedY = s.ballSpeedY := by cases k <;> rfl
@[simp] theorem keydown_playerScore (k : Key) (s : State) :
    (keydown k s).playerScore = s.playerScore := by cases k <;> rfl
@[simp] theorem keydown_computerScore (k : Key) (s : State) :
    (keydown k s).computerScore = s.computerScore := by cases k <;> rfl
@[simp] theorem keydown_speedBoostActive (k : Key) (s : State) :
    (keydown k s).speedBoostActive = s.speedBoostActive := by cases k <;> rfl
@[simp] theorem keydown_speedBoostStartTime (k : Key) (s : State) :
    (keydown k s).speedBoostStartTime = s.speedBoostStartTime := by cases k <;> rfl
@[simp] theorem keydown_gameActive (k : Key) (s : State) :
    (keydown k s).gameActive = s.gameActive := by cases k <;> rfl
@[simp] theorem keydown_maxBallSpeed (k : Key) (s : State) :
    (keydown k s).maxBallSpeed = s.maxBallSpeed := by cases k <;> rfl
@[simp] theorem keydown_alerts (k : Key) (s : State) :
    (keydown k s).alerts = s.alerts := by cases k <;> rfl
@[simp] theorem keydown_difficulty (k : Key) (s : State) :
    (keydown k s).difficulty = s.difficulty := by cases k <;> rfl

@[simp] theorem keyup_canvas_width (k : Key) (s : State) :
    (keyup k s).canvas_width = s.canvas_width := by cases k <;> rfl
@[simp] theorem keyup_canvas_height (k : Key) (s : State) :
    (keyup k s).canvas_height = s.canvas_height := by cases k <;> rfl
@[simp] theorem keyup_ballRadius (k : Key) (s : State) :
    (keyup k s).ballRadius = s.ballRadius := by cases k <;> rfl
@[simp] theorem keyup_paddleHeight (k : Key) (s : State) :
    (keyup k s).paddleHeight = s.paddleHeight := by cases k <;> rfl
@[simp] theorem keyup_paddleWidth (k : Key) (s : State) :
    (keyup k s).paddleWidth = s.paddleWidth := by cases k <;> rfl
@[simp] theorem keyup_paddleGap (k : Key) (s : State) :
    (keyup k s).paddleGap = s.paddleGap := by cases k <;> rfl
@[simp] theorem keyup_playerPaddleY (k : Key) (s : State) :
    (keyup k s).playerPaddleY = s.playerPaddleY := by cases k <;> rfl
@[simp] theorem keyup_computerPaddleY (k : Key) (s : State) :
    (keyup k s).computerPaddleY = s.computerPaddleY := by cases k <;> rfl
@[simp] theorem keyup_ballDefined (k : Key) (s : State) :
    (keyup k s).ballDefined = s.ballDefined := by cases k <;> rfl
@[simp] theorem keyup_ballX (k : Key) (s : State) :
    (keyup k s).ballX = s.ballX := by cases k <;> rfl
@[simp] theorem keyup_ballY (k : Key) (s : State) :
    (keyup k s).ballY = s.ballY := by cases k <;> rfl
@[simp] theorem keyup_ballSpeedX (k : Key) (s : State) :
    (keyup k s).ballSpeedX = s.ballSpeedX := by cases k <;> rfl
@[simp] theorem keyup_ballSpeedY (k : Key) (s : State) :
    (keyup k s).ballSpeedY = s.ballSpeedY := by cases k <;> rfl
@[simp] theorem keyup_playerScore (k : Key) (s : State) :
    (keyup k s).playerScore = s.playerScore := by cases k <;> rfl
@[simp] theorem keyup_computerScore (k : Key) (s : State) :
    (keyup k s).computerScore = s.computerScore := by cases k <;> rfl
@[simp] theorem keyup_speedBoostActive (k : Key) (s : State) :
    (keyup k s).speedBoostActive = s.speedBoostActive := by cases k <;> rfl
@[simp] theorem keyup_speedBoostStartTime (k : Key) (s : State) :
    (keyup k s).speedBoostStartTime = s.speedBoostStartTime := by cases k <;> rfl
@[simp] theorem keyup_gameActive (k : Key) (s : State) :
    (keyup k s).gameActive = s.gameActive := by cases k <;> rfl
@[simp] theorem keyup_maxBallSpeed (k : Key) (s : State) :
    (keyup k s).maxBallSpeed = s.maxBallSpeed := by cases k <;> rfl
@[simp] theorem keyup_alerts (k : Key) (s : State) :
    (keyup k s).alerts = s.alerts := by cases k <;> rfl
@[simp] theorem keyup_difficulty (k : Key) (s : State) :
    (keyup k s).difficulty = s.difficulty := by cases k <;> rfl

@[simp] theorem startGame_canvas_width (c : ℚ) (d : Difficulty) (r1 r2 : ℚ) (s : State) :
    (startGame c d r1 r2 s).canvas_width = s.canvas_width := by simp only [startGame]; split_ifs <;> rfl
@[simp] theorem startGame_canvas_height (c : ℚ) (d : Difficulty) (r1 r2 : ℚ) (s : State) :
    (startGame c d r1 r2 s).canvas_height = s.canvas_height := by simp only [startGame]; split_ifs <;> rfl
@[simp] theorem startGame_ballRadius (c : ℚ) (d : Difficulty) (r1 r2 : ℚ) (s : State) :
    (startGame c d r1 r2 s).ballRadius = s.ballRadius := by simp only [startGame]; split_ifs <;> rfl
@[simp] theorem startGame_paddleHeight (c : ℚ) (d : Difficulty) (r1 r2 : ℚ) (s : State) :
    (startGame c d r1 r2 s).paddleHeight = s.paddleHeight := by simp only [startGame]; split_ifs <;> rfl
@[simp] theorem startGame_paddleWidth (c : ℚ) (d : Difficulty) (r1 r2 : ℚ) (s : State) :
    (startGame c d r1 r2 s).paddleWidth = s.paddleWidth := by simp only [startGame]; split_ifs <;> rfl
@[simp] theorem startGame_paddleGap (c : ℚ) (d : Difficulty) (r1 r2 : ℚ) (s : State) :
    (startGame c d r1 r2 s).paddleGap = s.paddleGap := by simp only [startGame]; split_ifs <;> rfl
@[simp] theorem startGame_playerPaddleY (c : ℚ) (d : Difficulty) (r1 r2 : ℚ) (s : State) :
    (startGame c d r1 r2 s).playerPaddleY = s.playerPaddleY := by simp only [startGame]; split_ifs <;> rfl
@[simp] theorem startGame_computerPaddleY (c : ℚ) (d : Difficulty) (r1 r2 : ℚ) (s : State) :
    (startGame c d r1 r2 s).computerPaddleY = s.computerPaddleY := by simp only [startGame]; split_ifs <;> rfl
@[simp] theorem startGame_playerScore (c : ℚ) (d : Difficulty) (r1 r2 : ℚ) (s : State) :
    (startGame c d r1 r2 s).playerScore = s.playerScore := by simp only [startGame]; split_ifs <;> rfl
@[simp] theorem startGame_computerScore (c : ℚ) (d : Difficulty) (r1 r2 : ℚ) (s : State) :
    (startGame c d r1 r2 s).computerScore = s.computerScore := by simp only [startGame]; split_ifs <;> rfl
@[simp] theorem startGame_speedBoostActive (c : ℚ) (d : Difficulty) (r1 r2 : ℚ) (s : State) :
    (startGame c d r1 r2 s).speedBoostActive = s.speedBoostActive := by simp only [startGame]; split_ifs <;> rfl
@[simp] theorem startGame_speedBoostStartTime (c : ℚ) (d : Difficulty) (r1 r2 : ℚ) (s : State) :
    (startGame c d r1 r2 s).speedBoostStartTime = s.speedBoostStartTime := by simp only [startGame]; split_ifs <;> rfl
@[simp] theorem startGame_maxBallSpeed (c : ℚ) (d : Difficulty) (r1 r2 : ℚ) (s : State) :
    (startGame c d r1 r2 s).maxBallSpeed = s.maxBallSpeed := by simp only [startGame]; split_ifs <;> rfl
@[simp] theorem startGame_alerts (c : ℚ) (d : Difficulty) (r1 r2 : ℚ) (s : State) :
    (startGame c d r1 r2 s).alerts = s.alerts := by simp only [startGame]; split_ifs <;> rfl

@[simp] theorem timerCallback_canvas_width (v : ℚ) (s : State) :
    (timerCallback v s).canvas_width = s.canvas_width := by unfold timerCallback; split <;> rfl
@[simp] theorem timerCallback_canvas_height (v : ℚ) (s : State) :
    (timerCallback v s).canvas_height = s.canvas_height := by unfold timerCallback; split <;> rfl
@[simp] theorem timerCallback_ballRadius (v : ℚ) (s : State) :
    (timerCallback v s).ballRadius = s.ballRadius := by unfold timerCallback; split <;> rfl
@[simp] theorem timerCallback_paddleHeight (v : ℚ) (s : State) :
    (timerCallback v s).paddleHeight = s.paddleHeight := by unfold timerCallback; split <;> rfl
@[simp] theorem timerCallback_paddleWidth (v : ℚ) (s : State) :
    (timerCallback v s).paddleWidth = s.paddleWidth := by unfold timerCallback; split <;> rfl
@[simp] theorem timerCallback_paddleGap (v : ℚ) (s : State) :
    (timerCallback v s).paddleGap = s.paddleGap := by unfold timerCallback; split <;> rfl
@[simp] theorem timerCallback_playerPaddleY (v : ℚ) (s : State) :
    (timerCallback v s).playerPaddleY = s.playerPaddleY := by unfold timerCallback; split <;> rfl
@[simp] theorem timerCallback_ballDefined (v : ℚ) (s : State) :
    (timerCallback v s).ballDefined = s.ballDefined := by unfold timerCallback; split <;> rfl
@[simp] theorem timerCallback_ballX (v : ℚ) (s : State) :
    (timerCallback v s).ballX = s.ballX := by unfold timerCallback; split <;> rfl
@[simp] theorem timerCallback_ballY (v : ℚ) (s : State) :
    (timerCallback v s).ballY = s.ballY := by unfold timerCallback; split <;> rfl
@[simp] theorem timerCallback_ballSpeedX (v : ℚ) (s : State) :
    (timerCallback v s).ballSpeedX = s.ballSpeedX := by unfold timerCallback; split <;> rfl
@[simp] theorem timerCallback_ballSpeedY (v : ℚ) (s : State) :
    (timerCallback v s).ballSpeedY = s.ballSpeedY := by unfold timerCallback; split <;> rfl
@[simp] theorem timerCallback_playerScore (v : ℚ) (s : State) :
    (timerCallback v s).playerScore = s.playerScore := by unfold timerCallback; split <;> rfl
@[simp] theorem timerCallback_computerScore (v : ℚ) (s : State) :
    (timerCallback v s).computerScore = s.computerScore := by unfold timerCallback; split <;> rfl
@[simp] theorem timerCallback_speedBoostActive (v : ℚ) (s : State) :
    (timerCallback v s).speedBoostActive = s.speedBoostActive := by unfold timerCallback; split <;> rfl
@[simp] theorem timerCallback_speedBoostStartTime (v : ℚ) (s : State) :
    (timerCallback v s).speedBoostStartTime = s.speedBoostStartTime := by unfold timerCallback; split <;> rfl
@[simp] theorem timerCallback_gameActive (v : ℚ) (s : State) :
    (timerCallback v s).gameActive = s.gameActive := by unfold timerCallback; split <;> rfl
@[simp] theorem timerCallback_maxBallSpeed (v : ℚ) (s : State) :
    (timerCallback v s).maxBallSpeed = s.maxBallSpeed := by unfold timerCallback; split <;> rfl
@[simp] theorem timerCallback_alerts (v : ℚ) (s : State) :
    (timerCallback v s).alerts = s.alerts := by unfold timerCallback; split <;> rfl
@[simp] theorem timerCallback_difficulty (v : ℚ) (s : State) :
    (timerCallback v s).difficulty = s.difficulty := by unfold timerCallback; split <;> rfl

@[simp] theorem fire_canvas_width (i : ℕ) (s : State) :
    (fire i s).canvas_width = s.canvas_width := by unfold fire; split <;> simp
@[simp] theorem fire_canvas_height (i : ℕ) (s : State) :
    (fire i s).canvas_height = s.canvas_height := by unfold fire; split <;> simp
@[simp] theorem fire_ballRadius (i : ℕ) (s : State) :
    (fire i s).ballRadius = s.ballRadius := by unfold fire; split <;> simp
@[simp] theorem fire_paddleHeight (i : ℕ) (s : State) :
    (fire i s).paddleHeight = s.paddleHeight := by unfold fire; split <;> simp
@[simp] theorem fire_paddleWidth (i : ℕ) (s : State) :
    (fire i s).paddleWidth = s.paddleWidth := by unfold fire; split <;> simp
@[simp] theorem fire_paddleGap (i : ℕ) (s : State) :
    (fire i s).paddleGap = s.paddleGap := by unfold fire; split <;> simp
@[simp] theorem fire_playerPaddleY (i : ℕ) (s : State) :
    (fire i s).playerPaddleY = s.playerPaddleY := by unfold fire; split <;> simp
@[simp] theorem fire_ballDefined (i : ℕ) (s : State) :
    (fire i s).ballDefined = s.ballDefined := by unfold fire; split <;> simp
@[simp] theorem fire_ballX (i : ℕ) (s : State) :
    (fire i s).ballX = s.ballX := by unfold fire; split <;> simp
@[simp] theorem fire_ballY (i : ℕ) (s : State) :
    (fire i s).ballY = s.ballY := by unfold fire; split <;> simp
@[simp] theorem fire_ballSpeedX (i : ℕ) (s : State) :
    (fire i s).ballSpeedX = s.ballSpeedX := by unfold fire; split <;> simp
@[simp] theorem fire_ballSpeedY (i : ℕ) (s : State) :
    (fire i s).ballSpeedY = s.ballSpeedY := by unfold fire; split <;> simp
@[simp] theorem fire_playerScore (i : ℕ) (s : State) :
    (fire i s).playerScore = s.playerScore := by unfold fire; split <;> simp
@[simp] theorem fire_computerScore (i : ℕ) (s : State) :
    (fire i s).computerScore = s.computerScore := by unfold fire; split <;> simp
@[simp] theorem fire_speedBoostActive (i : ℕ) (s : State) :
    (fire i s).speedBoostActive = s.speedBoostActive := by unfold fire; split <;> simp
@[simp] theorem fire_speedBoostStartTime (i : ℕ) (s : State) :
    (fire i s).speedBoostStartTime = s.speedBoostStartTime := by unfold fire; split <;> simp
@[simp] theorem fire_gameActive (i : ℕ) (s : State) :
    (fire i s).gameActive = s.gameActive := by unfold fire; split <;> simp
@[simp] theorem fire_maxBallSpeed (i : ℕ) (s : State) :
    (fire i s).maxBallSpeed = s.maxBallSpeed := by unfold fire; split <;> simp
@[simp] theorem fire_alerts (i : ℕ) (s : State) :
    (fire i s).alerts = s.alerts := by unfold fire; split <;> simp
@[simp] theorem fire_difficulty (i : ℕ) (s : State) :
    (fire i s).difficulty = s.difficulty := by unfold fire; split <;> simp

@[simp] theorem ledStep_pending (s : State) :
    (ledStep s).pending = s.pending := by unfold ledStep; split <;> rfl
@[simp] theorem ledStep_customComputerSpeed (s : State) :
    (ledStep s).customComputerSpeed = s.customComputerSpeed := by unfold ledStep; split <;> rfl
@[simp] theorem ledStep_ballTrail (s : State) :
    (ledStep s).ballTrail = s.ballTrail := by unfold ledStep; split <;> rfl
@[simp] theorem ledStep_glowTrail (s : State) :
    (ledStep s).glowTrail = s.glowTrail := by unfold ledStep; split <;> rfl
@[simp] theorem ledStep_ballTrailEnabled (s : State) :
    (ledStep s).ballTrailEnabled = s.ballTrailEnabled := by unfold ledStep; split <;> rfl
@[simp] theorem ledStep_spinningLEDEnabled (s : State) :
    (ledStep s).spinningLEDEnabled = s.spinningLEDEnabled := by unfold ledStep; split <;> rfl
@[simp] theorem ledStep_canvasWidth (s : State) :
    (ledStep s).canvasWidth = s.canvasWidth := by unfold ledStep; split <;> rfl
@[simp] theorem ledStep_canvasHeight (s : State) :
    (ledStep s).canvasHeight = s.canvasHeight := by unfold ledStep; split <;> rfl
@[simp] theorem ledStep_wPressed (s : State) :
    (ledStep s).wPressed = s.wPressed := by unfold ledStep; split <;> rfl
@[simp] theorem ledStep_sPressed (s : State) :
    (ledStep s).sPressed = s.sPressed := by unfold ledStep; split <;> rfl
@[simp] theorem ledStep_upPressed (s : State) :
    (ledStep s).upPressed = s.upPressed := by unfold ledStep; split <;> rfl
@[simp] theorem ledStep_downPressed (s : State) :
    (ledStep s).downPressed = s.downPressed := by unfold ledStep; split <;> rfl

@[simp] theorem moveStep_pending (s : State) :
    (moveStep s).pending = s.pending := by rfl
@[simp] theorem moveStep_customComputerSpeed (s : State) :
    (moveStep s).customComputerSpeed = s.customComputerSpeed := by rfl
@[simp] theorem moveStep_ballTrail (s : State) :
    (moveStep s).ballTrail = s.ballTrail := by rfl
@[simp] theorem moveStep_glowTrail (s : State) :
    (moveStep s).glowTrail = s.glowTrail := by rfl
@[simp] theorem moveStep_ledTrail (s : State) :
    (moveStep s).ledTrail = s.ledTrail := by rfl
@[simp] theorem moveStep_ballTrailEnabled (s : State) :
    (moveStep s).ballTrailEnabled = s.ballTrailEnabled := by rfl
@[simp] theorem moveStep_spinningLEDEnabled (s : State) :
    (moveStep s).spinningLEDEnabled = s.spinningLEDEnabled := by rfl
@[simp] theorem moveStep_canvasWidth (s : State) :
    (moveStep s).canvasWidth = s.canvasWidth := by rfl
@[simp] theorem moveStep_canvasHeight (s : State) :
    (moveStep s).canvasHeight = s.canvasHeight := by rfl
@[simp] theorem moveStep_wPressed (s : State) :
    (moveStep s).wPressed = s.wPressed := by rfl
@[simp] theorem moveStep_sPressed (s : State) :
    (moveStep s).sPressed = s.sPressed := by rfl
@[simp] theorem moveStep_upPressed (s : State) :
    (moveStep s).upPressed = s.upPressed := by rfl
@[simp] theorem moveStep_downPressed (s : State) :
    (moveStep s).downPressed = s.downPressed := by rfl

@[simp] theorem trailStep_pending (s : State) :
    (trailStep s).pending = s.pending := by unfold trailStep; split <;> rfl
@[simp] theorem trailStep_customComputerSpeed (s : State) :
    (trailStep s).customComputerSpeed = s.customComputerSpeed := by unfold trailStep; split <;> rfl
@[simp] theorem trailStep_ledTrail (s : State) :
    (trailStep s).ledTrail = s.ledTrail := by unfold trailStep; split <;> rfl
@[simp] theorem trailStep_ballTrailEnabled (s : State) :
    (trailStep s).ballTrailEnabled = s.ballTrailEnabled := by unfold trailStep; split <;> rfl
@[simp] theorem trailStep_spinningLEDEnabled (s : State) :
    (trailStep s).spinningLEDEnabled = s.spinningLEDEnabled := by unfold trailStep; split <;> rfl
@[simp] theorem trailStep_canvasWidth (s : State) :
    (trailStep s).canvasWidth = s.canvasWidth := by unfold trailStep; split <;> rfl
@[simp] theorem trailStep_canvasHeight (s : State) :
    (trailStep s).canvasHeight = s.canvasHeight := by unfold trailStep; split <;> rfl
@[simp] theorem trailStep_wPressed (s : State) :
    (trailStep s).wPressed = s.wPressed := by unfold trailStep; split <;> rfl
@[simp] theorem trailStep_sPressed (s : State) :
    (trailStep s).sPressed = s.sPressed := by unfold trailStep; split <;> rfl
@[simp] theorem trailStep_upPressed (s : State) :
    (trailStep s).upPressed = s.upPressed := by unfold trailStep; split <;> rfl
@[simp] theorem trailStep_downPressed (s : State) :
    (trailStep s).downPressed = s.downPressed := by unfold trailStep; split <;> rfl

@[simp] theorem wallStep_pending (s : State) :
    (wallStep s).pending = s.pending := by unfold wallStep; split <;> rfl
@[simp] theorem wallStep_customComputerSpeed (s : State) :
    (wallStep s).customComputerSpeed = s.customComputerSpeed := by unfold wallStep; split <;> rfl
@[simp] theorem wallStep_ballTrail (s : State) :
    (wallStep s).ballTrail = s.ballTrail := by unfold wallStep; split <;> rfl
@[simp] theorem wallStep_glowTrail (s : State) :
    (wallStep s).glowTrail = s.glowTrail := by unfold wallStep; split <;> rfl
@[simp] theorem wallStep_ledTrail (s : State) :
    (wallStep s).ledTrail = s.ledTrail := by unfold wallStep; split <;> rfl
@[simp] theorem wallStep_ballTrailEnabled (s : State) :
    (wallStep s).ballTrailEnabled = s.ballTrailEnabled := by unfold wallStep; split <;> rfl
@[simp] theorem wallStep_spinningLEDEnabled (s : State) :
    (wallStep s).spinningLEDEnabled = s.spinningLEDEnabled := by unfold wallStep; split <;> rfl
@[simp] theorem wallStep_canvasWidth (s : State) :
    (wallStep s).canvasWidth = s.canvasWidth := by unfold wallStep; split <;> rfl
@[simp] theorem wallStep_canvasHeight (s : State) :
    (wallStep s).canvasHeight = s.canvasHeight := by unfold wallStep; split <;> rfl
@[simp] theorem wallStep_wPressed (s : State) :
    (wallStep s).wPressed = s.wPressed := by unfold wallStep; split <;> rfl
@[simp] theorem wallStep_sPressed (s : State) :
    (wallStep s).sPressed = s.sPressed := by unfold wallStep; split <;> rfl
@[simp] theorem wallStep_upPressed (s : State) :
    (wallStep s).upPressed = s.upPressed := by unfold wallStep; split <;> rfl
@[simp] theorem wallStep_downPressed (s : State) :
    (wallStep s).downPressed = s.downPressed := by unfold wallStep; split <;> rfl

@[simp] theorem activateBoost_pending (now : ℤ) (s : State) :
    (activateBoost now s).pending = s.pending := by unfold activateBoost; split <;> rfl
@[simp] theorem activateBoost_customComputerSpeed (now : ℤ) (s : State) :
    (activateBoost now s).customComputerSpeed = s.customComputerSpeed := by unfold activateBoost; split <;> rfl
@[simp] theorem activateBoost_ballTrail (now : ℤ) (s : State) :
    (activateBoost now s).ballTrail = s.ballTrail := by unfold activateBoost; split <;> rfl
@[simp] theorem activateBoost_glowTrail (now : ℤ) (s : State) :
    (activateBoost now s).glowTrail = s.glowTrail := by unfold activateBoost; split <;> rfl
@[simp] theorem activateBoost_ledTrail (now : ℤ) (s : State) :
    (activateBoost now s).ledTrail = s.ledTrail := by unfold activateBoost; split <;> rfl
@[simp] theorem activateBoost_ballTrailEnabled (now : ℤ) (s : State) :
    (activateBoost now s).ballTrailEnabled = s.ballTrailEnabled := by unfold activateBoost; split <;> rfl
@[simp] theorem activateBoost_spinningLEDEnabled (now : ℤ) (s : State) :
    (activateBoost now s).spinningLEDEnabled = s.spinningLEDEnabled := by unfold activateBoost; split <;> rfl
@[simp] theorem activateBoost_canvasWidth (now : ℤ) (s : State) :
    (activateBoost now s).canvasWidth = s.canvasWidth := by unfold activateBoost; split <;> rfl
@[simp] theorem activateBoost_canvasHeight (now : ℤ) (s : State) :
    (activateBoost now s).canvasHeight = s.canvasHeight := by unfold activateBoost; split <;> rfl
@[simp] theorem activateBoost_wPressed (now : ℤ) (s : State) :
    (activateBoost now s).wPressed = s.wPressed := by unfold activateBoost; split <;> rfl
@[simp] theorem activateBoost_sPressed (now : ℤ) (s : State) :
    (activateBoost now s).sPressed = s.sPressed := by unfold activateBoost; split <;> rfl
@[simp] theorem activateBoost_upPressed (now : ℤ) (s : State) :
    (activateBoost now s).upPressed = s.upPressed := by unfold activateBoost; split <;> rfl
@[simp] theorem activateBoost_downPressed (now : ℤ) (s : State) :
    (activateBoost now s).downPressed = s.downPressed := by unfold activateBoost; split <;> rfl

@[simp] theorem playerPaddleHit_pending (now : ℤ) (s : State) :
    (playerPaddleHit now s).pending = s.pending := by unfold playerPaddleHit; split <;> simp
@[simp] theorem playerPaddleHit_customComputerSpeed (now : ℤ) (s : State) :
    (playerPaddleHit now s).customComputerSpeed = s.customComputerSpeed := by unfold playerPaddleHit; split <;> simp
@[simp] theorem playerPaddleHit_ballTrail (now : ℤ) (s : State) :
    (playerPaddleHit now s).ballTrail = s.ballTrail := by unfold playerPaddleHit; split <;> simp
@[simp] theorem playerPaddleHit_glowTrail (now : ℤ) (s : State) :
    (playerPaddleHit now s).glowTrail = s.glowTrail := by unfold playerPaddleHit; split <;> simp
@[simp] theorem playerPaddleHit_ledTrail (now : ℤ) (s : State) :
    (playerPaddleHit now s).ledTrail = s.ledTrail := by unfold playerPaddleHit; split <;> simp
@[simp] theorem playerPaddleHit_ballTrailEnabled (now : ℤ) (s : State) :
    (playerPaddleHit now s).ballTrailEnabled = s.ballTrailEnabled := by unfold playerPaddleHit; split <;> simp
@[simp] theorem playerPaddleHit_spinningLEDEnabled (now : ℤ) (s : State) :
    (playerPaddleHit now s).spinningLEDEnabled = s.spinningLEDEnabled := by unfold playerPaddleHit; split <;> simp
@[simp] theorem playerPaddleHit_canvasWidth (now : ℤ) (s : State) :
    (playerPaddleHit now s).canvasWidth = s.canvasWidth := by unfold playerPaddleHit; split <;> simp
@[simp] theorem playerPaddleHit_canvasHeight (now : ℤ) (s : State) :
    (playerPaddleHit now s).canvasHeight = s.canvasHeight := by unfold playerPaddleHit; split <;> simp
@[simp] theorem playerPaddleHit_wPressed (now : ℤ) (s : State) :
    (playerPaddleHit now s).wPressed = s.wPressed := by unfold playerPaddleHit; split <;> simp
@[simp] theorem playerPaddleHit_sPressed (now : ℤ) (s : State) :
    (playerPaddleHit now s).sPressed = s.sPressed := by unfold playerPaddleHit; split <;> simp
@[simp] theorem playerPaddleHit_upPressed (now : ℤ) (s : State) :
    (playerPaddleHit now s).upPressed = s.upPressed := by unfold playerPaddleHit; split <;> simp
@[simp] theorem playerPaddleHit_downPressed (now : ℤ) (s : State) :
    (playerPaddleHit now s).downPressed = s.downPressed := by unfold playerPaddleHit; split <;> simp

@[simp] theorem displayWinner_pending (w : String) (s : State) :
    (displayWinner w s).pending = s.pending := by rfl
@[simp] theorem displayWinner_customComputerSpeed (w : String) (s : State) :
    (displayWinner w s).customComputerSpeed = s.customComputerSpeed := by rfl
@[simp] theorem displayWinner_ballTrail (w : String) (s : State) :
    (displayWinner w s).ballTrail = s.ballTrail := by rfl
@[simp] theorem displayWinner_glowTrail (w : String) (s : State) :
    (displayWinner w s).glowTrail = s.glowTrail := by rfl
@[simp] theorem displayWinner_ledTrail (w : String) (s : State) :
    (displayWinner w s).ledTrail = s.ledTrail := by rfl
@[simp] theorem displayWinner_ballTrailEnabled (w : String) (s : State) :
    (displayWinner w s).ballTrailEnabled = s.ballTrailEnabled := by rfl
@[simp] theorem displayWinner_spinningLEDEnabled (w : String) (s : State) :
    (displayWinner w s).spinningLEDEnabled = s.spinningLEDEnabled := by rfl
@[simp] theorem displayWinner_canvasWidth (w : String) (s : State) :
    (displayWinner w s).canvasWidth = s.canvasWidth := by rfl
@[simp] theorem displayWinner_canvasHeight (w : String) (s : State) :
    (displayWinner w s).canvasHeight = s.canvasHeight := by rfl
@[simp] theorem displayWinner_wPressed (w : String) (s : State) :
    (displayWinner w s).wPressed = s.wPressed := by rfl
@[simp] theorem displayWinner_sPressed (w : String) (s : State) :
    (displayWinner w s).sPressed = s.sPressed := by rfl
@[simp] theorem displayWinner_upPressed (w : String) (s : State) :
    (displayWinner w s).upPressed = s.upPressed := by rfl
@[simp] theorem displayWinner_downPressed (w : String) (s : State) :
    (displayWinner w s).downPressed = s.downPressed := by rfl

@[simp] theorem resetBall_pending (r1 r2 : ℚ) (s : State) :
    (resetBall r1 r2 s).pending = s.pending := by rfl
@[simp] theorem resetBall_customComputerSpeed (r1 r2 : ℚ) (s : State) :
    (resetBall r1 r2 s).customComputerSpeed = s.customComputerSpeed := by rfl
@[simp] theorem resetBall_ballTrail (r1 r2 : ℚ) (s : State) :
    (resetBall r1 r2 s).ballTrail = s.ballTrail := by rfl
@[simp] theorem resetBall_glowTrail (r1 r2 : ℚ) (s : State) :
    (resetBall r1 r2 s).glowTrail = s.glowTrail := by rfl
@[simp] theorem resetBall_ledTrail (r1 r2 : ℚ) (s : State) :
    (resetBall r1 r2 s).ledTrail = s.ledTrail := by rfl
@[simp] theorem resetBall_ballTrailEnabled (r1 r2 : ℚ) (s : State) :
    (resetBall r1 r2 s).ballTrailEnabled = s.ballTrailEnabled := by rfl
@[simp] theorem resetBall_spinningLEDEnabled (r1 r2 : ℚ) (s : State) :
    (resetBall r1 r2 s).spinningLEDEnabled = s.spinningLEDEnabled := by rfl
@[simp] theorem resetBall_canvasWidth (r1 r2 : ℚ) (s : State) :
    (resetBall r1 r2 s).canvasWidth = s.canvasWidth := by rfl
@[simp] theorem resetBall_canvasHeight (r1 r2 : ℚ) (s : State) :
    (resetBall r1 r2 s).canvasHeight = s.canvasHeight := by rfl
@[simp] theorem resetBall_wPressed (r1 r2 : ℚ) (s : State) :
    (resetBall r1 r2 s).wPressed = s.wPressed := by rfl
@[simp] theorem resetBall_sPressed (r1 r2 : ℚ) (s : State) :
    (resetBall r1 r2 s).sPressed = s.sPressed := by rfl
@[simp] theorem resetBall_upPressed (r1 r2 : ℚ) (s : State) :
    (resetBall r1 r2 s).upPressed = s.upPressed := by rfl
@[simp] theorem resetBall_downPressed (r1 r2 : ℚ) (s : State) :
    (resetBall r1 r2 s).downPressed = s.downPressed := by rfl

@[simp] theorem checkWinner_pending (r1 r2 : ℚ) (s : State) :
    (checkWinner r1 r2 s).pending = s.pending := by unfold checkWinner; split_ifs <;> simp
@[simp] theorem checkWinner_customComputerSpeed (r1 r2 : ℚ) (s : State) :
    (checkWinner r1 r2 s).customComputerSpeed = s.customComputerSpeed := by unfold checkWinner; split_ifs <;> simp
@[simp] theorem checkWinner_ballTrail (r1 r2 : ℚ) (s : State) :
    (checkWinner r1 r2 s).ballTrail = s.ballTrail := by unfold checkWinner; split_ifs <;> simp
@[simp] theorem checkWinner_glowTrail (r1 r2 : ℚ) (s : State) :
    (checkWinner r1 r2 s).glowTrail = s.glowTrail := by unfold checkWinner; split_ifs <;> simp
@[simp] theorem checkWinner_ledTrail (r1 r2 : ℚ) (s : State) :
    (checkWinner r1 r2 s).ledTrail = s.ledTrail := by unfold checkWinner; split_ifs <;> simp
@[simp] theorem checkWinner_ballTrailEnabled (r1 r2 : ℚ) (s : State) :
    (checkWinner r1 r2 s).ballTrailEnabled = s.ballTrailEnabled := by unfold checkWinner; split_ifs <;> simp
@[simp] theorem checkWinner_spinningLEDEnabled (r1 r2 : ℚ) (s : State) :
    (checkWinner r1 r2 s).spinningLEDEnabled = s.spinningLEDEnabled := by unfold checkWinner; split_ifs <;> simp
@[simp] theorem checkWinner_canvasWidth (r1 r2 : ℚ) (s : State) :
    (checkWinner r1 r2 s).canvasWidth = s.canvasWidth := by unfold checkWinner; split_ifs <;> simp
@[simp] theorem checkWinner_canvasHeight (r1 r2 : ℚ) (s : State) :
    (checkWinner r1 r2 s).canvasHeight = s.canvasHeight := by unfold checkWinner; split_ifs <;> simp
@[simp] theorem checkWinner_wPressed (r1 r2 : ℚ) (s : State) :
    (checkWinner r1 r2 s).wPressed = s.wPressed := by unfold checkWinner; split_ifs <;> simp
@[simp] theorem checkWinner_sPressed (r1 r2 : ℚ) (s : State) :
    (checkWinner r1 r2 s).sPressed = s.sPressed := by unfold checkWinner; split_ifs <;> simp
@[simp] theorem checkWinner_upPressed (r1 r2 : ℚ) (s : State) :
    (checkWinner r1 r2 s).upPressed = s.upPressed := by unfold checkWinner; split_ifs <;> simp
@[simp] theorem checkWinner_downPressed (r1 r2 : ℚ) (s : State) :
    (checkWinner r1 r2 s).downPressed = s.downPressed := by unfold checkWinner; split_ifs <;> simp

@[simp] theorem leftScore_pending (inp : FrameInput) (s : State) :
    (leftScore inp s).pending = s.pending := by simp [leftScore]
@[simp] theorem leftScore_customComputerSpeed (inp : FrameInput) (s : State) :
    (leftScore inp s).customComputerSpeed = s.customComputerSpeed := by simp [leftScore]
@[simp] theorem leftScore_ballTrail (inp : FrameInput) (s : State) :
    (leftScore inp s).ballTrail = s.ballTrail := by simp [leftScore]
@[simp] theorem leftScore_glowTrail (inp : FrameInput) (s : State) :
    (leftScore inp s).glowTrail = s.glowTrail := by simp [leftScore]
@[simp] theorem leftScore_ledTrail (inp : FrameInput) (s : State) :
    (leftScore inp s).ledTrail = s.ledTrail := by simp [leftScore]
@[simp] theorem leftScore_ballTrailEnabled (inp : FrameInput) (s : State) :
    (leftScore inp s).ballTrailEnabled = s.ballTrailEnabled := by simp [leftScore]
@[simp] theorem leftScore_spinningLEDEnabled (inp : FrameInput) (s : State) :
    (leftScore inp s).spinningLEDEnabled = s.spinningLEDEnabled := by simp [leftScore]
@[simp] theorem leftScore_canvasWidth (inp : FrameInput) (s : State) :
    (leftScore inp s).canvasWidth = s.canvasWidth := by simp [leftScore]
@[simp] theorem leftScore_canvasHeight (inp : FrameInput) (s : State) :
    (leftScore inp s).canvasHeight = s.canvasHeight := by simp [leftScore]
@[simp] theorem leftScore_wPressed (inp : FrameInput) (s : State) :
    (leftScore inp s).wPressed = s.wPressed := by simp [leftScore]
@[simp] theorem leftScore_sPressed (inp : FrameInput) (s : State) :
    (leftScore inp s).sPressed = s.sPressed := by simp [leftScore]
@[simp] theorem leftScore_upPressed (inp : FrameInput) (s : State) :
    (leftScore inp s).upPressed = s.upPressed := by simp [leftScore]
@[simp] theorem leftScore_downPressed (inp : FrameInput) (s : State) :
    (leftScore inp s).downPressed = s.downPressed := by simp [leftScore]

@[simp] theorem leftStep_pending (inp : FrameInput) (s : State) :
    (leftStep inp s).pending = s.pending := by unfold leftStep; split_ifs <;> simp
@[simp] theorem leftStep_customComputerSpeed (inp : FrameInput) (s : State) :
    (leftStep inp s).customComputerSpeed = s.customComputerSpeed := by unfold leftStep; split_ifs <;> simp
@[simp] theorem leftStep_ballTrail (inp : FrameInput) (s : State) :
    (leftStep inp s).ballTrail = s.ballTrail := by unfold leftStep; split_ifs <;> simp
@[simp] theorem leftStep_glowTrail (inp : FrameInput) (s : State) :
    (leftStep inp s).glowTrail = s.glowTrail := by unfold leftStep; split_ifs <;> simp
@[simp] theorem leftStep_ledTrail (inp : FrameInput) (s : State) :
    (leftStep inp s).ledTrail = s.ledTrail := by unfold leftStep; split_ifs <;> simp
@[simp] theorem leftStep_ballTrailEnabled (inp : FrameInput) (s : State) :
    (leftStep inp s).ballTrailEnabled = s.ballTrailEnabled := by unfold leftStep; split_ifs <;> simp
@[simp] theorem leftStep_spinningLEDEnabled (inp : FrameInput) (s : State) :
    (leftStep inp s).spinningLEDEnabled = s.spinningLEDEnabled := by unfold leftStep; split_ifs <;> simp
@[simp] theorem leftStep_canvasWidth (inp : FrameInput) (s : State) :
    (leftStep inp s).canvasWidth = s.canvasWidth := by unfold leftStep; split_ifs <;> simp
@[simp] theorem leftStep_canvasHeight (inp : FrameInput) (s : State) :
    (leftStep inp s).canvasHeight = s.canvasHeight := by unfold leftStep; split_ifs <;> simp
@[simp] theorem leftStep_wPressed (inp : FrameInput) (s : State) :
    (leftStep inp s).wPressed = s.wPressed := by unfold leftStep; split_ifs <;> simp
@[simp] theorem leftStep_sPressed (inp : FrameInput) (s : State) :
    (leftStep inp s).sPressed = s.sPressed := by unfold leftStep; split_ifs <;> simp
@[simp] theorem leftStep_upPressed (inp : FrameInput) (s : State) :
    (leftStep inp s).upPressed = s.upPressed := by unfold leftStep; split_ifs <;> simp
@[simp] theorem leftStep_downPressed (inp : FrameInput) (s : State) :
    (leftStep inp s).downPressed = s.downPressed := by unfold leftStep; split_ifs <;> simp

@[simp] theorem rightPaddleStep_pending (s : State) :
    (rightPaddleStep s).pending = s.pending := by unfold rightPaddleStep; split_ifs <;> rfl
@[simp] theorem rightPaddleStep_customComputerSpeed (s : State) :
    (rightPaddleStep s).customComputerSpeed = s.customComputerSpeed := by unfold rightPaddleStep; split_ifs <;> rfl
@[simp] theorem rightPaddleStep_ballTrail (s : State) :
    (rightPaddleStep s).ballTrail = s.ballTrail := by unfold rightPaddleStep; split_ifs <;> rfl
@[simp] theorem rightPaddleStep_glowTrail (s : State) :
    (rightPaddleStep s).glowTrail = s.glowTrail := by unfold rightPaddleStep; split_ifs <;> rfl
@[simp] theorem rightPaddleStep_ledTrail (s : State) :
    (rightPaddleStep s).ledTrail = s.ledTrail := by unfold rightPaddleStep; split_ifs <;> rfl
@[simp] theorem rightPaddleStep_ballTrailEnabled (s : State) :
    (rightPaddleStep s).ballTrailEnabled = s.ballTrailEnabled := by unfold rightPaddleStep; split_ifs <;> rfl
@[simp] theorem rightPaddleStep_spinningLEDEnabled (s : State) :
    (rightPaddleStep s).spinningLEDEnabled = s.spinningLEDEnabled := by unfold rightPaddleStep; split_ifs <;> rfl
@[simp] theorem rightPaddleStep_canvasWidth (s : State) :
    (rightPaddleStep s).canvasWidth = s.canvasWidth := by unfold rightPaddleStep; split_ifs <;> rfl
@[simp] theorem rightPaddleStep_canvasHeight (s : State) :
    (rightPaddleStep s).canvasHeight = s.canvasHeight := by unfold rightPaddleStep; split_ifs <;> rfl
@[simp] theorem rightPaddleStep_wPressed (s : State) :
    (rightPaddleStep s).wPressed = s.wPressed := by unfold rightPaddleStep; split_ifs <;> rfl
@[simp] theorem rightPaddleStep_sPressed (s : State) :
    (rightPaddleStep s).sPressed = s.sPressed := by unfold rightPaddleStep; split_ifs <;> rfl
@[simp] theorem rightPaddleStep_upPressed (s : State) :
    (rightPaddleStep s).upPressed = s.upPressed := by unfold rightPaddleStep; split_ifs <;> rfl
@[simp] theorem rightPaddleStep_downPressed (s : State) :
    (rightPaddleStep s).downPressed = s.downPressed := by unfold rightPaddleStep; split_ifs <;> rfl

@[simp] theorem rightScore_pending (inp : FrameInput) (s : State) :
    (rightScore inp s).pending = s.pending := by simp [rightScore]
@[simp] theorem rightScore_customComputerSpeed (inp : FrameInput) (s : State) :
    (rightScore inp s).customComputerSpeed = s.customComputerSpeed := by simp [rightScore]
@[simp] theorem rightScore_ballTrail (inp : FrameInput) (s : State) :
    (rightScore inp s).ballTrail = s.ballTrail := by simp [rightScore]
@[simp] theorem rightScore_glowTrail (inp : FrameInput) (s : State) :
    (rightScore inp s).glowTrail = s.glowTrail := by simp [rightScore]
@[simp] theorem rightScore_ledTrail (inp : FrameInput) (s : State) :
    (rightScore inp s).ledTrail = s.ledTrail := by simp [rightScore]
@[simp] theorem rightScore_ballTrailEnabled (inp : FrameInput) (s : State) :
    (rightScore inp s).ballTrailEnabled = s.ballTrailEnabled := by simp [rightScore]
@[simp] theorem rightScore_spinningLEDEnabled (inp : FrameInput) (s : State) :
    (rightScore inp s).spinningLEDEnabled = s.spinningLEDEnabled := by simp [rightScore]
@[simp] theorem rightScore_canvasWidth (inp : FrameInput) (s : State) :
    (rightScore inp s).canvasWidth = s.canvasWidth := by simp [rightScore]
@[simp] theorem rightScore_canvasHeight (inp : FrameInput) (s : State) :
    (rightScore inp s).canvasHeight = s.canvasHeight := by simp [rightScore]
@[simp] theorem rightScore_wPressed (inp : FrameInput) (s : State) :
    (rightScore inp s).wPressed = s.wPressed := by simp [rightScore]
@[simp] theorem rightScore_sPressed (inp : FrameInput) (s : State) :
    (rightScore inp s).sPressed = s.sPressed := by simp [rightScore]
@[simp] theorem rightScore_upPressed (inp : FrameInput) (s : State) :
    (rightScore inp s).upPressed = s.upPressed := by simp [rightScore]
@[simp] theorem rightScore_downPressed (inp : FrameInput) (s : State) :
    (rightScore inp s).downPressed = s.downPressed := by simp [rightScore]

@[simp] theorem rightScoreStep_pending (inp : FrameInput) (s : State) :
    (rightScoreStep inp s).pending = s.pending := by unfold rightScoreStep; split_ifs <;> simp
@[simp] theorem rightScoreStep_customComputerSpeed (inp : FrameInput) (s : State) :
    (rightScoreStep inp s).customComputerSpeed = s.customComputerSpeed := by unfold rightScoreStep; split_ifs <;> simp
@[simp] theorem rightScoreStep_ballTrail (inp : FrameInput) (s : State) :
    (rightScoreStep inp s).ballTrail = s.ballTrail := by unfold rightScoreStep; split_ifs <;> simp
@[simp] theorem rightScoreStep_glowTrail (inp : FrameInput) (s : State) :
    (rightScoreStep inp s).glowTrail = s.glowTrail := by unfold rightScoreStep; split_ifs <;> simp
@[simp] theorem rightScoreStep_ledTrail (inp : FrameInput) (s : State) :
    (rightScoreStep inp s).ledTrail = s.ledTrail := by unfold rightScoreStep; split_ifs <;> simp
@[simp] theorem rightScoreStep_ballTrailEnabled (inp : FrameInput) (s : State) :
    (rightScoreStep inp s).ballTrailEnabled = s.ballTrailEnabled := by unfold rightScoreStep; split_ifs <;> simp
@[simp] theorem rightScoreStep_spinningLEDEnabled (inp : FrameInput) (s : State) :
    (rightScoreStep inp s).spinningLEDEnabled = s.spinningLEDEnabled := by unfold rightScoreStep; split_ifs <;> simp
@[simp] theorem rightScoreStep_canvasWidth (inp : FrameInput) (s : State) :
    (rightScoreStep inp s).canvasWidth = s.canvasWidth := by unfold rightScoreStep; split_ifs <;> simp
@[simp] theorem rightScoreStep_canvasHeight (inp : FrameInput) (s : State) :
    (rightScoreStep inp s).canvasHeight = s.canvasHeight := by unfold rightScoreStep; split_ifs <;> simp
@[simp] theorem rightScoreStep_wPressed (inp : FrameInput) (s : State) :
    (rightScoreStep inp s).wPressed = s.wPressed := by unfold rightScoreStep; split_ifs <;> simp
@[simp] theorem rightScoreStep_sPressed (inp : FrameInput) (s : State) :
    (rightScoreStep inp s).sPressed = s.sPressed := by unfold rightScoreStep; split_ifs <;> simp
@[simp] theorem rightScoreStep_upPressed (inp : FrameInput) (s : State) :
    (rightScoreStep inp s).upPressed = s.upPressed := by unfold rightScoreStep; split_ifs <;> simp
@[simp] theorem rightScoreStep_downPressed (inp : FrameInput) (s : State) :
    (rightScoreStep inp s).downPressed = s.downPressed := by unfold rightScoreStep; split_ifs <;> simp

@[simp] theorem collisionPhase_pending (inp : FrameInput) (s : State) :
    (collisionPhase inp s).pending = s.pending := by simp [collisionPhase]
@[simp] theorem collisionPhase_customComputerSpeed (inp : FrameInput) (s : State) :
    (collisionPhase inp s).customComputerSpeed = s.customComputerSpeed := by simp [collisionPhase]
@[simp] theorem collisionPhase_ledTrail (inp : FrameInput) (s : State) :
    (collisionPhase inp s).ledTrail = s.ledTrail := by simp [collisionPhase]
@[simp] theorem collisionPhase_ballTrailEnabled (inp : FrameInput) (s : State) :
    (collisionPhase inp s).ballTrailEnabled = s.ballTrailEnabled := by simp [collisionPhase]
@[simp] theorem collisionPhase_spinningLEDEnabled (inp : FrameInput) (s : State) :
    (collisionPhase inp s).spinningLEDEnabled = s.spinningLEDEnabled := by simp [collisionPhase]
@[simp] theorem collisionPhase_canvasWidth (inp : FrameInput) (s : State) :
    (collisionPhase inp s).canvasWidth = s.canvasWidth := by simp [collisionPhase]
@[simp] theorem collisionPhase_canvasHeight (inp : FrameInput) (s : State) :
    (collisionPhase inp s).canvasHeight = s.canvasHeight := by simp [collisionPhase]
@[simp] theorem collisionPhase_wPressed (inp : FrameInput) (s : State) :
    (collisionPhase inp s).wPressed = s.wPressed := by simp [collisionPhase]
@[simp] theorem collisionPhase_sPressed (inp : FrameInput) (s : State) :
    (collisionPhase inp s).sPressed = s.sPressed := by simp [collisionPhase]
@[simp] theorem collisionPhase_upPressed (inp : FrameInput) (s : State) :
    (collisionPhase inp s).upPressed = s.upPressed := by simp [collisionPhase]
@[simp] theorem collisionPhase_downPressed (inp : FrameInput) (s : State) :
    (collisionPhase inp s).downPressed = s.downPressed := by simp [collisionPhase]

@[simp] theorem aiStep_ballTrail (inp : FrameInput) (s : State) :
    (aiStep inp s).ballTrail = s.ballTrail := by rfl
@[simp] theorem aiStep_glowTrail (inp : FrameInput) (s : State) :
    (aiStep inp s).glowTrail = s.glowTrail := by rfl
@[simp] theorem aiStep_ledTrail (inp : FrameInput) (s : State) :
    (aiStep inp s).ledTrail = s.ledTrail := by rfl
@[simp] theorem aiStep_ballTrailEnabled (inp : FrameInput) (s : State) :
    (aiStep inp s).ballTrailEnabled = s.ballTrailEnabled := by rfl
@[simp] theorem aiStep_spinningLEDEnabled (inp : FrameInput) (s : State) :
    (aiStep inp s).spinningLEDEnabled = s.spinningLEDEnabled := by rfl
@[simp] theorem aiStep_canvasWidth (inp : FrameInput) (s : State) :
    (aiStep inp s).canvasWidth = s.canvasWidth := by rfl
@[simp] theorem aiStep_canvasHeight (inp : FrameInput) (s : State) :
    (aiStep inp s).canvasHeight = s.canvasHeight := by rfl
@[simp] theorem aiStep_wPressed (inp : FrameInput) (s : State) :
    (aiStep inp s).wPressed = s.wPressed := by rfl
@[simp] theorem aiStep_sPressed (inp : FrameInput) (s : State) :
    (aiStep inp s).sPressed = s.sPressed := by rfl
@[simp] theorem aiStep_upPressed (inp : FrameInput) (s : State) :
    (aiStep inp s).upPressed = s.upPressed := by rfl
@[simp] theorem aiStep_downPressed (inp : FrameInput) (s : State) :
    (aiStep inp s).downPressed = s.downPressed := by rfl

@[simp] theorem boostExpiryStep_pending (now : ℤ) (s : State) :
    (boostExpiryStep now s).pending = s.pending := by unfold boostExpiryStep; split <;> rfl
@[simp] theorem boostExpiryStep_customComputerSpeed (now : ℤ) (s : State) :
    (boostExpiryStep now s).customComputerSpeed = s.customComputerSpeed := by unfold boostExpiryStep; split <;> rfl
@[simp] theorem boostExpiryStep_ballTrail (now : ℤ) (s : State) :
    (boostExpiryStep now s).ballTrail = s.ballTrail := by unfold boostExpiryStep; split <;> rfl
@[simp] theorem boostExpiryStep_glowTrail (now : ℤ) (s : State) :
    (boostExpiryStep now s).glowTrail = s.glowTrail := by unfold boostExpiryStep; split <;> rfl
@[simp] theorem boostExpiryStep_ledTrail (now : ℤ) (s : State) :
    (boostExpiryStep now s).ledTrail = s.ledTrail := by unfold boostExpiryStep; split <;> rfl
@[simp] theorem boostExpiryStep_ballTrailEnabled (now : ℤ) (s : State) :
    (boostExpiryStep now s).ballTrailEnabled = s.ballTrailEnabled := by unfold boostExpiryStep; split <;> rfl
@[simp] theorem boostExpiryStep_spinningLEDEnabled (now : ℤ) (s : State) :
    (boostExpiryStep now s).spinningLEDEnabled = s.spinningLEDEnabled := by unfold boostExpiryStep; split <;> rfl
@[simp] theorem boostExpiryStep_canvasWidth (now : ℤ) (s : State) :
    (boostExpiryStep now s).canvasWidth = s.canvasWidth := by unfold boostExpiryStep; split <;> rfl
@[simp] theorem boostExpiryStep_canvasHeight (now : ℤ) (s : State) :
    (boostExpiryStep now s).canvasHeight = s.canvasHeight := by unfold boostExpiryStep; split <;> rfl
@[simp] theorem boostExpiryStep_wPressed (now : ℤ) (s : State) :
    (boostExpiryStep now s).wPressed = s.wPressed := by unfold boostExpiryStep; split <;> rfl
@[simp] theorem boostExpiryStep_sPressed (now : ℤ) (s : State) :
    (boostExpiryStep now s).sPressed = s.sPressed := by unfold boostExpiryStep; split <;> rfl
@[simp] theorem boostExpiryStep_upPressed (now : ℤ) (s : State) :
    (boostExpiryStep now s).upPressed = s.upPressed := by unfold boostExpiryStep; split <;> rfl
@[simp] theorem boostExpiryStep_downPressed (now : ℤ) (s : State) :
    (boostExpiryStep now s).downPressed = s.downPressed := by unfold boostExpiryStep; split <;> rfl

@[simp] theorem clampStep_pending (s : State) :
    (clampStep s).pending = s.pending := by rfl
@[simp] theorem clampStep_customComputerSpeed (s : State) :
    (clampStep s).customComputerSpeed = s.customComputerSpeed := by rfl
@[simp] theorem clampStep_ballTrail (s : State) :
    (clampStep s).ballTrail = s.ballTrail := by rfl
@[simp] theorem clampStep_glowTrail (s : State) :
    (clampStep s).glowTrail = s.glowTrail := by rfl
@[simp] theorem clampStep_ledTrail (s : State) :
    (clampStep s).ledTrail = s.ledTrail := by rfl
@[simp] theorem clampStep_ballTrailEnabled (s : State) :
    (clampStep s).ballTrailEnabled = s.ballTrailEnabled := by rfl
@[simp] theorem clampStep_spinningLEDEnabled (s : State) :
    (clampStep s).spinningLEDEnabled = s.spinningLEDEnabled := by rfl
@[simp] theorem clampStep_canvasWidth (s : State) :
    (clampStep s).canvasWidth = s.canvasWidth := by rfl
@[simp] theorem clampStep_canvasHeight (s : State) :
    (clampStep s).canvasHeight = s.canvasHeight := by rfl
@[simp] theorem clampStep_wPressed (s : State) :
    (clampStep s).wPressed = s.wPressed := by rfl
@[simp] theorem clampStep_sPressed (s : State) :
    (clampStep s).sPressed = s.sPressed := by rfl
@[simp] theorem clampStep_upPressed (s : State) :
    (clampStep s).upPressed = s.upPressed := by rfl
@[simp] theorem clampStep_downPressed (s : State) :
    (clampStep s).downPressed = s.downPressed := by rfl

@[simp] theorem ballBody_ledTrail (inp : FrameInput) (s : State) :
    (ballBody inp s).ledTrail = s.ledTrail := by simp [ballBody]
@[simp] theorem ballBody_ballTrailEnabled (inp : FrameInput) (s : State) :
    (ballBody inp s).ballTrailEnabled = s.ballTrailEnabled := by simp [ballBody]
@[simp] theorem ballBody_spinningLEDEnabled (inp : FrameInput) (s : State) :
    (ballBody inp s).spinningLEDEnabled = s.spinningLEDEnabled := by simp [ballBody]
@[simp] theorem ballBody_canvasWidth (inp : FrameInput) (s : State) :
    (ballBody inp s).canvasWidth = s.canvasWidth := by simp [ballBody]
@[simp] theorem ballBody_canvasHeight (inp : FrameInput) (s : State) :
    (ballBody inp s).canvasHeight = s.canvasHeight := by simp [ballBody]
@[simp] theorem ballBody_wPressed (inp : FrameInput) (s : State) :
    (ballBody inp s).wPressed = s.wPressed := by simp [ballBody]
@[simp] theorem ballBody_sPressed (inp : FrameInput) (s : State) :
    (ballBody inp s).sPressed = s.sPressed := by simp [ballBody]
@[simp] theorem ballBody_upPressed (inp : FrameInput) (s : State) :
    (ballBody inp s).upPressed = s.upPressed := by simp [ballBody]
@[simp] theorem ballBody_downPressed (inp : FrameInput) (s : State) :
    (ballBody inp s).downPressed = s.downPressed := by simp [ballBody]

@[simp] theorem ballStep_ledTrail (inp : FrameInput) (s : State) :
    (ballStep inp s).ledTrail = s.ledTrail := by unfold ballStep; split <;> simp
@[simp] theorem ballStep_ballTrailEnabled (inp : FrameInput) (s : State) :
    (ballStep inp s).ballTrailEnabled = s.ballTrailEnabled := by unfold ballStep; split <;> simp
@[simp] theorem ballStep_spinningLEDEnabled (inp : FrameInput) (s : State) :
    (ballStep inp s).spinningLEDEnabled = s.spinningLEDEnabled := by unfold ballStep; split <;> simp
@[simp] theorem ballStep_canvasWidth (inp : FrameInput) (s : State) :
    (ballStep inp s).canvasWidth = s.canvasWidth := by unfold ballStep; split <;> simp
@[simp] theorem ballStep_canvasHeight (inp : FrameInput) (s : State) :
    (ballStep inp s).canvasHeight = s.canvasHeight := by unfold ballStep; split <;> simp
@[simp] theorem ballStep_wPressed (inp : FrameInput) (s : State) :
    (ballStep inp s).wPressed = s.wPressed := by unfold ballStep; split <;> simp
@[simp] theorem ballStep_sPressed (inp : FrameInput) (s : State) :
    (ballStep inp s).sPressed = s.sPressed := by unfold ballStep; split <;> simp
@[simp] theorem ballStep_upPressed (inp : FrameInput) (s : State) :
    (ballStep inp s).upPressed = s.upPressed := by unfold ballStep; split <;> simp
@[simp] theorem ballStep_downPressed (inp : FrameInput) (s : State) :
    (ballStep inp s).downPressed = s.downPressed := by unfold ballStep; split <;> simp

@[simp] theorem playerKeyStep_pending (v : ℚ) (s : State) :
    (playerKeyStep v s).pending = s.pending := by simp only [playerKeyStep]; split_ifs <;> rfl
@[simp] theorem playerKeyStep_customComputerSpeed (v : ℚ) (s : State) :
    (playerKeyStep v s).customComputerSpeed = s.customComputerSpeed := by simp only [playerKeyStep]; split_ifs <;> rfl
@[simp] theorem playerKeyStep_ballTrail (v : ℚ) (s : State) :
    (playerKeyStep v s).ballTrail = s.ballTrail := by simp only [playerKeyStep]; split_ifs <;> rfl
@[simp] theorem playerKeyStep_glowTrail (v : ℚ) (s : State) :
    (playerKeyStep v s).glowTrail = s.glowTrail := by simp only [playerKeyStep]; split_ifs <;> rfl
@[simp] theorem playerKeyStep_ledTrail (v : ℚ) (s : State) :
    (playerKeyStep v s).ledTrail = s.ledTrail := by simp only [playerKeyStep]; split_ifs <;> rfl
@[simp] theorem playerKeyStep_ballTrailEnabled (v : ℚ) (s : State) :
    (playerKeyStep v s).ballTrailEnabled = s.ballTrailEnabled := by simp only [playerKeyStep]; split_ifs <;> rfl
@[simp] theorem playerKeyStep_spinningLEDEnabled (v : ℚ) (s : State) :
    (playerKeyStep v s).spinningLEDEnabled = s.spinningLEDEnabled := by simp only [playerKeyStep]; split_ifs <;> rfl
@[simp] theorem playerKeyStep_canvasWidth (v : ℚ) (s : State) :
    (playerKeyStep v s).canvasWidth = s.canvasWidth := by simp only [playerKeyStep]; split_ifs <;> rfl
@[simp] theorem playerKeyStep_canvasHeight (v : ℚ) (s : State) :
    (playerKeyStep v s).canvasHeight = s.canvasHeight := by simp only [playerKeyStep]; split_ifs <;> rfl
@[simp] theorem playerKeyStep_wPressed (v : ℚ) (s : State) :
    (playerKeyStep v s).wPressed = s.wPressed := by simp only [playerKeyStep]; split_ifs <;> rfl
@[simp] theorem playerKeyStep_sPressed (v : ℚ) (s : State) :
    (playerKeyStep v s).sPressed = s.sPressed := by simp only [playerKeyStep]; split_ifs <;> rfl
@[simp] theorem playerKeyStep_upPressed (v : ℚ) (s : State) :
    (playerKeyStep v s).upPressed = s.upPressed := by simp only [playerKeyStep]; split_ifs <;> rfl
@[simp] theorem playerKeyStep_downPressed (v : ℚ) (s : State) :
    (playerKeyStep v s).downPressed = s.downPressed := by simp only [playerKeyStep]; split_ifs <;> rfl

@[simp] theorem computerKeyStep_pending (v : ℚ) (s : State) :
    (computerKeyStep v s).pending = s.pending := by simp only [computerKeyStep]; split_ifs <;> rfl
@[simp] theorem computerKeyStep_customComputerSpeed (v : ℚ) (s : State) :
    (computerKeyStep v s).customComputerSpeed = s.customComputerSpeed := by simp only [computerKeyStep]; split_ifs <;> rfl
@[simp] theorem computerKeyStep_ballTrail (v : ℚ) (s : State) :
    (computerKeyStep v s).ballTrail = s.ballTrail := by simp only [computerKeyStep]; split_ifs <;> rfl
@[simp] theorem computerKeyStep_glowTrail (v : ℚ) (s : State) :
    (computerKeyStep v s).glowTrail = s.glowTrail := by simp only [computerKeyStep]; split_ifs <;> rfl
@[simp] theorem computerKeyStep_ledTrail (v : ℚ) (s : State) :
    (computerKeyStep v s).ledTrail = s.ledTrail := by simp only [computerKeyStep]; split_ifs <;> rfl
@[simp] theorem computerKeyStep_ballTrailEnabled (v : ℚ) (s : State) :
    (computerKeyStep v s).ballTrailEnabled = s.ballTrailEnabled := by simp only [computerKeyStep]; split_ifs <;> rfl
@[simp] theorem computerKeyStep_spinningLEDEnabled (v : ℚ) (s : State) :
    (computerKeyStep v s).spinningLEDEnabled = s.spinningLEDEnabled := by simp only [computerKeyStep]; split_ifs <;> rfl
@[simp] theorem computerKeyStep_canvasWidth (v : ℚ) (s : State) :
    (computerKeyStep v s).canvasWidth = s.canvasWidth := by simp only [computerKeyStep]; split_ifs <;> rfl
@[simp] theorem computerKeyStep_canvasHeight (v : ℚ) (s : State) :
    (computerKeyStep v s).canvasHeight = s.canvasHeight := by simp only [computerKeyStep]; split_ifs <;> rfl
@[simp] theorem computerKeyStep_wPressed (v : ℚ) (s : State) :
    (computerKeyStep v s).wPressed = s.wPressed := by simp only [computerKeyStep]; split_ifs <;> rfl
@[simp] theorem computerKeyStep_sPressed (v : ℚ) (s : State) :
    (computerKeyStep v s).sPressed = s.sPressed := by simp only [computerKeyStep]; split_ifs <;> rfl
@[simp] theorem computerKeyStep_upPressed (v : ℚ) (s : State) :
    (computerKeyStep v s).upPressed = s.upPressed := by simp only [computerKeyStep]; split_ifs <;> rfl
@[simp] theorem computerKeyStep_downPressed (v : ℚ) (s : State) :
    (computerKeyStep v s).downPressed = s.downPressed := by simp only [computerKeyStep]; split_ifs <;> rfl

@[simp] theorem draw_ballTrailEnabled (inp : FrameInput) (s : State) :
    (draw inp s).ballTrailEnabled = s.ballTrailEnabled := by simp [draw]
@[simp] theorem draw_spinningLEDEnabled (inp : FrameInput) (s : State) :
    (draw inp s).spinningLEDEnabled = s.spinningLEDEnabled := by simp [draw]
@[simp] theorem draw_canvasWidth (inp : FrameInput) (s : State) :
    (draw inp s).canvasWidth = s.canvasWidth := by simp [draw]
@[simp] theorem draw_canvasHeight (inp : FrameInput) (s : State) :
    (draw inp s).canvasHeight = s.canvasHeight := by simp [draw]
@[simp] theorem draw_wPressed (inp : FrameInput) (s : State) :
    (draw inp s).wPressed = s.wPressed := by simp [draw]
@[simp] theorem draw_sPressed (inp : FrameInput) (s : State) :
    (draw inp s).sPressed = s.sPressed := by simp [draw]
@[simp] theorem draw_upPressed (inp : FrameInput) (s : State) :
    (draw inp s).upPressed = s.upPressed := by simp [draw]
@[simp] theorem draw_downPressed (inp : FrameInput) (s : State) :
    (draw inp s).downPressed = s.downPressed := by simp [draw]

@[simp] theorem mousemove_pending (mouseY : ℚ) (s : State) :
    (mousemove mouseY s).pending = s.pending := by rfl
@[simp] theorem mousemove_customComputerSpeed (mouseY : ℚ) (s : State) :
    (mousemove mouseY s).customComputerSpeed = s.customComputerSpeed := by rfl
@[simp] theorem mousemove_ballTrail (mouseY : ℚ) (s : State) :
    (mousemove mouseY s).ballTrail = s.ballTrail := by rfl
@[simp] theorem mousemove_glowTrail (mouseY : ℚ) (s : State) :
    (mousemove mouseY s).glowTrail = s.glowTrail := by rfl
@[simp] theorem mousemove_ledTrail (mouseY : ℚ) (s : State) :
    (mousemove mouseY s).ledTrail = s.ledTrail := by rfl
@[simp] theorem mousemove_ballTrailEnabled (mouseY : ℚ) (s : State) :
    (mousemove mouseY s).ballTrailEnabled = s.ballTrailEnabled := by rfl
@[simp] theorem mousemove_spinningLEDEnabled (mouseY : ℚ) (s : State) :
    (mousemove mouseY s).spinningLEDEnabled = s.spinningLEDEnabled := by rfl
@[simp] theorem mousemove_canvasWidth (mouseY : ℚ) (s : State) :
    (mousemove mouseY s).canvasWidth = s.canvasWidth := by rfl
@[simp] theorem mousemove_canvasHeight (mouseY : ℚ) (s : State) :
    (mousemove mouseY s).canvasHeight = s.canvasHeight := by rfl
@[simp] theorem mousemove_wPressed (mouseY : ℚ) (s : State) :
    (mousemove mouseY s).wPressed = s.wPressed := by rfl
@[simp] theorem mousemove_sPressed (mouseY : ℚ) (s : State) :
    (mousemove mouseY s).sPressed = s.sPressed := by rfl
@[simp] theorem mousemove_upPressed (mouseY : ℚ) (s : State) :
    (mousemove mouseY s).upPressed = s.upPressed := by rfl
@[simp] theorem mousemove_downPressed (mouseY : ℚ) (s : State) :
    (mousemove mouseY s).downPressed = s.downPressed := by rfl

@[simp] theorem keydown_pending (k : Key) (s : State) :
    (keydown k s).pending = s.pending := by cases k <;> rfl
@[simp] theorem keydown_customComputerSpeed (k : Key) (s : State) :
    (keydown k s).customComputerSpeed = s.customComputerSpeed := by cases k <;> rfl
@[simp] theorem keydown_ballTrail (k : Key) (s : State) :
    (keydown k s).ballTrail = s.ballTrail := by cases k <;> rfl
@[simp] theorem keydown_glowTrail (k : Key) (s : State) :
    (keydown k s).glowTrail = s.glowTrail := by cases k <;> rfl
@[simp] theorem keydown_ledTrail (k : Key) (s : State) :
    (keydown k s).ledTrail = s.ledTrail := by cases k <;> rfl
@[simp] theorem keydown_ballTrailEnabled (k : Key) (s : State) :
    (keydown k s).ballTrailEnabled = s.ballTrailEnabled := by cases k <;> rfl
@[simp] theorem keydown_spinningLEDEnabled (k : Key) (s : State) :
    (keydown k s).spinningLEDEnabled = s.spinningLEDEnabled := by cases k <;> rfl
@[simp] theorem keydown_canvasWidth (k : Key) (s : State) :
    (keydown k s).canvasWidth = s.canvasWidth := by cases k <;> rfl
@[simp] theorem keydown_canvasHeight (k : Key) (s : State) :
    (keydown k s).canvasHeight = s.canvasHeight := by cases k <;> rfl

@[simp] theorem keyup_pending (k : Key) (s : State) :
    (keyup k s).pending = s.pending := by cases k <;> rfl
@[simp] theorem keyup_customComputerSpeed (k : Key) (s : State) :
    (keyup k s).customComputerSpeed = s.customComputerSpeed := by cases k <;> rfl
@[simp] theorem keyup_ballTrail (k : Key) (s : State) :
    (keyup k s).ballTrail = s.ballTrail := by cases k <;> rfl
@[simp] theorem keyup_glowTrail (k : Key) (s : State) :
    (keyup k s).glowTrail = s.glowTrail := by cases k <;> rfl
@[simp] theorem keyup_ledTrail (k : Key) (s : State) :
    (keyup k s).ledTrail = s.ledTrail := by cases k <;> rfl
@[simp] theorem keyup_ballTrailEnabled (k : Key) (s : State) :
    (keyup k s).ballTrailEnabled = s.ballTrailEnabled := by cases k <;> rfl
@[simp] theorem keyup_spinningLEDEnabled (k : Key) (s : State) :
    (keyup k s).spinningLEDEnabled = s.spinningLEDEnabled := by cases k <;> rfl
@[simp] theorem keyup_canvasWidth (k : Key) (s : State) :
    (keyup k s).canvasWidth = s.canvasWidth := by cases k <;> rfl
@[simp] theorem keyup_canvasHeight (k : Key) (s : State) :
    (keyup k s).canvasHeight = s.canvasHeight := by cases k <;> rfl

@[simp] theorem startGame_pending (c : ℚ) (d : Difficulty) (r1 r2 : ℚ) (s : State) :
    (startGame c d r1 r2 s).pending = s.pending := by simp only [startGame]; split_ifs <;> rfl
@[simp] theorem startGame_ballTrail (c : ℚ) (d : Difficulty) (r1 r2 : ℚ) (s : State) :
    (startGame c d r1 r2 s).ballTrail = s.ballTrail := by simp only [startGame]; split_ifs <;> rfl
@[simp] theorem startGame_glowTrail (c : ℚ) (d : Difficulty) (r1 r2 : ℚ) (s : State) :
    (startGame c d r1 r2 s).glowTrail = s.glowTrail := by simp only [startGame]; split_ifs <;> rfl
@[simp] theorem startGame_ledTrail (c : ℚ) (d : Difficulty) (r1 r2 : ℚ) (s : State) :
    (startGame c d r1 r2 s).ledTrail = s.ledTrail := by simp only [startGame]; split_ifs <;> rfl
@[simp] theorem startGame_ballTrailEnabled (c : ℚ) (d : Difficulty) (r1 r2 : ℚ) (s : State) :
    (startGame c d r1 r2 s).ballTrailEnabled = s.ballTrailEnabled := by simp only [startGame]; split_ifs <;> rfl
@[simp] theorem startGame_spinningLEDEnabled (c : ℚ) (d : Difficulty) (r1 r2 : ℚ) (s : State) :
    (startGame c d r1 r2 s).spinningLEDEnabled = s.spinningLEDEnabled := by simp only [startGame]; split_ifs <;> rfl
@[simp] theorem startGame_canvasWidth (c : ℚ) (d : Difficulty) (r1 r2 : ℚ) (s : State) :
    (startGame c d r1 r2 s).canvasWidth = s.canvasWidth := by simp only [startGame]; split_ifs <;> rfl
@[simp] theorem startGame_canvasHeight (c : ℚ) (d : Difficulty) (r1 r2 : ℚ) (s : State) :
    (startGame c d r1 r2 s).canvasHeight = s.canvasHeight := by simp only [startGame]; split_ifs <;> rfl
@[simp] theorem startGame_wPressed (c : ℚ) (d : Difficulty) (r1 r2 : ℚ) (s : State) :
    (startGame c d r1 r2 s).wPressed = s.wPressed := by simp only [startGame]; split_ifs <;> rfl
@[simp] theorem startGame_sPressed (c : ℚ) (d : Difficulty) (r1 r2 : ℚ) (s : State) :
    (startGame c d r1 r2 s).sPressed = s.sPressed := by simp only [startGame]; split_ifs <;> rfl
@[simp] theorem startGame_upPressed (c : ℚ) (d : Difficulty) (r1 r2 : ℚ) (s : State) :
    (startGame c d r1 r2 s).upPressed = s.upPressed := by simp only [startGame]; split_ifs <;> rfl
@[simp] theorem startGame_downPressed (c : ℚ) (d : Difficulty) (r1 r2 : ℚ) (s : State) :
    (startGame c d r1 r2 s).downPressed = s.downPressed := by simp only [startGame]; split_ifs <;> rfl

@[simp] theorem timerCallback_pending (v : ℚ) (s : State) :
    (timerCallback v s).pending = s.pending := by unfold timerCallback; split <;> rfl
@[simp] theorem timerCallback_customComputerSpeed (v : ℚ) (s : State) :
    (timerCallback v s).customComputerSpeed = s.customComputerSpeed := by unfold timerCallback; split <;> rfl
@[simp] theorem timerCallback_ballTrail (v : ℚ) (s : State) :
    (timerCallback v s).ballTrail = s.ballTrail := by unfold timerCallback; split <;> rfl
@[simp] theorem timerCallback_glowTrail (v : ℚ) (s : State) :
    (timerCallback v s).glowTrail = s.glowTrail := by unfold timerCallback; split <;> rfl
@[simp] theorem timerCallback_ledTrail (v : ℚ) (s : State) :
    (timerCallback v s).ledTrail = s.ledTrail := by unfold timerCallback; split <;> rfl
@[simp] theorem timerCallback_ballTrailEnabled (v : ℚ) (s : State) :
    (timerCallback v s).ballTrailEnabled = s.ballTrailEnabled := by unfold timerCallback; split <;> rfl
@[simp] theorem timerCallback_spinningLEDEnabled (v : ℚ) (s : State) :
    (timerCallback v s).spinningLEDEnabled = s.spinningLEDEnabled := by unfold timerCallback; split <;> rfl
@[simp] theorem timerCallback_canvasWidth (v : ℚ) (s : State) :
    (timerCallback v s).canvasWidth = s.canvasWidth := by unfold timerCallback; split <;> rfl
@[simp] theorem timerCallback_canvasHeight (v : ℚ) (s : State) :
    (timerCallback v s).canvasHeight = s.canvasHeight := by unfold timerCallback; split <;> rfl
@[simp] theorem timerCallback_wPressed (v : ℚ) (s : State) :
    (timerCallback v s).wPressed = s.wPressed := by unfold timerCallback; split <;> rfl
@[simp] theorem timerCallback_sPressed (v : ℚ) (s : State) :
    (timerCallback v s).sPressed = s.sPressed := by unfold timerCallback; split <;> rfl
@[simp] theorem timerCallback_upPressed (v : ℚ) (s : State) :
    (timerCallback v s).upPressed = s.upPressed := by unfold timerCallback; split <;> rfl
@[simp] theorem timerCallback_downPressed (v : ℚ) (s : State) :
    (timerCallback v s).downPressed = s.downPressed := by unfold timerCallback; split <;> rfl

@[simp] theorem fire_customComputerSpeed (i : ℕ) (s : State) :
    (fire i s).customComputerSpeed = s.customComputerSpeed := by unfold fire; split <;> simp
@[simp] theorem fire_ballTrail (i : ℕ) (s : State) :
    (fire i s).ballTrail = s.ballTrail := by unfold fire; split <;> simp
@[simp] theorem fire_glowTrail (i : ℕ) (s : State) :
    (fire i s).glowTrail = s.glowTrail := by unfold fire; split <;> simp
@[simp] theorem fire_ledTrail (i : ℕ) (s : State) :
    (fire i s).ledTrail = s.ledTrail := by unfold fire; split <;> simp
@[simp] theorem fire_ballTrailEnabled (i : ℕ) (s : State) :
    (fire i s).ballTrailEnabled = s.ballTrailEnabled := by unfold fire; split <;> simp
@[simp] theorem fire_spinningLEDEnabled (i : ℕ) (s : State) :
    (fire i s).spinningLEDEnabled = s.spinningLEDEnabled := by unfold fire; split <;> simp
@[simp] theorem fire_canvasWidth (i : ℕ) (s : State) :
    (fire i s).canvasWidth = s.canvasWidth := by unfold fire; split <;> simp
@[simp] theorem fire_canvasHeight (i : ℕ) (s : State) :
    (fire i s).canvasHeight = s.canvasHeight := by unfold fire; split <;> simp
@[simp] theorem fire_wPressed (i : ℕ) (s : State) :
    (fire i s).wPressed = s.wPressed := by unfold fire; split <;> simp
@[simp] theorem fire_sPressed (i : ℕ) (s : State) :
    (fire i s).sPressed = s.sPressed := by unfold fire; split <;> simp
@[simp] theorem fire_upPressed (i : ℕ) (s : State) :
    (fire i s).upPressed = s.upPressed := by unfold fire; split <;> simp
@[simp] theorem fire_downPressed (i : ℕ) (s : State) :
    (fire i s).downPressed = s.downPressed := by unfold fire; split <;> simp

/-! ## The clamp and the player paddle -/

theorem abs_sign_le_one (x : ℚ) : |sign x| ≤ 1 := by
  unfold sign; split_ifs <;> simp

theorem abs_clampSpeed_le (v m : ℚ) (hm : 0 ≤ m) : |clampSpeed v m| ≤ m := by
  unfold clampSpeed
  have h1 := abs_sign_le_one v
  have h2 : 0 ≤ min |v| m := le_min (abs_nonneg v) hm
  rw [abs_mul, abs_of_nonneg h2]
  calc |sign v| * min |v| m ≤ 1 * min |v| m := mul_le_mul_of_nonneg_right h1 h2
    _ = min |v| m := one_mul _
    _ ≤ m := min_le_right _ _

theorem ballAdvanced_ledStep (s : State) : ballAdvanced (ledStep s) = ballAdvanced s := by
  simp [ballAdvanced, canSpawnBall]

theorem ballStep_of_advanced (inp : FrameInput) (s : State) (h : ballAdvanced s = true) :
    ballStep inp (ledStep s) = ballBody inp (ledStep s) := by
  simp [ballStep, ballAdvanced_ledStep, h]

theorem ballStep_of_not_advanced (inp : FrameInput) (s : State) (h : ballAdvanced s = false) :
    ballStep inp (ledStep s) = ledStep s := by
  simp [ballStep, ballAdvanced_ledStep, h]

/-- C1. Clamp invariant: for every `maxBallSpeed ≥ 0`, a call of `draw` that
advances the ball ends with `|ballSpeedX| ≤ maxBallSpeed` and
`|ballSpeedY| ≤ maxBallSpeed`, whatever bounce, hit, score, reset, boost or boost
expiry happened in the frame. -/
theorem clamp_invariant (inp : FrameInput) (s : State) (hmax : 0 ≤ s.maxBallSpeed)
    (hadv : ballAdvanced s = true) :
    |(draw inp s).ballSpeedX| ≤ s.maxBallSpeed ∧ |(draw inp s).ballSpeedY| ≤ s.maxBallSpeed := by
  have hm : (boostExpiryStep inp.nowAtCheck (aiStep inp (collisionPhase inp (ledStep s)))).maxBallSpeed
      = s.maxBallSpeed := by simp
  simp only [draw, computerKeyStep_ballSpeedX, playerKeyStep_ballSpeedX, computerKeyStep_ballSpeedY,
    playerKeyStep_ballSpeedY, ballStep_of_advanced inp s hadv, ballBody, clampStep, hm]
  exact ⟨abs_clampSpeed_le _ _ hmax, abs_clampSpeed_le _ _ hmax⟩

theorem playerKeyStep_bound (v : ℚ) (s : State) (hv : 0 ≤ v)
    (hb : 0 ≤ s.playerPaddleY ∧ s.playerPaddleY ≤ s.canvas_height - s.paddleHeight) :
    0 ≤ (playerKeyStep v s).playerPaddleY ∧
      (playerKeyStep v s).playerPaddleY ≤ s.canvas_height - s.paddleHeight := by
  obtain ⟨h0, h1⟩ := hb
  have hH : 0 ≤ s.canvas_height - s.paddleHeight := le_trans h0 h1
  simp only [playerKeyStep]
  split_ifs
  · refine ⟨le_min hH (add_nonneg (le_max_left _ _) hv), min_le_left _ _⟩
  · refine ⟨le_max_left _ _, max_le hH (by linarith)⟩
  · refine ⟨le_min hH (add_nonneg h0 hv), min_le_left _ _⟩
  · exact ⟨h0, h1⟩

/-- C3. Player paddle bound: if `0 ≤ playerPaddleY ≤ canvas.height - paddleHeight`
holds before, it holds after a call of `draw` for every paddle speed `≥ 0` and
every combination of the key flags, and after a mouse move for every pointer
position, which sets `playerPaddleY` to `mouseY - paddleHeight / 2` clamped into
that interval. -/
theorem player_paddle_bound (inp : FrameInput) (mouseY : ℚ) (s : State)
    (hv : 0 ≤ inp.paddleSpeedInput)
    (hb : 0 ≤ s.playerPaddleY ∧ s.playerPaddleY ≤ s.canvas_height - s.paddleHeight) :
    (0 ≤ (draw inp s).playerPaddleY ∧
      (draw inp s).playerPaddleY ≤ (draw inp s).canvas_height - (draw inp s).paddleHeight) ∧
    (0 ≤ (mousemove mouseY s).playerPaddleY ∧
      (mousemove mouseY s).playerPaddleY ≤
        (mousemove mouseY s).canvas_height - (mousemove mouseY s).paddleHeight) ∧
    (mousemove mouseY s).playerPaddleY =
      max 0 (min (mouseY - s.paddleHeight / 2) (s.canvas_height - s.paddleHeight)) := by
  have hH : 0 ≤ s.canvas_height - s.paddleHeight := le_trans hb.1 hb.2
  refine ⟨?_, ?_, rfl⟩
  · have h := playerKeyStep_bound inp.paddleSpeedInput (ballStep inp (ledStep s)) hv
      (by simpa using hb)
    simpa [draw] using h
  · simp only [mousemove]
    exact ⟨le_max_left _ _, max_le hH (min_le_right _ _)⟩

/-- C1, witness: the frame in which the ball hits the player paddle of the default
arena. -/
theorem clamp_invariant_witness :
    0 ≤ boostStart.maxBallSpeed ∧ ballAdvanced boostStart = true ∧
    |(draw (frameAt 0 0) boostStart).ballSpeedX| ≤ boostStart.maxBallSpeed ∧
    |(draw (frameAt 0 0) boostStart).ballSpeedY| ≤ boostStart.maxBallSpeed :=
  ⟨by decide!, by decide!, clamp_invariant (frameAt 0 0) boostStart (by decide!) (by decide!)⟩

/-- C3, witness: a frame with the `s` key down, and a mouse move far below the
canvas. -/
theorem player_paddle_bound_witness :
    0 ≤ (frameAt 0 0).paddleSpeedInput ∧
    (0 ≤ (keydown .s behindPaddle).playerPaddleY ∧
      (keydown .s behindPaddle).playerPaddleY ≤
        (keydown .s behindPaddle).canvas_height - (keydown .s behindPaddle).paddleHeight) ∧
    (draw (frameAt 0 0) (keydown .s behindPaddle)).playerPaddleY = 265 ∧
    (mousemove 1000 (keydown .s behindPaddle)).playerPaddleY = 315 ∧
    (mousemove 1000 (keydown .s behindPaddle)).playerPaddleY ≤
      (mousemove 1000 (keydown .s behindPaddle)).canvas_height -
        (mousemove 1000 (keydown .s behindPaddle)).paddleHeight :=
  ⟨by decide!, by decide!, by decide!, by decide!,
    (player_paddle_bound (frameAt 0 0) 1000 (keydown .s behindPaddle) (by decide!)
      (by decide!)).2.1.2⟩

/-! ## The win check, the alert log and the scores -/

theorem checkWinner_of_win (r1 r2 : ℚ) (s : State) (ha : s.gameActive = true)
    (hw : 20 ≤ s.playerScore ∨ 20 ≤ s.computerScore) :
    checkWinner r1 r2 s =
      resetBall r1 r2 (displayWinner (if 20 ≤ s.playerScore then "Player" else "Computer") s) := by
  unfold checkWinner
  by_cases hp : 20 ≤ s.playerScore
  · simp [ha, hp]
  · have hc : 20 ≤ s.computerScore := hw.resolve_left hp
    simp [ha, hp, hc]

theorem checkWinner_of_no_win (r1 r2 : ℚ) (s : State)
    (h : ¬ (s.gameActive = true ∧ (20 ≤ s.playerScore ∨ 20 ≤ s.computerScore))) :
    checkWinner r1 r2 s = s := by
  unfold checkWinner
  by_cases ha : s.gameActive = true
  · have hp : ¬ 20 ≤ s.playerScore := fun hp => h ⟨ha, Or.inl hp⟩
    have hc : ¬ 20 ≤ s.computerScore := fun hc => h ⟨ha, Or.inr hc⟩
    simp [ha, hp, hc]
  · simp [ha]

/-- C7. Win check: when `gameActive` is true and a score is at least 20,
`checkWinner` announces the winner (`Player` if `playerScore ≥ 20`, `Computer`
otherwise), sets both scores to 0, clears `gameActive` and puts the ball in the
centre; in every other case, in particular when `gameActive` is false, it returns
the state unchanged. -/
theorem checkWinner_spec (r1 r2 : ℚ) (s : State) :
    if s.gameActive = true ∧ (20 ≤ s.playerScore ∨ 20 ≤ s.computerScore) then
      (checkWinner r1 r2 s).alerts =
          s.alerts ++ [(if 20 ≤ s.playerScore then "Player" else "Computer") ++ " wins!"] ∧
        (checkWinner r1 r2 s).playerScore = 0 ∧
        (checkWinner r1 r2 s).computerScore = 0 ∧
        (checkWinner r1 r2 s).gameActive = false ∧
        (checkWinner r1 r2 s).ballX = s.canvas_width / 2 ∧
        (checkWinner r1 r2 s).ballY = s.canvas_height / 2
    else checkWinner r1 r2 s = s := by
  by_cases h : s.gameActive = true ∧ (20 ≤ s.playerScore ∨ 20 ≤ s.computerScore)
  · rw [if_pos h, checkWinner_of_win r1 r2 s h.1 h.2]
    simp [resetBall, displayWinner]
  · rw [if_neg h]
    exact checkWinner_of_no_win r1 r2 s h

/-- What lines 319-365 do to the alert log, the match flag and the scores: either
the log and the flag are kept, the player score is kept and the computer score
grows by at most one, or one alert is added and the match is switched off. -/
theorem leftStep_scores (inp : FrameInput) (s : State) :
    ((leftStep inp s).alerts = s.alerts ∧ (leftStep inp s).gameActive = s.gameActive ∧
        (leftStep inp s).playerScore = s.playerScore ∧
        s.computerScore ≤ (leftStep inp s).computerScore ∧
        (leftStep inp s).computerScore ≤ s.computerScore + 1) ∨
      ((∃ w, (leftStep inp s).alerts = s.alerts ++ [w]) ∧ (leftStep inp s).gameActive = false) := by
  unfold leftStep
  split_ifs
  · left; simp
  · by_cases h : s.gameActive = true ∧ (20 ≤ s.playerScore ∨ 20 ≤ s.computerScore + 1)
    · right
      simp only [leftScore]
      rw [checkWinner_of_win _ _ { s with computerScore := s.computerScore + 1 } h.1 h.2]
      simp [resetBall, displayWinner]
    · left
      simp only [leftScore]
      rw [checkWinner_of_no_win _ _ { s with computerScore := s.computerScore + 1 } h]
      simp [resetBall]
  · left; simp

/-- What lines 391-396 do to the alert log and the scores: either the log is
kept, the computer score is kept and the player score grows by at most one, or
the match was on and one alert is added. -/
theorem rightScoreStep_scores (inp : FrameInput) (s : State) :
    ((rightScoreStep inp s).alerts = s.alerts ∧
        (rightScoreStep inp s).computerScore = s.computerScore ∧
        s.playerScore ≤ (rightScoreStep inp s).playerScore ∧
        (rightScoreStep inp s).playerScore ≤ s.playerScore + 1) ∨
      ((∃ w, (rightScoreStep inp s).alerts = s.alerts ++ [w]) ∧ s.gameActive = true) := by
  unfold rightScoreStep
  split_ifs
  · by_cases h : s.gameActive = true ∧ (20 ≤ s.playerScore + 1 ∨ 20 ≤ s.computerScore)
    · right
      simp only [rightScore]
      rw [checkWinner_of_win _ _ { s with playerScore := s.playerScore + 1 } h.1 h.2]
      simp [resetBall, displayWinner, h.1]
    · left
      simp only [rightScore]
      rw [checkWinner_of_no_win _ _ { s with playerScore := s.playerScore + 1 } h]
      simp [resetBall]
  · left; simp

/-- The alert log and the scores over lines 294-396. -/
theorem collisionPhase_scores (inp : FrameInput) (s : State) :
    ((collisionPhase inp s).alerts = s.alerts ∧
        s.playerScore ≤ (collisionPhase inp s).playerScore ∧
        (collisionPhase inp s).playerScore ≤ s.playerScore + 1 ∧
        s.computerScore ≤ (collisionPhase inp s).computerScore ∧
        (collisionPhase inp s).computerScore ≤ s.computerScore + 1) ∨
      (∃ w, (collisionPhase inp s).alerts = s.alerts ++ [w]) := by
  unfold collisionPhase
  set m := wallStep (trailStep (moveStep s)) with hm
  have hma : m.alerts = s.alerts := by simp [hm]
  have hmp : m.playerScore = s.playerScore := by simp [hm]
  have hmc : m.computerScore = s.computerScore := by simp [hm]
  rcases leftStep_scores inp m with ⟨la, lg, lp, lc1, lc2⟩ | ⟨⟨w, lw⟩, lg⟩
  · rcases rightScoreStep_scores inp (rightPaddleStep (leftStep inp m)) with
      ⟨ra, rc, rp1, rp2⟩ | ⟨⟨w, rw⟩, _⟩
    · left
      simp only [rightPaddleStep_alerts, rightPaddleStep_playerScore,
        rightPaddleStep_computerScore] at ra rc rp1 rp2
      refine ⟨by rw [ra, la, hma], ?_, ?_, ?_, ?_⟩ <;> omega
    · right
      refine ⟨w, ?_⟩
      rw [rw, rightPaddleStep_alerts, la, hma]
  · rcases rightScoreStep_scores inp (rightPaddleStep (leftStep inp m)) with
      ⟨ra, _⟩ | ⟨_, rg⟩
    · right
      refine ⟨w, ?_⟩
      rw [ra, rightPaddleStep_alerts, lw, hma]
    · rw [rightPaddleStep_gameActive, lg] at rg
      exact absurd rg (by simp)

/-- The alert log and the scores over one call of `draw`. -/
theorem draw_scores (inp : FrameInput) (s : State) :
    ((draw inp s).alerts = s.alerts ∧
        s.playerScore ≤ (draw inp s).playerScore ∧
        (draw inp s).playerScore ≤ s.playerScore + 1 ∧
        s.computerScore ≤ (draw inp s).computerScore ∧
        (draw inp s).computerScore ≤ s.computerScore + 1) ∨
      (∃ w, (draw inp s).alerts = s.alerts ++ [w]) := by
  have key : ∀ t : State, (ballStep inp (ledStep s)).alerts = t.alerts →
      (ballStep inp (ledStep s)).playerScore = t.playerScore →
      (ballStep inp (ledStep s)).computerScore = t.computerScore →
      (draw inp s).alerts = t.alerts ∧ (draw inp s).playerScore = t.playerScore ∧
        (draw inp s).computerScore = t.computerScore := by
    intro t h1 h2 h3
    simp [draw, h1, h2, h3]
  by_cases hadv : ballAdvanced s = true
  · have hb : ballStep inp (ledStep s) = ballBody inp (ledStep s) := ballStep_of_advanced inp s hadv
    obtain ⟨k1, k2, k3⟩ := key (collisionPhase inp (ledStep s))
      (by rw [hb]; simp [ballBody, clampStep]) (by rw [hb]; simp [ballBody, clampStep])
      (by rw [hb]; simp [ballBody, clampStep])
    rw [k1, k2, k3]
    simpa using collisionPhase_scores inp (ledStep s)
  · have hb : ballStep inp (ledStep s) = ledStep s :=
      ballStep_of_not_advanced inp s (by simpa using hadv)
    obtain ⟨k1, k2, k3⟩ := key s (by rw [hb]; simp) (by rw [hb]; simp) (by rw [hb]; simp)
    left
    rw [k1, k2, k3]
    simp

/-- C8. Only one winner per frame: a call of `draw` adds at most one alert to the
log, also when both scoring branches fire; a win check that comes after an
announcement (and the reset of the ball that follows it) changes nothing. -/
theorem one_winner_per_frame (inp : FrameInput) (s : State) :
    ((draw inp s).alerts = s.alerts ∨ ∃ w, (draw inp s).alerts = s.alerts ++ [w]) ∧
    ∀ (w : String) (r1 r2 r3 r4 : ℚ) (t : State),
      checkWinner r1 r2 (resetBall r3 r4 (displayWinner w t))
        = resetBall r3 r4 (displayWinner w t) := by
  refine ⟨?_, ?_⟩
  · rcases draw_scores inp s with h | h
    · exact Or.inl h.1
    · exact Or.inr h
  · intro w r1 r2 r3 r4 t
    exact checkWinner_of_no_win r1 r2 _ (fun h => by simp [resetBall, displayWinner] at h)

/-- C9. Score monotonicity: over a call of `draw` either a winner is announced, or
neither score decreases and each grows by at most 1. -/
theorem score_monotone (inp : FrameInput) (s : State) :
    (∃ w, (draw inp s).alerts = s.alerts ++ [w]) ∨
      (s.playerScore ≤ (draw inp s).playerScore ∧
        (draw inp s).playerScore ≤ s.playerScore + 1 ∧
        s.computerScore ≤ (draw inp s).computerScore ∧
        (draw inp s).computerScore ≤ s.computerScore + 1) := by
  rcases draw_scores inp s with h | h
  · exact Or.inr h.2
  · exact Or.inl h

/-! ## The computer paddle and scoring on the left -/

/-- C2, on the code: from the initial state, a click on the start button with
difficulty `impossible` and 50 frames, each followed by its timer. Before the 50th
frame the computer paddle is inside the arena (`y = 7.5`); when the timer of the
50th frame has fired it is at `y = -2.5`, above the top edge, and this is the
position the next frame paints. -/
theorem computer_paddle_leaves_arena :
    (0 ≤ (framesWithTimers (frameAt 0 0) 49 (startGame 2 .impossible 0 0 initial)).computerPaddleY ∧
      (framesWithTimers (frameAt 0 0) 49 (startGame 2 .impossible 0 0 initial)).computerPaddleY ≤
        initial.canvas_height - initial.paddleHeight) ∧
    (framesWithTimers (frameAt 0 0) 50 (startGame 2 .impossible 0 0 initial)).computerPaddleY
      = -5 / 2 := by
  decide!

theorem overlapsPlayerPaddle_after_move (s : State) :
    overlapsPlayerPaddle (wallStep (trailStep (moveStep (ledStep s)))) ↔
      overlapsPlayerPaddle (moveStep s) := by
  simp [overlapsPlayerPaddle, moveStep]

/-- What lines 362-364 leave behind. -/
theorem leftScore_spec (inp : FrameInput) (s : State) :
    (leftScore inp s).ballX = s.canvas_width / 2 ∧
    (leftScore inp s).ballY = s.canvas_height / 2 ∧
    (((leftScore inp s).alerts = s.alerts ∧ (leftScore inp s).gameActive = s.gameActive ∧
        (leftScore inp s).playerScore = s.playerScore ∧
        (leftScore inp s).computerScore = s.computerScore + 1) ∨
      ((∃ w, (leftScore inp s).alerts = s.alerts ++ [w]) ∧ (leftScore inp s).gameActive = false ∧
        (leftScore inp s).playerScore = 0 ∧ (leftScore inp s).computerScore = 0)) := by
  refine ⟨by simp [leftScore, resetBall], by simp [leftScore, resetBall], ?_⟩
  by_cases h : s.gameActive = true ∧ (20 ≤ s.playerScore ∨ 20 ≤ s.computerScore + 1)
  · right
    simp only [leftScore]
    rw [checkWinner_of_win _ _ { s with computerScore := s.computerScore + 1 } h.1 h.2]
    simp [resetBall, displayWinner]
  · left
    simp only [leftScore]
    rw [checkWinner_of_no_win _ _ { s with computerScore := s.computerScore + 1 } h]
    simp [resetBall]

/-- What lines 391-396 do to the position of a ball that sits in the centre, to
the log and to the scores. -/
theorem rightScoreStep_after_reset (inp : FrameInput) (s : State)
    (hx : s.ballX = s.canvas_width / 2) (hy : s.ballY = s.canvas_height / 2) :
    (rightScoreStep inp s).ballX = s.canvas_width / 2 ∧
    (rightScoreStep inp s).ballY = s.canvas_height / 2 ∧
    (((rightScoreStep inp s).alerts = s.alerts ∧
        (rightScoreStep inp s).computerScore = s.computerScore) ∨
      ((∃ w, (rightScoreStep inp s).alerts = s.alerts ++ [w]) ∧ s.gameActive = true ∧
        (rightScoreStep inp s).computerScore = 0)) := by
  unfold rightScoreStep
  split_ifs
  · refine ⟨by simp [rightScore, resetBall], by simp [rightScore, resetBall], ?_⟩
    by_cases h : s.gameActive = true ∧ (20 ≤ s.playerScore + 1 ∨ 20 ≤ s.computerScore)
    · right
      simp only [rightScore]
      rw [checkWinner_of_win _ _ { s with playerScore := s.playerScore + 1 } h.1 h.2]
      simp [resetBall, displayWinner, h.1]
    · left
      simp only [rightScore]
      rw [checkWinner_of_no_win _ _ { s with playerScore := s.playerScore + 1 } h]
      simp [resetBall]
  · exact ⟨hx, hy, Or.inl ⟨rfl, rfl⟩⟩

theorem draw_eq_collisionPhase (inp : FrameInput) (s : State) (hadv : ballAdvanced s = true) :
    (draw inp s).ballX = (collisionPhase inp (ledStep s)).ballX ∧
    (draw inp s).ballY = (collisionPhase inp (ledStep s)).ballY ∧
    (draw inp s).alerts = (collisionPhase inp (ledStep s)).alerts ∧
    (draw inp s).playerScore = (collisionPhase inp (ledStep s)).playerScore ∧
    (draw inp s).computerScore = (collisionPhase inp (ledStep s)).computerScore ∧
    (draw inp s).gameActive = (collisionPhase inp (ledStep s)).gameActive := by
  simp [draw, ballStep_of_advanced inp s hadv, ballBody]

/-- C4, amended. Left-side scoring: in a frame that advances the ball, if after
integration the left edge of the ball has passed `x = 0` and the ball does not
overlap the player paddle (the test of line 319 fails), the frame ends with the
ball in the centre of the arena, and with `computerScore` one higher than before
unless a winner was announced in the frame, in which case it is 0. -/
theorem left_score (inp : FrameInput) (s : State) (hadv : ballAdvanced s = true)
    (hleft : (moveStep s).ballX - s.ballRadius < 0)
    (hmiss : ¬ overlapsPlayerPaddle (moveStep s)) :
    (draw inp s).ballX = s.canvas_width / 2 ∧
    (draw inp s).ballY = s.canvas_height / 2 ∧
    ((draw inp s).alerts = s.alerts → (draw inp s).computerScore = s.computerScore + 1) ∧
    ((draw inp s).alerts ≠ s.alerts → (draw inp s).computerScore = 0) := by
  obtain ⟨dx, dy, da, _, dc, _⟩ := draw_eq_collisionPhase inp s hadv
  rw [dx, dy, da, dc]
  unfold collisionPhase
  set m := wallStep (trailStep (moveStep (ledStep s))) with hm
  have hov : ¬ overlapsPlayerPaddle m := by
    rw [hm, overlapsPlayerPaddle_after_move]; exact hmiss
  have hx : m.ballX - m.ballRadius < 0 := by
    have : m.ballX = (moveStep s).ballX := by simp [hm, moveStep]
    rw [this]; simpa [hm] using hleft
  have hl : leftStep inp m = leftScore inp m := by
    unfold leftStep; rw [if_neg hov, if_pos hx]
  have hw : m.canvas_width = s.canvas_width := by simp [hm]
  have hh : m.canvas_height = s.canvas_height := by simp [hm]
  have hma : m.alerts = s.alerts := by simp [hm]
  have hmc : m.computerScore = s.computerScore := by simp [hm]
  obtain ⟨lx, ly, hcase⟩ := leftScore_spec inp m
  rw [hl]
  set L := rightPaddleStep (leftScore inp m) with hL
  have hLx : L.ballX = L.canvas_width / 2 := by simp [hL, lx]
  have hLy : L.ballY = L.canvas_height / 2 := by simp [hL, ly]
  have hLw : L.canvas_width = s.canvas_width := by simp [hL, hw]
  have hLh : L.canvas_height = s.canvas_height := by simp [hL, hh]
  have hLa : L.alerts = (leftScore inp m).alerts := by simp [hL]
  have hLc : L.computerScore = (leftScore inp m).computerScore := by simp [hL]
  have hLg : L.gameActive = (leftScore inp m).gameActive := by simp [hL]
  obtain ⟨rx, ry, rcase⟩ := rightScoreStep_after_reset inp L hLx hLy
  refine ⟨by rw [rx, hLw], by rw [ry, hLh], ?_, ?_⟩
  · rcases hcase with ⟨la, _, _, lc⟩ | ⟨⟨w, lw⟩, lg, _, _⟩
    · rcases rcase with ⟨ra, rc⟩ | ⟨⟨w, rw⟩, _, _⟩
      · intro _; rw [rc, hLc, lc, hmc]
      · intro h; rw [rw, hLa, la, hma] at h; simp at h
    · rcases rcase with ⟨ra, rc⟩ | ⟨_, rg, _⟩
      · intro h; rw [ra, hLa, lw, hma] at h; simp at h
      · rw [hLg, lg] at rg; simp at rg
  · rcases hcase with ⟨la, _, _, lc⟩ | ⟨⟨w, lw⟩, lg, _, lc⟩
    · rcases rcase with ⟨ra, rc⟩ | ⟨_, _, rc⟩
      · intro h; exact absurd (by rw [ra, hLa, la, hma]) h
      · intro _; exact rc
    · rcases rcase with ⟨ra, rc⟩ | ⟨_, rg, _⟩
      · intro _; rw [rc, hLc, lc]
      · rw [hLg, lg] at rg; simp at rg

/-- C4, witness: the ball leaves the default arena on the left, below the paddle. -/
theorem left_score_witness :
    ballAdvanced leftMiss = true ∧
    (moveStep leftMiss).ballX - leftMiss.ballRadius < 0 ∧
    ¬ overlapsPlayerPaddle (moveStep leftMiss) ∧
    (draw (frameAt 0 0) leftMiss).ballX = leftMiss.canvas_width / 2 ∧
    (draw (frameAt 0 0) leftMiss).ballY = leftMiss.canvas_height / 2 ∧
    (draw (frameAt 0 0) leftMiss).computerScore = leftMiss.computerScore + 1 :=
  ⟨by decide!, by decide!, by decide!,
    (left_score (frameAt 0 0) leftMiss (by decide!) (by decide!) (by decide!)).1,
    (left_score (frameAt 0 0) leftMiss (by decide!) (by decide!) (by decide!)).2.1,
    (left_score (frameAt 0 0) leftMiss (by decide!) (by decide!) (by decide!)).2.2.1
      (by decide!)⟩

/-- C4, counterexample: the ball is advanced, after integration its left edge is
at `x = -1`, and it overlaps the player paddle: the frame bounces it back with a
boost, the computer score is kept and the ball is not reset. -/
theorem left_edge_passed_without_score :
    ballAdvanced behindPaddle = true ∧
    (moveStep behindPaddle).ballX - behindPaddle.ballRadius < 0 ∧
    (draw (frameAt 0 0) behindPaddle).computerScore = behindPaddle.computerScore ∧
    (draw (frameAt 0 0) behindPaddle).ballX = 9 ∧
    (draw (frameAt 0 0) behindPaddle).ballSpeedX = 9 / 2 := by
  decide!

/-! ## Scoring on the right and the gate of the ball update -/

/-- Lines 319-365 when the ball does not score on the left: the position of the
ball, the log, the match flag and the scores are kept. -/
theorem leftStep_without_score (inp : FrameInput) (s : State)
    (h : ¬ (¬ overlapsPlayerPaddle s ∧ s.ballX - s.ballRadius < 0)) :
    (leftStep inp s).ballX = s.ballX ∧ (leftStep inp s).ballY = s.ballY ∧
    (leftStep inp s).alerts = s.alerts ∧ (leftStep inp s).gameActive = s.gameActive ∧
    (leftStep inp s).playerScore = s.playerScore ∧
    (leftStep inp s).computerScore = s.computerScore := by
  unfold leftStep
  by_cases hov : overlapsPlayerPaddle s
  · rw [if_pos hov]; simp
  · have hx : ¬ s.ballX - s.ballRadius < 0 := fun hx => h ⟨hov, hx⟩
    rw [if_neg hov, if_neg hx]; simp

/-- C5. Right-side scoring: in a frame that advances the ball without a score on
the left, if after integration the right edge of the ball has passed the arena
width, the ball ends in the centre and `playerScore` is incremented; the win check
then announces `Player` and resets the match if the match is on and the new score
is at least 20. A bounce off the computer paddle in the same frame changes
nothing of this. -/
theorem right_score (inp : FrameInput) (s : State) (hadv : ballAdvanced s = true)
    (hnoleft : ¬ (¬ overlapsPlayerPaddle (moveStep s) ∧ (moveStep s).ballX - s.ballRadius < 0))
    (hright : (moveStep s).ballX + s.ballRadius > s.canvas_width) :
    (draw inp s).ballX = s.canvas_width / 2 ∧
    (draw inp s).ballY = s.canvas_height / 2 ∧
    if s.gameActive = true ∧ 20 ≤ s.playerScore + 1 then
      (draw inp s).alerts = s.alerts ++ ["Player wins!"] ∧ (draw inp s).playerScore = 0 ∧
        (draw inp s).computerScore = 0 ∧ (draw inp s).gameActive = false
    else
      (draw inp s).alerts = s.alerts ∧ (draw inp s).playerScore = s.playerScore + 1 ∧
        (draw inp s).computerScore = s.computerScore ∧ (draw inp s).gameActive = s.gameActive := by
  obtain ⟨dx, dy, da, dp, dc, dg⟩ := draw_eq_collisionPhase inp s hadv
  rw [dx, dy, da, dp, dc, dg]
  have hc20 : s.computerScore < 20 := by
    simp [ballAdvanced, canSpawnBall] at hadv; exact hadv.1.2
  unfold collisionPhase
  set m := wallStep (trailStep (moveStep (ledStep s))) with hm
  have hmx : m.ballX = (moveStep s).ballX := by simp [hm, moveStep]
  have hmr : m.ballRadius = s.ballRadius := by simp [hm]
  have hno : ¬ (¬ overlapsPlayerPaddle m ∧ m.ballX - m.ballRadius < 0) := by
    rw [hm, overlapsPlayerPaddle_after_move, ← hm, hmx, hmr]; exact hnoleft
  obtain ⟨lx, _, la, lg, lp, lc⟩ := leftStep_without_score inp m hno
  set t := rightPaddleStep (leftStep inp m) with ht
  have tx : t.ballX + t.ballRadius > t.canvas_width := by
    have h1 : t.ballX = (moveStep s).ballX := by simp [ht, lx, hmx]
    have h2 : t.ballRadius = s.ballRadius := by simp [ht, hm]
    have h3 : t.canvas_width = s.canvas_width := by simp [ht, hm]
    rw [h1, h2, h3]; exact hright
  have tw : t.canvas_width = s.canvas_width := by simp [ht, hm]
  have th : t.canvas_height = s.canvas_height := by simp [ht, hm]
  have ta : t.alerts = s.alerts := by simp [ht, la, hm]
  have tg : t.gameActive = s.gameActive := by simp [ht, lg, hm]
  have tp : t.playerScore = s.playerScore := by simp [ht, lp, hm]
  have tc : t.computerScore = s.computerScore := by simp [ht, lc, hm]
  have hr : rightScoreStep inp t = rightScore inp t := by
    unfold rightScoreStep; rw [if_pos tx]
  rw [hr]
  refine ⟨by simp [rightScore, resetBall, tw], by simp [rightScore, resetBall, th], ?_⟩
  by_cases h : s.gameActive = true ∧ 20 ≤ s.playerScore + 1
  · rw [if_pos h]
    have hp : 20 ≤ t.playerScore + 1 := by rw [tp]; exact h.2
    simp only [rightScore]
    rw [checkWinner_of_win _ _ { t with playerScore := t.playerScore + 1 } (by rw [← tg] at h; exact h.1)
      (Or.inl hp)]
    simp [resetBall, displayWinner, ta, hp]
  · rw [if_neg h]
    simp only [rightScore]
    rw [checkWinner_of_no_win _ _ { t with playerScore := t.playerScore + 1 }
      (by
        simp only [tg, tp, tc]
        rintro ⟨hg, hp | hc⟩
        · exact h ⟨hg, hp⟩
        · omega)]
    simp [resetBall, ta, tp, tc, tg]

/-- C5, witness: the 20th point of the player on the default arena. -/
theorem right_score_witness :
    ballAdvanced matchPoint = true ∧
    (moveStep matchPoint).ballX + matchPoint.ballRadius > matchPoint.canvas_width ∧
    (draw (frameAt 0 0) matchPoint).ballX = matchPoint.canvas_width / 2 ∧
    (draw (frameAt 0 0) matchPoint).alerts = ["Player wins!"] :=
  ⟨by decide!, by decide!,
    (right_score (frameAt 0 0) matchPoint (by decide!) (by decide!) (by decide!)).1,
    by
      have h := (right_score (frameAt 0 0) matchPoint (by decide!) (by decide!) (by decide!)).2.2
      rw [if_pos (by decide!)] at h
      exact h.1⟩

/-- Gate of the ball update: a call of `draw` taken while the ball is undefined or
a score is at least 20 (the test of line 280 fails) leaves `ballX`, `ballY`,
`ballSpeedX`, `ballSpeedY` and both scores as they were. -/
theorem frame_without_ball (inp : FrameInput) (s : State) (h : ballAdvanced s = false) :
    (draw inp s).ballX = s.ballX ∧ (draw inp s).ballY = s.ballY ∧
    (draw inp s).ballSpeedX = s.ballSpeedX ∧ (draw inp s).ballSpeedY = s.ballSpeedY ∧
    (draw inp s).playerScore = s.playerScore ∧ (draw inp s).computerScore = s.computerScore := by
  simp [draw, ballStep_of_not_advanced inp s h]

/-! ## The speed boost -/

theorem clampSpeed_of_abs_le (v m : ℚ) (h : |v| ≤ m) : clampSpeed v m = v := by
  unfold clampSpeed sign
  rw [min_eq_left h]
  split_ifs with h1 h2
  · rw [abs_of_pos h1, one_mul]
  · rw [abs_of_neg h2]; ring
  · have : v = 0 := le_antisymm (not_lt.mp h1) (not_lt.mp h2)
    simp [this]

theorem activateBoost_of_active (now : ℤ) (s : State) (h : s.speedBoostActive = true) :
    activateBoost now s = s := by
  simp [activateBoost, h]

/-- While the boost is on, lines 294-396 leave its flag and its start time alone. -/
theorem collisionPhase_boost_kept (inp : FrameInput) (s : State)
    (h : s.speedBoostActive = true) :
    (collisionPhase inp s).speedBoostActive = true ∧
    (collisionPhase inp s).speedBoostStartTime = s.speedBoostStartTime := by
  have hm : (wallStep (trailStep (moveStep s))).speedBoostActive = true := by simpa using h
  have key : ∀ m : State, m.speedBoostActive = true →
      (leftStep inp m).speedBoostActive = true ∧
      (leftStep inp m).speedBoostStartTime = m.speedBoostStartTime := by
    intro m hact
    unfold leftStep
    split_ifs
    · unfold playerPaddleHit
      split_ifs
      · rw [activateBoost_of_active _ _ (by simpa using hact)]
        exact ⟨hact, rfl⟩
      · exact ⟨hact, rfl⟩
    · simpa using hact
    · exact ⟨hact, rfl⟩
  obtain ⟨k1, k2⟩ := key _ hm
  simp [collisionPhase, k1, k2]

/-- A quiet event keeps a running boost, the velocity and the speed limit, as
long as the velocity is within the limit. -/
theorem step_keeps_boost (e : Event) (s : State) (hq : quiet e s)
    (hact : s.speedBoostActive = true)
    (hx : |s.ballSpeedX| ≤ s.maxBallSpeed) (hy : |s.ballSpeedY| ≤ s.maxBallSpeed) :
    (step e s).speedBoostActive = true ∧
    (step e s).speedBoostStartTime = s.speedBoostStartTime ∧
    (step e s).ballSpeedX = s.ballSpeedX ∧ (step e s).ballSpeedY = s.ballSpeedY ∧
    (step e s).maxBallSpeed = s.maxBallSpeed := by
  cases e with
  | frame inp =>
    simp only [step]
    by_cases hadv : ballAdvanced s = true
    · obtain ⟨qx, qy, qt⟩ := hq hadv
      obtain ⟨c1, c2⟩ := collisionPhase_boost_kept inp (ledStep s) (by simpa using hact)
      rw [ledStep_speedBoostStartTime] at c2
      have hexp : boostExpiryStep inp.nowAtCheck (aiStep inp (collisionPhase inp (ledStep s)))
          = aiStep inp (collisionPhase inp (ledStep s)) := by
        unfold boostExpiryStep
        rw [if_neg]
        rw [aiStep_speedBoostStartTime, c2]
        exact fun h => qt h.2
      simp only [draw, computerKeyStep_speedBoostActive, playerKeyStep_speedBoostActive,
        computerKeyStep_speedBoostStartTime, playerKeyStep_speedBoostStartTime,
        computerKeyStep_ballSpeedX, playerKeyStep_ballSpeedX, computerKeyStep_ballSpeedY,
        playerKeyStep_ballSpeedY, computerKeyStep_maxBallSpeed, playerKeyStep_maxBallSpeed,
        ballStep_of_advanced inp s hadv, ballBody, hexp]
      refine ⟨by simp [c1], by simp [c2], ?_, ?_, by simp⟩
      · simp only [clampStep, aiStep_ballSpeedX, aiStep_maxBallSpeed, collisionPhase_maxBallSpeed,
          ledStep_maxBallSpeed, qx]
        exact clampSpeed_of_abs_le _ _ hx
      · simp only [clampStep, aiStep_ballSpeedY, aiStep_maxBallSpeed, collisionPhase_maxBallSpeed,
          ledStep_maxBallSpeed, qy]
        exact clampSpeed_of_abs_le _ _ hy
    · have hb := ballStep_of_not_advanced inp s (by simpa using hadv)
      simp [draw, hb, hact]
  | mouse mouseY => simp [step, hact]
  | timer i => simp [step, hact]
  | keyDown k => simp [step, hact]
  | keyUp k => simp [step, hact]
  | start c d r1 r2 =>
    obtain ⟨qx, qy⟩ := hq
    simp only [step] at qx qy ⊢
    exact ⟨by simp [hact], by simp, qx, qy, by simp⟩

theorem run_keeps_boost (es : List Event) (s : State) (hq : quietRun es s)
    (hact : s.speedBoostActive = true)
    (hx : |s.ballSpeedX| ≤ s.maxBallSpeed) (hy : |s.ballSpeedY| ≤ s.maxBallSpeed) :
    (run es s).speedBoostActive = true ∧
    (run es s).speedBoostStartTime = s.speedBoostStartTime ∧
    (run es s).ballSpeedX = s.ballSpeedX ∧ (run es s).ballSpeedY = s.ballSpeedY ∧
    (run es s).maxBallSpeed = s.maxBallSpeed := by
  induction es generalizing s with
  | nil => exact ⟨hact, rfl, rfl, rfl, rfl⟩
  | cons e es ih =>
    obtain ⟨q1, q2⟩ := hq
    obtain ⟨a, t, vx, vy, m⟩ := step_keeps_boost e s q1 hact hx hy
    obtain ⟨a2, t2, vx2, vy2, m2⟩ := ih (step e s) q2 a (by rw [vx, m]; exact hx)
      (by rw [vy, m]; exact hy)
    simp only [run]
    exact ⟨a2, t2.trans t, vx2.trans vx, vy2.trans vy, m2.trans m⟩

/-- The frame in which the ball hits the player paddle while no boost is on, and
in which nothing else touches the velocity: the boost is on afterwards and the
velocity is the bounce velocity times the boost factor, if that is within the
speed limit. -/
theorem draw_activates_boost (inp : FrameInput) (s : State)
    (hadv : ballAdvanced s = true) (hoff : s.speedBoostActive = false)
    (hhit : overlapsPlayerPaddle (moveStep s) ∧ s.ballSpeedX < 0)
    (hrest : (collisionPhase inp (ledStep s)).ballSpeedX
          = (leftStep inp (wallStep (trailStep (moveStep (ledStep s))))).ballSpeedX ∧
        (collisionPhase inp (ledStep s)).ballSpeedY
          = (leftStep inp (wallStep (trailStep (moveStep (ledStep s))))).ballSpeedY)
    (hnow : ¬ (inp.nowAtCheck - inp.nowAtHit > speedBoostDuration))
    (hmax : speedBoostFactor * |(bounceVelocity s).1| ≤ s.maxBallSpeed ∧
      speedBoostFactor * |(bounceVelocity s).2| ≤ s.maxBallSpeed) :
    (draw inp s).speedBoostActive = true ∧
    (draw inp s).speedBoostStartTime = inp.nowAtHit ∧
    (draw inp s).ballSpeedX = (bounceVelocity s).1 * speedBoostFactor ∧
    (draw inp s).ballSpeedY = (bounceVelocity s).2 * speedBoostFactor ∧
    (draw inp s).maxBallSpeed = s.maxBallSpeed := by
  have hf : (0 : ℚ) ≤ speedBoostFactor := by unfold speedBoostFactor; norm_num
  set m := wallStep (trailStep (moveStep (ledStep s))) with hm
  have hov : overlapsPlayerPaddle m := by
    rw [hm, overlapsPlayerPaddle_after_move]; exact hhit.1
  have hmv : m.ballSpeedX = s.ballSpeedX := by simp [hm]
  have hcond : m.ballSpeedX < 0 ∧ m.ballY + m.ballRadius > m.playerPaddleY ∧
      m.ballY - m.ballRadius < m.playerPaddleY + m.paddleHeight := ⟨by rw [hmv]; exact hhit.2, hov.2⟩
  have hmoff : m.speedBoostActive = false := by simp [hm, hoff]
  have hl : leftStep inp m = activateBoost inp.nowAtHit
      { m with ballSpeedX := -m.ballSpeedX
               ballSpeedY := hitSpeedY (m.ballY - (m.playerPaddleY + m.paddleHeight / 2)) } := by
    unfold leftStep; rw [if_pos hov]; unfold playerPaddleHit; rw [if_pos hcond]
  have hmy : m.ballY = (moveStep s).ballY := by simp [hm, moveStep]
  have hmp : m.playerPaddleY = s.playerPaddleY := by simp [hm]
  have hmh : m.paddleHeight = s.paddleHeight := by simp [hm]
  have lx : (leftStep inp m).ballSpeedX = (bounceVelocity s).1 * speedBoostFactor := by
    rw [hl]; simp [activateBoost, hmoff, bounceVelocity, hmv]
  have ly : (leftStep inp m).ballSpeedY = (bounceVelocity s).2 * speedBoostFactor := by
    rw [hl]; simp [activateBoost, hmoff, bounceVelocity, hmy, hmp, hmh]
  have la : (leftStep inp m).speedBoostActive = true := by
    rw [hl]; simp [activateBoost, hmoff]
  have lt : (leftStep inp m).speedBoostStartTime = inp.nowAtHit := by
    rw [hl]; simp [activateBoost, hmoff]
  have ca : (collisionPhase inp (ledStep s)).speedBoostActive = true := by
    simp [collisionPhase, ← hm, la]
  have ct : (collisionPhase inp (ledStep s)).speedBoostStartTime = inp.nowAtHit := by
    simp [collisionPhase, ← hm, lt]
  have hexp : boostExpiryStep inp.nowAtCheck (aiStep inp (collisionPhase inp (ledStep s)))
      = aiStep inp (collisionPhase inp (ledStep s)) := by
    unfold boostExpiryStep
    rw [if_neg]
    rw [aiStep_speedBoostStartTime, ct]
    exact fun h => hnow h.2
  simp only [draw, computerKeyStep_speedBoostActive, playerKeyStep_speedBoostActive,
    computerKeyStep_speedBoostStartTime, playerKeyStep_speedBoostStartTime,
    computerKeyStep_ballSpeedX, playerKeyStep_ballSpeedX, computerKeyStep_ballSpeedY,
    playerKeyStep_ballSpeedY, computerKeyStep_maxBallSpeed, playerKeyStep_maxBallSpeed,
    ballStep_of_advanced inp s hadv, ballBody, hexp]
  refine ⟨by simp [ca], by simp [ct], ?_, ?_, by simp⟩
  · simp only [clampStep, aiStep_ballSpeedX, aiStep_maxBallSpeed, collisionPhase_maxBallSpeed,
      ledStep_maxBallSpeed, hrest.1, lx]
    apply clampSpeed_of_abs_le
    rw [abs_mul, abs_of_nonneg hf, mul_comm]; exact hmax.1
  · simp only [clampStep, aiStep_ballSpeedY, aiStep_maxBallSpeed, collisionPhase_maxBallSpeed,
      ledStep_maxBallSpeed, hrest.2, ly]
    apply clampSpeed_of_abs_le
    rw [abs_mul, abs_of_nonneg hf, mul_comm]; exact hmax.2

/-- The frame in which a running boost ends and in which nothing else touches the
velocity: the velocity is divided by the boost factor. -/
theorem draw_ends_boost (inp : FrameInput) (s : State) (v : ℚ × ℚ)
    (hadv : ballAdvanced s = true) (hact : s.speedBoostActive = true)
    (hvx : s.ballSpeedX = v.1 * speedBoostFactor) (hvy : s.ballSpeedY = v.2 * speedBoostFactor)
    (hkeep : (collisionPhase inp (ledStep s)).ballSpeedX = s.ballSpeedX ∧
      (collisionPhase inp (ledStep s)).ballSpeedY = s.ballSpeedY)
    (hexp : inp.nowAtCheck - s.speedBoostStartTime > speedBoostDuration)
    (hmax : |v.1| ≤ s.maxBallSpeed ∧ |v.2| ≤ s.maxBallSpeed) :
    (draw inp s).ballSpeedX = v.1 ∧ (draw inp s).ballSpeedY = v.2 ∧
    (draw inp s).speedBoostActive = false := by
  obtain ⟨c1, c2⟩ := collisionPhase_boost_kept inp (ledStep s) (by simpa using hact)
  rw [ledStep_speedBoostStartTime] at c2
  have hf : speedBoostFactor ≠ 0 := by unfold speedBoostFactor; norm_num
  have hcond : (aiStep inp (collisionPhase inp (ledStep s))).speedBoostActive = true ∧
      inp.nowAtCheck - (aiStep inp (collisionPhase inp (ledStep s))).speedBoostStartTime
        > speedBoostDuration := by
    rw [aiStep_speedBoostActive, aiStep_speedBoostStartTime, c1, c2]
    exact ⟨rfl, hexp⟩
  simp only [draw, computerKeyStep_speedBoostActive, playerKeyStep_speedBoostActive,
    computerKeyStep_ballSpeedX, playerKeyStep_ballSpeedX, computerKeyStep_ballSpeedY,
    playerKeyStep_ballSpeedY, ballStep_of_advanced inp s hadv, ballBody]
  unfold boostExpiryStep
  rw [if_pos hcond]
  simp only [clampStep, aiStep_ballSpeedX, aiStep_ballSpeedY, aiStep_maxBallSpeed,
    collisionPhase_maxBallSpeed, ledStep_maxBallSpeed, hkeep.1, hkeep.2, hvx, hvy,
    mul_div_assoc, div_self hf, mul_one]
  exact ⟨clampSpeed_of_abs_le _ _ hmax.1, clampSpeed_of_abs_le _ _ hmax.2, trivial⟩

/-- C10, amended. Boost round trip: let a frame hit the player paddle while no boost
is on, with bounce velocity `(vx, vy)` (after the bounce, before the boost), and let
`maxBallSpeed ≥ 1.5 * max |vx| |vy|`. If nothing else in that frame touches the
velocity, the events up to the expiry are quiet, and the expiry frame (more than
2000 ms after the hit) advances the ball without another collision or reset, then
after the expiry frame the velocity is exactly `(vx, vy)` and the boost is off. -/
theorem boost_round_trip (s : State) (inp : FrameInput) (es : List Event) (inpE : FrameInput)
    (hadv : ballAdvanced s = true) (hoff : s.speedBoostActive = false)
    (hhit : overlapsPlayerPaddle (moveStep s) ∧ s.ballSpeedX < 0)
    (hrest : (collisionPhase inp (ledStep s)).ballSpeedX
          = (leftStep inp (wallStep (trailStep (moveStep (ledStep s))))).ballSpeedX ∧
        (collisionPhase inp (ledStep s)).ballSpeedY
          = (leftStep inp (wallStep (trailStep (moveStep (ledStep s))))).ballSpeedY)
    (hnow : ¬ (inp.nowAtCheck - inp.nowAtHit > speedBoostDuration))
    (hmax : speedBoostFactor * |(bounceVelocity s).1| ≤ s.maxBallSpeed ∧
      speedBoostFactor * |(bounceVelocity s).2| ≤ s.maxBallSpeed)
    (hquiet : quietRun es (draw inp s))
    (hadvE : ballAdvanced (run es (draw inp s)) = true)
    (hkeepE : (collisionPhase inpE (ledStep (run es (draw inp s)))).ballSpeedX
          = (run es (draw inp s)).ballSpeedX ∧
        (collisionPhase inpE (ledStep (run es (draw inp s)))).ballSpeedY
          = (run es (draw inp s)).ballSpeedY)
    (hexp : inpE.nowAtCheck - inp.nowAtHit > speedBoostDuration) :
    (draw inpE (run es (draw inp s))).ballSpeedX = (bounceVelocity s).1 ∧
    (draw inpE (run es (draw inp s))).ballSpeedY = (bounceVelocity s).2 ∧
    (draw inpE (run es (draw inp s))).speedBoostActive = false := by
  have hf : (1 : ℚ) ≤ speedBoostFactor := by unfold speedBoostFactor; norm_num
  have hf0 : (0 : ℚ) ≤ speedBoostFactor := le_trans zero_le_one hf
  obtain ⟨a, t, vx, vy, m⟩ := draw_activates_boost inp s hadv hoff hhit hrest hnow hmax
  have bx : |(draw inp s).ballSpeedX| ≤ (draw inp s).maxBallSpeed := by
    rw [vx, m, abs_mul, abs_of_nonneg hf0, mul_comm]; exact hmax.1
  have by_ : |(draw inp s).ballSpeedY| ≤ (draw inp s).maxBallSpeed := by
    rw [vy, m, abs_mul, abs_of_nonneg hf0, mul_comm]; exact hmax.2
  obtain ⟨a2, t2, vx2, vy2, m2⟩ := run_keeps_boost es (draw inp s) hquiet a bx by_
  have h1 : |(bounceVelocity s).1| ≤ s.maxBallSpeed :=
    le_trans (le_mul_of_one_le_left (abs_nonneg _) hf) hmax.1
  have h2 : |(bounceVelocity s).2| ≤ s.maxBallSpeed :=
    le_trans (le_mul_of_one_le_left (abs_nonneg _) hf) hmax.2
  exact draw_ends_boost inpE (run es (draw inp s)) (bounceVelocity s) hadvE a2
    (by rw [vx2, vx]) (by rw [vy2, vy]) hkeepE (by rw [t2, t]; exact hexp)
    (by rw [m2, m]; exact ⟨h1, h2⟩)

/-- C10, witness: a hit 20 pixels below the centre of the paddle, two frames and
a mouse move during the boost, expiry after three seconds. -/
theorem boost_round_trip_witness :
    bounceVelocity boostStartLow = (3, 2) ∧
    quietRun boostedFlight (draw (frameAt 0 0) boostStartLow) ∧
    (draw (frameAt 3000 0) (run boostedFlight (draw (frameAt 0 0) boostStartLow))).ballSpeedX
      = (bounceVelocity boostStartLow).1 ∧
    (draw (frameAt 3000 0) (run boostedFlight (draw (frameAt 0 0) boostStartLow))).ballSpeedY
      = (bounceVelocity boostStartLow).2 ∧
    (draw (frameAt 3000 0) (run boostedFlight (draw (frameAt 0 0) boostStartLow))).speedBoostActive
      = false :=
  ⟨by decide!, by decide!,
    boost_round_trip boostStartLow (frameAt 0 0) boostedFlight (frameAt 3000 0)
      (by decide!) (by decide!) (by decide!) (by decide!) (by decide!) (by decide!)
      (by decide!) (by decide!) (by decide!) (by decide!)⟩

/-- C10, counterexample: a hit with bounce velocity `(3, 4)` and `maxBallSpeed = 5`,
which is at least `max |3| |4|`. The boosted vertical speed 6 is clamped to 5 at
the end of the hit frame, and the expiry frame, which has no collision, leaves
the velocity `(3, 10/3)`. -/
theorem boost_round_trip_clamped :
    ballAdvanced boostStart = true ∧ boostStart.speedBoostActive = false ∧
    (overlapsPlayerPaddle (moveStep boostStart) ∧ boostStart.ballSpeedX < 0) ∧
    bounceVelocity boostStart = (3, 4) ∧
    max |(bounceVelocity boostStart).1| |(bounceVelocity boostStart).2| ≤ boostStart.maxBallSpeed ∧
    (draw (frameAt 0 0) boostStart).speedBoostActive = true ∧
    (draw (frameAt 0 0) boostStart).ballSpeedX = 9 / 2 ∧
    (draw (frameAt 0 0) boostStart).ballSpeedY = 5 ∧
    ballAdvanced (draw (frameAt 0 0) boostStart) = true ∧
    (collisionPhase (frameAt 3000 0) (ledStep (draw (frameAt 0 0) boostStart))).ballSpeedX
      = 9 / 2 ∧
    (collisionPhase (frameAt 3000 0) (ledStep (draw (frameAt 0 0) boostStart))).ballSpeedY = 5 ∧
    (frameAt 3000 0).nowAtCheck - (draw (frameAt 0 0) boostStart).speedBoostStartTime
      > speedBoostDuration ∧
    (draw (frameAt 3000 0) (draw (frameAt 0 0) boostStart)).speedBoostActive = false ∧
    (draw (frameAt 3000 0) (draw (frameAt 0 0) boostStart)).ballSpeedX = 3 ∧
    (draw (frameAt 3000 0) (draw (frameAt 0 0) boostStart)).ballSpeedY = 10 / 3 := by
  decide!

/-- Both scoring branches fire in one frame of the arena that is narrower than the
ball, with both sides at 19 points: one winner is announced. -/
theorem both_edges_one_alert :
    (draw (frameAt 0 0) tinyArena).alerts = ["Computer wins!"] ∧
    (draw (frameAt 0 0) tinyArena).computerScore = 0 ∧
    (draw (frameAt 0 0) tinyArena).playerScore = 1 := by
  decide!

/-! ## Paddle hits, the wall and the reset of the ball -/

/-- C11. Boost applied at most once: when the player-paddle branch of lines 319-359
triggers (the ball overlaps the paddle and moves left) while `speedBoostActive` is
already true, the horizontal speed is exactly the negated old one, the vertical
speed is the value recomputed from the hit offset, neither is multiplied, and
`speedBoostActive` and `speedBoostStartTime` are unchanged. -/
theorem boost_applied_once (inp : FrameInput) (s : State)
    (hact : s.speedBoostActive = true)
    (hhit : overlapsPlayerPaddle s ∧ s.ballSpeedX < 0) :
    (leftStep inp s).ballSpeedX = -s.ballSpeedX ∧
    (leftStep inp s).ballSpeedY
      = hitSpeedY (s.ballY - (s.playerPaddleY + s.paddleHeight / 2)) ∧
    (leftStep inp s).speedBoostActive = true ∧
    (leftStep inp s).speedBoostStartTime = s.speedBoostStartTime := by
  have hcond : s.ballSpeedX < 0 ∧ s.ballY + s.ballRadius > s.playerPaddleY ∧
      s.ballY - s.ballRadius < s.playerPaddleY + s.paddleHeight := ⟨hhit.2, hhit.1.2⟩
  unfold leftStep
  rw [if_pos hhit.1]
  unfold playerPaddleHit
  rw [if_pos hcond, activateBoost_of_active _ _ (by simpa using hact)]
  exact ⟨rfl, rfl, hact, rfl⟩

/-- C11, witness: a frame in which the boosted ball reaches the player paddle
again while the boost is still on. -/
theorem boost_applied_once_witness :
    (wallStep (trailStep (moveStep boostedHitExample))).speedBoostActive = true ∧
    (leftStep (frameAt 100 0) (wallStep (trailStep (moveStep boostedHitExample)))).ballSpeedX
      = -(wallStep (trailStep (moveStep boostedHitExample))).ballSpeedX ∧
    (draw (frameAt 100 0) boostedHitExample).ballSpeedX = 9 / 2 ∧
    (draw (frameAt 100 0) boostedHitExample).speedBoostStartTime = 0 :=
  ⟨by decide!,
    (boost_applied_once (frameAt 100 0) (wallStep (trailStep (moveStep boostedHitExample)))
      (by decide!) (by decide!)).1,
    by decide!, by decide!⟩

/-- C12. Left paddle hit with boost: when the player-paddle branch of lines 319-359
triggers (left edge of the ball left of `paddleWidth + paddleGap`, vertical overlap
with the paddle, `speedX = v < 0`) while no boost is on, `speedBoostActive` becomes
true, the start time is the clock reading of line 351, the horizontal speed after
the step is `-v * 1.5` and the vertical speed is the recomputed value times 1.5. -/
theorem left_hit_activates_boost (inp : FrameInput) (s : State)
    (hoff : s.speedBoostActive = false)
    (hhit : overlapsPlayerPaddle s ∧ s.ballSpeedX < 0) :
    (leftStep inp s).speedBoostActive = true ∧
    (leftStep inp s).speedBoostStartTime = inp.nowAtHit ∧
    (leftStep inp s).ballSpeedX = -s.ballSpeedX * (3 / 2) ∧
    (leftStep inp s).ballSpeedY
      = hitSpeedY (s.ballY - (s.playerPaddleY + s.paddleHeight / 2)) * (3 / 2) := by
  have hcond : s.ballSpeedX < 0 ∧ s.ballY + s.ballRadius > s.playerPaddleY ∧
      s.ballY - s.ballRadius < s.playerPaddleY + s.paddleHeight := ⟨hhit.2, hhit.1.2⟩
  unfold leftStep
  rw [if_pos hhit.1]
  unfold playerPaddleHit
  rw [if_pos hcond]
  simp [activateBoost, hoff, speedBoostFactor]

/-- C12, witness: the paddle spans y in [100, 185], the ball is at (30, 142) with
horizontal speed -3 and the speed limit is 5; the frame ends with horizontal speed
4.5 and the boost on. -/
theorem left_hit_activates_boost_witness :
    (wallStep (trailStep (moveStep paddleHitExample))).speedBoostActive = false ∧
    (overlapsPlayerPaddle (wallStep (trailStep (moveStep paddleHitExample))) ∧
      (wallStep (trailStep (moveStep paddleHitExample))).ballSpeedX < 0) ∧
    (leftStep (frameAt 0 0) (wallStep (trailStep (moveStep paddleHitExample)))).ballSpeedX
      = -(wallStep (trailStep (moveStep paddleHitExample))).ballSpeedX * (3 / 2) ∧
    (draw (frameAt 0 0) paddleHitExample).ballSpeedX = 9 / 2 ∧
    (draw (frameAt 0 0) paddleHitExample).speedBoostActive = true :=
  ⟨by decide!, by decide!,
    (left_hit_activates_boost (frameAt 0 0) (wallStep (trailStep (moveStep paddleHitExample)))
      (by decide!) (by decide!)).2.2.1,
    by decide!, by decide!⟩

/-- C13. Wall bounce: after integration the ball is at `ballY + ballSpeedY` and the
wall step leaves it there; it negates `ballSpeedY` if the ball then sticks out
below the bottom (`ballY + ballRadius > canvas.height`) or above the top
(`ballY - ballRadius < 0`) and leaves `ballSpeedY` unchanged otherwise. The ball at
(400, 2) with velocity (0, -3) on the default arena ends the step, and the frame,
with vertical speed 3 and y = -1. -/
theorem wall_bounce (s : State) :
    (wallStep (trailStep (moveStep s))).ballY = s.ballY + s.ballSpeedY ∧
    (wallStep (trailStep (moveStep s))).ballSpeedY
      = (if s.ballY + s.ballSpeedY + s.ballRadius > s.canvas_height ∨
            s.ballY + s.ballSpeedY - s.ballRadius < 0 then -s.ballSpeedY
          else s.ballSpeedY) ∧
    ((wallStep (trailStep (moveStep wallExample))).ballSpeedY = 3 ∧
      (wallStep (trailStep (moveStep wallExample))).ballY = -1 ∧
      (draw (frameAt 0 0) wallExample).ballSpeedY = 3 ∧
      (draw (frameAt 0 0) wallExample).ballY = -1) := by
  refine ⟨by simp [moveStep], ?_, by decide!⟩
  have hy : (trailStep (moveStep s)).ballY = s.ballY + s.ballSpeedY := by simp [moveStep]
  have hv : (trailStep (moveStep s)).ballSpeedY = s.ballSpeedY := by simp
  have hr : (trailStep (moveStep s)).ballRadius = s.ballRadius := by simp
  have hh : (trailStep (moveStep s)).canvas_height = s.canvas_height := by simp
  unfold wallStep
  rw [hy, hr, hh]
  split_ifs
  · exact neg_inj.mpr hv
  · exact hv

theorem abs_sign_of_ne_zero (v : ℚ) (h : v ≠ 0) : |sign v| = 1 := by
  unfold sign
  split_ifs with h1 h2
  · simp
  · simp
  · exact absurd (le_antisymm (not_lt.mp h1) (not_lt.mp h2)) h

theorem abs_clampSpeed (v m : ℚ) (hm : 0 ≤ m) : |clampSpeed v m| = min |v| m := by
  unfold clampSpeed
  have h2 : 0 ≤ min |v| m := le_min (abs_nonneg v) hm
  rw [abs_mul, abs_of_nonneg h2]
  by_cases hv : v = 0
  · subst hv
    simp [hm]
  · rw [abs_sign_of_ne_zero v hv, one_mul]

/-- C14. Ball reset: for every arena whose width is not negative, every
`maxBallSpeed ≥ 0` and every random draw in [0, 1), `resetBall` puts the ball at
`(canvas.width / 2, canvas.height / 2)` with
`|ballSpeedX| = min (3 * canvas.width / 800) maxBallSpeed` and
`|ballSpeedY| ≤ min (3 * canvas.width / 800) maxBallSpeed`; on an arena 800 wide
with `maxBallSpeed ≥ 3` the horizontal speed has magnitude exactly 3. -/
theorem resetBall_spec (r1 r2 : ℚ) (s : State) (hw : 0 ≤ s.canvas_width)
    (hmax : 0 ≤ s.maxBallSpeed) (hr2 : 0 ≤ r2 ∧ r2 < 1) :
    (resetBall r1 r2 s).ballX = s.canvas_width / 2 ∧
    (resetBall r1 r2 s).ballY = s.canvas_height / 2 ∧
    |(resetBall r1 r2 s).ballSpeedX| = min (3 * s.canvas_width / 800) s.maxBallSpeed ∧
    |(resetBall r1 r2 s).ballSpeedY| ≤ min (3 * s.canvas_width / 800) s.maxBallSpeed ∧
    (s.canvas_width = 800 → 3 ≤ s.maxBallSpeed → |(resetBall r1 r2 s).ballSpeedX| = 3) := by
  have hi : 0 ≤ s.canvas_width / 800 * 3 := by positivity
  have hie : s.canvas_width / 800 * 3 = 3 * s.canvas_width / 800 := by ring
  have hx : |(resetBall r1 r2 s).ballSpeedX| = min (3 * s.canvas_width / 800) s.maxBallSpeed := by
    simp only [resetBall]
    rw [abs_clampSpeed _ _ hmax]
    split_ifs
    · rw [abs_of_nonneg hi, hie]
    · rw [abs_neg, abs_of_nonneg hi, hie]
  refine ⟨rfl, rfl, hx, ?_, ?_⟩
  · simp only [resetBall]
    rw [abs_clampSpeed _ _ hmax]
    refine min_le_min ?_ le_rfl
    rw [abs_mul, abs_of_nonneg (by linarith : 0 ≤ s.canvas_width / 800 * 3 * 2)]
    have hr : |r2 - 1 / 2| ≤ 1 / 2 := abs_le.mpr ⟨by linarith [hr2.1], by linarith [hr2.2]⟩
    calc |r2 - 1 / 2| * (s.canvas_width / 800 * 3 * 2)
        ≤ 1 / 2 * (s.canvas_width / 800 * 3 * 2) :=
          mul_le_mul_of_nonneg_right hr (by linarith)
      _ = 3 * s.canvas_width / 800 := by ring
  · intro h800 h3
    rw [hx, h800]
    norm_num
    exact h3

/-- C14, witness: a reset on the default arena with random draws 3/4 and 1/4. -/
theorem resetBall_spec_witness :
    0 ≤ initial.canvas_width ∧ 0 ≤ initial.maxBallSpeed ∧
    (resetBall (3 / 4) (1 / 4) initial).ballX = initial.canvas_width / 2 ∧
    |(resetBall (3 / 4) (1 / 4) initial).ballSpeedX| = 3 ∧
    (resetBall (3 / 4) (1 / 4) initial).ballSpeedX = 3 ∧
    (resetBall (3 / 4) (1 / 4) initial).ballSpeedY = -3 / 2 :=
  ⟨by decide!, by decide!,
    (resetBall_spec (3 / 4) (1 / 4) initial (by decide!) (by decide!) (by decide!)).1,
    (resetBall_spec (3 / 4) (1 / 4) initial (by decide!) (by decide!) (by decide!)).2.2.2.2
      (by decide!) (by decide!),
    by decide!, by decide!⟩

/-! ## The trail buffers -/

/-- The push followed by the eviction: a buffer within its capacity stays within
it, holds the last `cap` entries of the old contents followed by the new entry,
and ends with the new entry. -/
theorem trailPush_spec (cap : ℕ) (t : List Pos) (p : Pos) (h : t.length ≤ cap) :
    (trailPush cap t p).length ≤ cap ∧
    trailPush cap t p = (t ++ [p]).drop ((t ++ [p]).length - cap) ∧
    (0 < cap → (trailPush cap t p).getLast? = some p) := by
  unfold trailPush
  have hlen : (t ++ [p]).length = t.length + 1 := by simp
  split_ifs with hgt
  · have hcap : t.length = cap := by omega
    have hsub : (t ++ [p]).length - cap = 1 := by omega
    refine ⟨by simp; omega, by rw [hsub, List.drop_one], ?_⟩
    intro hpos
    cases t with
    | nil => simp at hcap; omega
    | cons a t => simp
  · have hsub : (t ++ [p]).length - cap = 0 := by omega
    refine ⟨by omega, by rw [hsub, List.drop_zero], ?_⟩
    intro _
    simp

theorem draw_ledTrail (inp : FrameInput) (s : State) :
    (draw inp s).ledTrail = (ledStep s).ledTrail := by
  simp [draw]

theorem draw_ballTrail (inp : FrameInput) (s : State) :
    (draw inp s).ballTrail =
      (if ballAdvanced s = true then
        (if s.ballTrailEnabled = true then trailPush 30 s.ballTrail (nextPos s) else [])
      else s.ballTrail) ∧
    (draw inp s).glowTrail =
      (if ballAdvanced s = true then
        (if s.ballTrailEnabled = true then trailPush 80 s.glowTrail (nextPos s) else [])
      else s.glowTrail) := by
  by_cases hadv : ballAdvanced s = true
  · rw [if_pos hadv, if_pos hadv]
    have ht : ∀ m : State, (trailStep m).ballTrail =
          (if m.ballTrailEnabled = true then trailPush 30 m.ballTrail ⟨m.ballX, m.ballY⟩ else []) ∧
        (trailStep m).glowTrail =
          (if m.ballTrailEnabled = true then trailPush 80 m.glowTrail ⟨m.ballX, m.ballY⟩ else []) := by
      intro m
      unfold trailStep
      split_ifs <;> exact ⟨rfl, rfl⟩
    obtain ⟨h1, h2⟩ := ht (moveStep (ledStep s))
    simp only [moveStep_ballTrailEnabled, ledStep_ballTrailEnabled, moveStep_ballTrail,
      ledStep_ballTrail, moveStep_glowTrail, ledStep_glowTrail] at h1 h2
    have hp : (⟨(moveStep (ledStep s)).ballX, (moveStep (ledStep s)).ballY⟩ : Pos) = nextPos s := by
      simp [moveStep, nextPos]
    rw [hp] at h1 h2
    constructor
    · simp only [draw, computerKeyStep_ballTrail, playerKeyStep_ballTrail,
        ballStep_of_advanced inp s hadv, ballBody, clampStep_ballTrail, boostExpiryStep_ballTrail,
        aiStep_ballTrail, collisionPhase, rightScoreStep_ballTrail, rightPaddleStep_ballTrail,
        leftStep_ballTrail, wallStep_ballTrail, h1]
    · simp only [draw, computerKeyStep_glowTrail, playerKeyStep_glowTrail,
        ballStep_of_advanced inp s hadv, ballBody, clampStep_glowTrail, boostExpiryStep_glowTrail,
        aiStep_glowTrail, collisionPhase, rightScoreStep_glowTrail, rightPaddleStep_glowTrail,
        leftStep_glowTrail, wallStep_glowTrail, h2]
  · rw [if_neg hadv, if_neg hadv]
    have hb := ballStep_of_not_advanced inp s (by simpa using hadv)
    simp [draw, hb]

/-- The bounds of the three trail buffers are kept by every event. -/
theorem step_trail_bounds (e : Event) (s : State)
    (hb : s.ballTrail.length ≤ 30) (hg : s.glowTrail.length ≤ 80) (hl : s.ledTrail.length ≤ 15) :
    (step e s).ballTrail.length ≤ 30 ∧ (step e s).glowTrail.length ≤ 80 ∧
      (step e s).ledTrail.length ≤ 15 := by
  cases e with
  | frame inp =>
    simp only [step]
    obtain ⟨h1, h2⟩ := draw_ballTrail inp s
    rw [h1, h2, draw_ledTrail]
    refine ⟨?_, ?_, ?_⟩
    · split_ifs
      · exact (trailPush_spec 30 _ _ hb).1
      · simp
      · exact hb
    · split_ifs
      · exact (trailPush_spec 80 _ _ hg).1
      · simp
      · exact hg
    · unfold ledStep
      split_ifs
      · exact (trailPush_spec 15 _ _ hl).1
      · exact hl
  | mouse mouseY => simpa [step] using ⟨hb, hg, hl⟩
  | timer i => simpa [step] using ⟨hb, hg, hl⟩
  | keyDown k => simpa [step] using ⟨hb, hg, hl⟩
  | keyUp k => simpa [step] using ⟨hb, hg, hl⟩
  | start c d r1 r2 => simpa [step] using ⟨hb, hg, hl⟩

theorem run_trail_bounds (es : List Event) (s : State)
    (hb : s.ballTrail.length ≤ 30) (hg : s.glowTrail.length ≤ 80) (hl : s.ledTrail.length ≤ 15) :
    (run es s).ballTrail.length ≤ 30 ∧ (run es s).glowTrail.length ≤ 80 ∧
      (run es s).ledTrail.length ≤ 15 := by
  induction es generalizing s with
  | nil => exact ⟨hb, hg, hl⟩
  | cons e es ih =>
    obtain ⟨h1, h2, h3⟩ := step_trail_bounds e s hb hg hl
    exact ih (step e s) h1 h2 h3

/-- C15. Trail capacity and FIFO order: if the ball trail, the glow trail and the
LED trail hold at most 30, 80 and 15 entries, then they still do after a call of
`draw` and after every sequence of events. In a frame that appends to a buffer
(the ball is advanced with trails enabled; the LED is enabled) the new contents are
exactly the last 30, 80 or 15 entries of the old contents followed by the new
position, in order, and the new position is the last entry. -/
theorem trail_capacity (inp : FrameInput) (s : State)
    (hb : s.ballTrail.length ≤ 30) (hg : s.glowTrail.length ≤ 80) (hl : s.ledTrail.length ≤ 15) :
    ((draw inp s).ballTrail.length ≤ 30 ∧ (draw inp s).glowTrail.length ≤ 80 ∧
      (draw inp s).ledTrail.length ≤ 15) ∧
    (ballAdvanced s = true → s.ballTrailEnabled = true →
      (draw inp s).ballTrail
        = (s.ballTrail ++ [nextPos s]).drop ((s.ballTrail ++ [nextPos s]).length - 30) ∧
      (draw inp s).glowTrail
        = (s.glowTrail ++ [nextPos s]).drop ((s.glowTrail ++ [nextPos s]).length - 80) ∧
      (draw inp s).ballTrail.getLast? = some (nextPos s) ∧
      (draw inp s).glowTrail.getLast? = some (nextPos s)) ∧
    (s.spinningLEDEnabled = true → ∃ p : Pos,
      (draw inp s).ledTrail = (s.ledTrail ++ [p]).drop ((s.ledTrail ++ [p]).length - 15) ∧
      (draw inp s).ledTrail.getLast? = some p) ∧
    (∀ es : List Event, (run es s).ballTrail.length ≤ 30 ∧ (run es s).glowTrail.length ≤ 80 ∧
      (run es s).ledTrail.length ≤ 15) := by
  refine ⟨step_trail_bounds (.frame inp) s hb hg hl, ?_, ?_, fun es => run_trail_bounds es s hb hg hl⟩
  · intro hadv hen
    obtain ⟨h1, h2⟩ := draw_ballTrail inp s
    rw [if_pos hadv, if_pos hen] at h1 h2
    rw [h1, h2]
    obtain ⟨_, b2, b3⟩ := trailPush_spec 30 s.ballTrail (nextPos s) hb
    obtain ⟨_, g2, g3⟩ := trailPush_spec 80 s.glowTrail (nextPos s) hg
    exact ⟨b2, g2, b3 (by norm_num), g3 (by norm_num)⟩
  · intro hen
    rw [draw_ledTrail]
    unfold ledStep
    rw [if_pos hen]
    exact ⟨_, (trailPush_spec 15 s.ledTrail _ hl).2.1, (trailPush_spec 15 s.ledTrail _ hl).2.2 (by norm_num)⟩

/-- C15, witness: a frame with all three buffers full. -/
theorem trail_capacity_witness :
    (fullTrails.ballTrail.length ≤ 30 ∧ fullTrails.glowTrail.length ≤ 80 ∧
      fullTrails.ledTrail.length ≤ 15) ∧
    ((draw (frameAt 0 0) fullTrails).ballTrail.length ≤ 30 ∧
      (draw (frameAt 0 0) fullTrails).glowTrail.length ≤ 80 ∧
      (draw (frameAt 0 0) fullTrails).ledTrail.length ≤ 15) ∧
    (draw (frameAt 0 0) fullTrails).ballTrail
      = List.replicate 29 ⟨400, 200⟩ ++ [⟨39, 240⟩] :=
  ⟨by decide!, (trail_capacity (frameAt 0 0) fullTrails (by decide!) (by decide!) (by decide!)).1,
    by decide!⟩

/-! ## Colours, the difficulty profile and the start button -/

/-- C16. Short form equals long form: for all code units `a`, `b`, `c` (in
particular hexadecimal digits) and every `alpha`, `hexToRGBA` gives the same text
for `#abc` and for `#aabbcc`; for an input `#rrggbb` of six hexadecimal digits the
result is `rgba(R,G,B,alpha)` with `R`, `G`, `B` the decimal values of the bytes
`rr`, `gg`, `bb`. -/
theorem hexToRGBA_short_long (h a b c : ℕ) (alpha : String) (r1 r2 g1 g2 b1 b2 : ℕ)
    (vr1 vr2 vg1 vg2 vb1 vb2 : ℕ)
    (hr1 : hexDigitValue r1 = some vr1) (hr2 : hexDigitValue r2 = some vr2)
    (hg1 : hexDigitValue g1 = some vg1) (hg2 : hexDigitValue g2 = some vg2)
    (hb1 : hexDigitValue b1 = some vb1) (hb2 : hexDigitValue b2 = some vb2) :
    hexToRGBA [h, a, b, c] alpha = hexToRGBA [h, a, a, b, b, c, c] alpha ∧
    hexToRGBA [h, r1, r2, g1, g2, b1, b2] alpha =
      "rgba(" ++ toString (16 * vr1 + vr2) ++ "," ++ toString (16 * vg1 + vg2) ++ ","
        ++ toString (16 * vb1 + vb2) ++ "," ++ alpha ++ ")" := by
  constructor
  · simp [hexToRGBA]
  · simp [hexToRGBA, plus0x, hr1, hr2, hg1, hg2, hb1, hb2, numberText]

/-- C16, witness: the colours `#f00` and `#ff0000` with alpha 0.5. -/
theorem hexToRGBA_short_long_witness :
    hexToRGBA (codeUnits "#f00") "0.5" = hexToRGBA (codeUnits "#ff0000") "0.5" ∧
    hexToRGBA (codeUnits "#ff0000") "0.5" = "rgba(255,0,0,0.5)" ∧
    hexToRGBA (codeUnits "#f00") "0.5" = "rgba(255,0,0,0.5)" :=
  ⟨(hexToRGBA_short_long 35 102 48 48 "0.5" 102 102 48 48 48 48 15 15 0 0 0 0
      (by decide) (by decide) (by decide) (by decide) (by decide) (by decide)).1,
    by decide!, by decide!⟩

/-- C17. Unsupported lengths: for every input whose length is neither 4 nor 7 and
every `alpha`, `hexToRGBA` returns `rgba(0,0,0,alpha)`. -/
theorem hexToRGBA_other_length (hex : List ℕ) (alpha : String)
    (h4 : hex.length ≠ 4) (h7 : hex.length ≠ 7) :
    hexToRGBA hex alpha = "rgba(0,0,0," ++ alpha ++ ")" := by
  have hpre : "rgba(" ++ numberText (some 0) ++ "," ++ numberText (some 0) ++ ","
      ++ numberText (some 0) ++ "," = "rgba(0,0,0," := by decide
  simp only [hexToRGBA, if_neg h4, if_neg h7]
  rw [hpre]

/-- C17, witness: a colour of five code units. -/
theorem hexToRGBA_other_length_witness :
    (codeUnits "#ff00").length ≠ 4 ∧ (codeUnits "#ff00").length ≠ 7 ∧
    hexToRGBA (codeUnits "#ff00") "0.5" = "rgba(0,0,0," ++ "0.5" ++ ")" :=
  ⟨by decide, by decide, hexToRGBA_other_length (codeUnits "#ff00") "0.5" (by decide) (by decide)⟩

/-- C18. Difficulty profile: a frame that advances the ball hands one move to
`setTimeout`, with step size and delay 1.5 / 200 ms for `easy`, 2 / 100 ms for
`medium`, 3 / 50 ms for `hard`, 10 / 0 ms for `impossible`,
`customComputerSpeed` / 0 ms for `custom` and step size 0 for `disable`; a move with
step size 0 leaves `computerPaddleY` unchanged. -/
theorem difficulty_profile (inp : FrameInput) (s : State) (hadv : ballAdvanced s = true) :
    (draw inp s).pending = s.pending ++
      [match s.difficulty with
        | .easy => ⟨200, 3 / 2⟩
        | .medium => ⟨100, 2⟩
        | .hard => ⟨50, 3⟩
        | .impossible => ⟨0, 10⟩
        | .custom => ⟨0, s.customComputerSpeed⟩
        | .disable => ⟨0, 0⟩] ∧
    ∀ t : State, (timerCallback 0 t).computerPaddleY = t.computerPaddleY := by
  constructor
  · have hd : (collisionPhase inp (ledStep s)).difficulty = s.difficulty := by simp
    have hc : (collisionPhase inp (ledStep s)).customComputerSpeed = s.customComputerSpeed := by
      simp
    have hp : (collisionPhase inp (ledStep s)).pending = s.pending := by simp
    simp only [draw, computerKeyStep_pending, playerKeyStep_pending,
      ballStep_of_advanced inp s hadv, ballBody, clampStep_pending, boostExpiryStep_pending,
      aiStep, computerSpeedOf, hd, hc, hp]
    cases hdiff : s.difficulty <;> simp [responseDelay, computerSpeeds]
  · intro t
    unfold timerCallback
    split_ifs <;> simp

/-- C18, witness: a frame of the default arena, whose difficulty is `easy`. -/
theorem difficulty_profile_witness :
    ballAdvanced boostStart = true ∧
    (draw (frameAt 0 0) boostStart).pending = boostStart.pending ++ [⟨200, 3 / 2⟩] :=
  ⟨by decide!, (difficulty_profile (frameAt 0 0) boostStart (by decide!)).1⟩

/-- C19, amended. Scores at game start: the click on the start button sets
`gameActive` and resets the ball but leaves `playerScore` and `computerScore` as
they were; both are 0 after it exactly when both were 0 before it. -/
theorem start_keeps_scores (c : ℚ) (d : Difficulty) (r1 r2 : ℚ) (s : State) :
    (startGame c d r1 r2 s).playerScore = s.playerScore ∧
    (startGame c d r1 r2 s).computerScore = s.computerScore ∧
    (startGame c d r1 r2 s).gameActive = true ∧
    (((startGame c d r1 r2 s).playerScore = 0 ∧ (startGame c d r1 r2 s).computerScore = 0) ↔
      (s.playerScore = 0 ∧ s.computerScore = 0)) := by
  have hg : (startGame c d r1 r2 s).gameActive = true := by
    simp only [startGame]; split_ifs <;> rfl
  simp [hg]

/-- C19, counterexample: after the run `firstPoint` the computer has one point; a
click on the start button then leaves the score at 0 : 1. -/
theorem start_with_score_one :
    (run firstPoint initial).computerScore = 1 ∧
    (startGame 2 .easy (1 / 2) (1 / 2) (run firstPoint initial)).computerScore = 1 ∧
    (startGame 2 .easy (1 / 2) (1 / 2) (run firstPoint initial)).playerScore = 0 := by
  decide!

/-! ## The size of the arena -/

/-- A frame with neither `w` nor `s` held leaves the player paddle where it is. -/
theorem draw_playerPaddleY_idle (inp : FrameInput) (s : State)
    (hw : s.wPressed = false) (hs : s.sPressed = false) :
    (draw inp s).playerPaddleY = s.playerPaddleY := by
  have key : ∀ (v : ℚ) (t : State), t.wPressed = false → t.sPressed = false →
      (playerKeyStep v t).playerPaddleY = t.playerPaddleY := by
    intro v t h1 h2
    simp only [playerKeyStep, h1, h2, Bool.false_eq_true, if_false]
  simp only [draw, computerKeyStep_playerPaddleY]
  rw [key _ _ (by simp [hw]) (by simp [hs])]
  simp

/-- A frame leaves a computer paddle that is inside the arena where it is, unless
the difficulty is `disable` and an arrow key is held. -/
theorem draw_computerPaddleY_idle (inp : FrameInput) (s : State)
    (hkeys : s.difficulty = .disable → s.upPressed = false ∧ s.downPressed = false)
    (hb : 0 ≤ s.computerPaddleY ∧ s.computerPaddleY ≤ s.canvas_height - s.paddleHeight) :
    (draw inp s).computerPaddleY = s.computerPaddleY := by
  have hball : (ballStep inp (ledStep s)).computerPaddleY = s.computerPaddleY := by
    by_cases hadv : ballAdvanced s = true
    · rw [ballStep_of_advanced inp s hadv]
      simp only [ballBody, clampStep_computerPaddleY, boostExpiryStep_computerPaddleY, aiStep,
        collisionPhase_computerPaddleY, collisionPhase_canvas_height, collisionPhase_paddleHeight,
        ledStep_computerPaddleY, ledStep_canvas_height, ledStep_paddleHeight]
      rw [min_eq_left hb.2, max_eq_right hb.1]
    · rw [ballStep_of_not_advanced inp s (by simpa using hadv)]
      simp
  have hd : (playerKeyStep inp.paddleSpeedInput (ballStep inp (ledStep s))).difficulty
      = s.difficulty := by simp
  have hu : (playerKeyStep inp.paddleSpeedInput (ballStep inp (ledStep s))).upPressed
      = s.upPressed := by simp
  have hdn : (playerKeyStep inp.paddleSpeedInput (ballStep inp (ledStep s))).downPressed
      = s.downPressed := by simp
  have hc : (playerKeyStep inp.paddleSpeedInput (ballStep inp (ledStep s))).computerPaddleY
      = s.computerPaddleY := by simp [hball]
  simp only [draw, computerKeyStep, hd, hu, hdn]
  by_cases hdis : s.difficulty = .disable
  · obtain ⟨k1, k2⟩ := hkeys hdis
    simp [hdis, k1, k2, hball]
  · simp [hdis, hball]

/-- C20, amended. Geometry scaling: after the initial set-up and after every
`updateCanvasSize`, `paddleHeight = 0.2125 * canvasHeight` and
`paddleWidth = paddleGap = 0.01875 * canvasWidth`. The initial set-up and the
assignments of `updateCanvasSize` put both paddles at
`(canvasHeight - paddleHeight) / 2`; when `updateCanvasSize` returns, after its
closing call of `draw`, they are still there if the canvas height is not negative
and no movement key is held (`w`, `s`, and in `disable` mode the arrow keys). The
default arena of 800 x 400 gets paddle height 85 and paddle width and gap 15. -/
theorem geometry_scaling (m r1 r2 : ℚ) (inp : FrameInput) (s : State) :
    ((initialSetup s).paddleHeight = 0.2125 * (initialSetup s).canvasHeight ∧
      (initialSetup s).paddleWidth = 0.01875 * (initialSetup s).canvasWidth ∧
      (initialSetup s).paddleGap = 0.01875 * (initialSetup s).canvasWidth ∧
      (initialSetup s).playerPaddleY
        = ((initialSetup s).canvasHeight - (initialSetup s).paddleHeight) / 2 ∧
      (initialSetup s).computerPaddleY
        = ((initialSetup s).canvasHeight - (initialSetup s).paddleHeight) / 2) ∧
    ((updateCanvasSize m r1 r2 inp s).paddleHeight
        = 0.2125 * (updateCanvasSize m r1 r2 inp s).canvasHeight ∧
      (updateCanvasSize m r1 r2 inp s).paddleWidth
        = 0.01875 * (updateCanvasSize m r1 r2 inp s).canvasWidth ∧
      (updateCanvasSize m r1 r2 inp s).paddleGap
        = 0.01875 * (updateCanvasSize m r1 r2 inp s).canvasWidth) ∧
    ((updateCanvasSizeBody m r1 r2 s).playerPaddleY
        = ((updateCanvasSizeBody m r1 r2 s).canvasHeight
            - (updateCanvasSizeBody m r1 r2 s).paddleHeight) / 2 ∧
      (updateCanvasSizeBody m r1 r2 s).computerPaddleY
        = ((updateCanvasSizeBody m r1 r2 s).canvasHeight
            - (updateCanvasSizeBody m r1 r2 s).paddleHeight) / 2) ∧
    (0 ≤ s.canvasHeight → s.wPressed = false → s.sPressed = false →
      (s.difficulty = .disable → s.upPressed = false ∧ s.downPressed = false) →
      (updateCanvasSize m r1 r2 inp s).playerPaddleY
          = ((updateCanvasSize m r1 r2 inp s).canvasHeight
              - (updateCanvasSize m r1 r2 inp s).paddleHeight) / 2 ∧
        (updateCanvasSize m r1 r2 inp s).computerPaddleY
          = ((updateCanvasSize m r1 r2 inp s).canvasHeight
              - (updateCanvasSize m r1 r2 inp s).paddleHeight) / 2) ∧
    ((initialSetup initial).paddleHeight = 85 ∧ (initialSetup initial).paddleWidth = 15 ∧
      (initialSetup initial).paddleGap = 15) := by
  have body : ∀ b : State, b = updateCanvasSizeBody m r1 r2 s →
      b.canvasHeight = s.canvasHeight ∧ b.canvasWidth = s.canvasWidth ∧
      b.canvas_height = s.canvasHeight ∧
      b.paddleHeight = 17 / 80 * s.canvasHeight ∧ b.paddleWidth = 3 / 160 * s.canvasWidth ∧
      b.paddleGap = 3 / 160 * s.canvasWidth ∧
      b.playerPaddleY = (s.canvasHeight - 17 / 80 * s.canvasHeight) / 2 ∧
      b.computerPaddleY = (s.canvasHeight - 17 / 80 * s.canvasHeight) / 2 ∧
      b.wPressed = s.wPressed ∧ b.sPressed = s.sPressed ∧ b.upPressed = s.upPressed ∧
      b.downPressed = s.downPressed ∧ b.difficulty = s.difficulty := by
    intro b hb
    subst hb
    simp only [updateCanvasSizeBody]
    split_ifs <;> simp
  obtain ⟨bH, bW, bch, bph, bpw, bpg, bpy, bcy, bw, bs, bu, bd, bdi⟩ := body _ rfl
  refine ⟨?_, ?_, ?_, ?_, by decide!⟩
  · simp only [initialSetup]
    norm_num
  · simp only [updateCanvasSize, draw_paddleHeight, draw_paddleWidth, draw_paddleGap,
      draw_canvasHeight, draw_canvasWidth, bph, bpw, bpg, bH, bW]
    norm_num
  · rw [bpy, bcy, bH, bph]
    exact ⟨rfl, rfl⟩
  · intro hH hw hs hkeys
    have hp := draw_playerPaddleY_idle inp (updateCanvasSizeBody m r1 r2 s) (by rw [bw, hw])
      (by rw [bs, hs])
    have hc := draw_computerPaddleY_idle inp (updateCanvasSizeBody m r1 r2 s)
      (by rw [bdi, bu, bd]; exact hkeys)
      (by rw [bcy, bch, bph]; constructor <;> linarith)
    simp only [updateCanvasSize, hp, hc, draw_paddleHeight, draw_canvasHeight, bpy, bcy, bH, bph,
      and_self]

/-- C20, counterexample: the `w` key is held while `updateCanvasSize` runs on the
default arena: its closing call of `draw` moves the freshly centred player paddle
up by the paddle speed, from 157.5 to 152.5. -/
theorem resize_with_key_held :
    (updateCanvasSize 5 0 0 (frameAt 0 0) wHeld).playerPaddleY = 305 / 2 ∧
    ((updateCanvasSize 5 0 0 (frameAt 0 0) wHeld).canvasHeight
      - (updateCanvasSize 5 0 0 (frameAt 0 0) wHeld).paddleHeight) / 2 = 315 / 2 := by
  decide!

/-! ## The computer paddle hit, the minimum speed, deferred moves and disabled trails -/

/-- C21. Right paddle hit does not boost: when the computer-paddle branch of lines
367-390 triggers (right edge of the ball right of
`canvas.width - paddleWidth - paddleGap`, vertical overlap with the paddle,
`speedX > 0`), the horizontal speed is exactly the negated old one, the vertical
speed is recomputed from the hit offset with the minimum-speed rule that the
player paddle uses, and `speedBoostActive` and `speedBoostStartTime` are
unchanged. -/
theorem right_hit_no_boost (s : State)
    (hhit : overlapsComputerPaddle s ∧ s.ballSpeedX > 0) :
    (rightPaddleStep s).ballSpeedX = -s.ballSpeedX ∧
    (rightPaddleStep s).ballSpeedY
      = hitSpeedY (s.ballY - (s.computerPaddleY + s.paddleHeight / 2)) ∧
    (rightPaddleStep s).speedBoostActive = s.speedBoostActive ∧
    (rightPaddleStep s).speedBoostStartTime = s.speedBoostStartTime := by
  have hcond : s.ballSpeedX > 0 ∧ s.ballY + s.ballRadius > s.computerPaddleY ∧
      s.ballY - s.ballRadius < s.computerPaddleY + s.paddleHeight := ⟨hhit.2, hhit.1.2⟩
  unfold rightPaddleStep
  rw [if_pos hhit.1, if_pos hcond]
  exact ⟨rfl, rfl, rfl, rfl⟩

/-- C21, witness: the ball reaches the computer paddle 30 pixels below its centre;
the frame ends with velocity (-3, 3) and no boost. -/
theorem right_hit_no_boost_witness :
    (overlapsComputerPaddle (leftStep (frameAt 0 0) (wallStep (trailStep (moveStep rightHitExample))))
      ∧ (leftStep (frameAt 0 0) (wallStep (trailStep (moveStep rightHitExample)))).ballSpeedX > 0) ∧
    (rightPaddleStep
        (leftStep (frameAt 0 0) (wallStep (trailStep (moveStep rightHitExample))))).ballSpeedX
      = -(leftStep (frameAt 0 0) (wallStep (trailStep (moveStep rightHitExample)))).ballSpeedX ∧
    (draw (frameAt 0 0) rightHitExample).ballSpeedX = -3 ∧
    (draw (frameAt 0 0) rightHitExample).ballSpeedY = 3 ∧
    (draw (frameAt 0 0) rightHitExample).speedBoostActive = false :=
  ⟨by decide!,
    (right_hit_no_boost
      (leftStep (frameAt 0 0) (wallStep (trailStep (moveStep rightHitExample)))) (by decide!)).1,
    by decide!, by decide!, by decide!⟩

/-- C22. Minimum vertical speed and sign of zero: the vertical speed recomputed
after a paddle hit with offset `relativeHit` (before any boost) is
`relativeHit * 0.1` when `|relativeHit * 0.1| ≥ 1`, is 1 or -1 with the sign of
`relativeHit` when `0 < |relativeHit * 0.1| < 1`, and is 0 when `relativeHit = 0`. -/
theorem hitSpeedY_spec (relativeHit : ℚ) :
    hitSpeedY relativeHit =
      (if 1 ≤ |relativeHit * 0.1| then relativeHit * 0.1
        else if 0 < relativeHit then 1
        else if relativeHit < 0 then -1
        else 0) ∧
    hitSpeedY 0 = 0 ∧ hitSpeedY 5 = 1 ∧ hitSpeedY (-5) = -1 ∧ hitSpeedY 40 = 4 := by
  refine ⟨?_, by decide!, by decide!, by decide!, by decide!⟩
  have h01 : (0.1 : ℚ) = 1 / 10 := by norm_num
  rw [h01]
  unfold hitSpeedY sign
  by_cases h1 : |relativeHit * (1 / 10)| < 1
  · have h1n : ¬ 1 ≤ |relativeHit * (1 / 10)| := not_le.mpr h1
    simp only [h1, h1n, if_true, if_false]
    by_cases hp : 0 < relativeHit
    · have : 0 < relativeHit * (1 / 10) := by linarith
      simp [hp, this]
    · by_cases hn : relativeHit < 0
      · have h2 : ¬ 0 < relativeHit * (1 / 10) := by linarith
        have h3 : relativeHit * (1 / 10) < 0 := by linarith
        simp [hp, hn, h2, h3]
      · have h0 : relativeHit = 0 := le_antisymm (not_lt.mp hp) (not_lt.mp hn)
        subst h0
        simp
  · have h1n : 1 ≤ |relativeHit * (1 / 10)| := not_lt.mp h1
    simp only [h1, h1n, if_true, if_false]

/-- A frame that advances the ball hands one move to `setTimeout`: the delay and
the speed that lines 399-413 choose from the difficulty. -/
theorem draw_pending (inp : FrameInput) (s : State) (hadv : ballAdvanced s = true) :
    (draw inp s).pending = s.pending ++ [⟨responseDelay s.difficulty, computerSpeedOf s⟩] := by
  have hd : (collisionPhase inp (ledStep s)).difficulty = s.difficulty := by simp
  have hc : (collisionPhase inp (ledStep s)).customComputerSpeed = s.customComputerSpeed := by
    simp
  have hp : (collisionPhase inp (ledStep s)).pending = s.pending := by simp
  simp only [draw, computerKeyStep_pending, playerKeyStep_pending,
    ballStep_of_advanced inp s hadv, ballBody, clampStep_pending, boostExpiryStep_pending,
    aiStep, computerSpeedOf, hd, hc, hp]

/-- C23, amended. Deferred opponent move: a frame that advances the ball schedules
one move with the step size chosen in that frame. When the move fires it shifts
`computerPaddleY` by that captured step size, exactly once (it leaves the list of
pending moves), in the direction decided at the moment of firing: down if the ball
centre is then below the centre of the computer paddle, up otherwise. -/
theorem deferred_move (i : ℕ) (s : State) (m : PendingMove)
    (h : s.pending.get? i = some m) :
    (fire i s).computerPaddleY =
      (if s.ballDefined = true ∧ s.ballY > s.computerPaddleY + s.paddleHeight / 2 then
        s.computerPaddleY + m.computerSpeed
      else s.computerPaddleY - m.computerSpeed) ∧
    (fire i s).pending = s.pending.eraseIdx i ∧
    (∀ (inp : FrameInput) (t : State), ballAdvanced t = true →
      (draw inp t).pending = t.pending ++ [⟨responseDelay t.difficulty, computerSpeedOf t⟩]) := by
  refine ⟨?_, ?_, fun inp t hadv => draw_pending inp t hadv⟩
  · simp only [fire, h, timerCallback]
    split_ifs <;> rfl
  · simp only [fire, h, timerCallback]
    split_ifs <;> rfl

/-- C23, witness: the move scheduled by a frame of `staleMove`, fired at once. -/
theorem deferred_move_witness :
    (draw (frameAt 0 0) staleMove).pending.get? 0 = some ⟨200, 3 / 2⟩ ∧
    (fire 0 (draw (frameAt 0 0) staleMove)).computerPaddleY = 159 ∧
    (fire 0 (draw (frameAt 0 0) staleMove)).pending
      = (draw (frameAt 0 0) staleMove).pending.eraseIdx 0 :=
  ⟨by decide!, by decide!,
    (deferred_move 0 (draw (frameAt 0 0) staleMove) ⟨200, 3 / 2⟩ (by decide!)).2.1⟩

/-- C23, counterexample: when the first frame schedules its move the ball centre
(y = 204) is below the centre of the computer paddle (y = 200). Two frames later
the ball is at y = 198, and the move of the first frame, firing now, shifts the
paddle up from 157.5 to 156. -/
theorem deferred_move_uses_late_position :
    (draw (frameAt 0 0) staleMove).pending = [⟨200, 3 / 2⟩] ∧
    (draw (frameAt 0 0) staleMove).ballY
      > (draw (frameAt 0 0) staleMove).computerPaddleY
        + (draw (frameAt 0 0) staleMove).paddleHeight / 2 ∧
    (run [.frame (frameAt 0 0), .frame (frameAt 0 0), .frame (frameAt 0 0)]
      staleMove).computerPaddleY = 315 / 2 ∧
    (run [.frame (frameAt 0 0), .frame (frameAt 0 0), .frame (frameAt 0 0), .timer 0]
      staleMove).computerPaddleY = 156 := by
  decide!

/-- The ball trails in a frame taken with `ballTrailEnabled = false`: the frame
leaves `ballTrail` and `glowTrail` empty if it advances the ball, whatever they
held before; if it does not advance the ball it leaves both buffers as they
were. -/
theorem trails_while_disabled (inp : FrameInput) (s : State)
    (h : s.ballTrailEnabled = false) :
    (ballAdvanced s = true → (draw inp s).ballTrail = [] ∧ (draw inp s).glowTrail = []) ∧
    (ballAdvanced s = false →
      (draw inp s).ballTrail = s.ballTrail ∧ (draw inp s).glowTrail = s.glowTrail) := by
  obtain ⟨h1, h2⟩ := draw_ballTrail inp s
  constructor
  · intro hadv
    rw [h1, h2]
    simp [hadv, h]
  · intro hadv
    rw [h1, h2]
    simp [hadv]

/-! ## A reset of the ball during a boost -/

theorem resetBall_abs_speedX (r1 r2 : ℚ) (s : State) (hw : 0 ≤ s.canvas_width)
    (hmax : 0 ≤ s.maxBallSpeed) :
    |(resetBall r1 r2 s).ballSpeedX| = min (3 * s.canvas_width / 800) s.maxBallSpeed := by
  have hi : 0 ≤ s.canvas_width / 800 * 3 := by positivity
  have hie : s.canvas_width / 800 * 3 = 3 * s.canvas_width / 800 := by ring
  simp only [resetBall]
  rw [abs_clampSpeed _ _ hmax]
  split_ifs
  · rw [abs_of_nonneg hi, hie]
  · rw [abs_neg, abs_of_nonneg hi, hie]

theorem rightPaddleStep_abs_speedX (s : State) :
    |(rightPaddleStep s).ballSpeedX| = |s.ballSpeedX| := by
  unfold rightPaddleStep
  split_ifs
  · exact abs_neg _
  · rfl
  · rfl

/-- The horizontal speed after lines 294-396 of a frame in which a score resets
the ball. -/
theorem collisionPhase_abs_speedX_of_score (inp : FrameInput) (s : State)
    (hw : 0 ≤ s.canvas_width) (hmax : 0 ≤ s.maxBallSpeed)
    (hscore : (¬ overlapsPlayerPaddle (moveStep s) ∧ (moveStep s).ballX - s.ballRadius < 0) ∨
      (beforeRightScore inp s).ballX + s.ballRadius > s.canvas_width) :
    |(collisionPhase inp (ledStep s)).ballSpeedX|
      = min (3 * s.canvas_width / 800) s.maxBallSpeed := by
  have hbr : beforeRightScore inp s
      = rightPaddleStep (leftStep inp (wallStep (trailStep (moveStep (ledStep s))))) := rfl
  unfold collisionPhase
  rw [← hbr]
  have tr : (beforeRightScore inp s).ballRadius = s.ballRadius := by simp [hbr]
  have tw : (beforeRightScore inp s).canvas_width = s.canvas_width := by simp [hbr]
  have tm : (beforeRightScore inp s).maxBallSpeed = s.maxBallSpeed := by simp [hbr]
  by_cases hr : (beforeRightScore inp s).ballX + (beforeRightScore inp s).ballRadius
      > (beforeRightScore inp s).canvas_width
  · unfold rightScoreStep
    rw [if_pos hr]
    simp only [rightScore]
    rw [resetBall_abs_speedX _ _ _ (by simpa [tw] using hw) (by simpa [tm] using hmax)]
    simp [tw, tm]
  · unfold rightScoreStep
    rw [if_neg hr]
    have hleft : ¬ overlapsPlayerPaddle (moveStep s) ∧ (moveStep s).ballX - s.ballRadius < 0 := by
      rcases hscore with hl | hrr
      · exact hl
      · rw [tr, tw] at hr
        exact absurd hrr hr
    set m := wallStep (trailStep (moveStep (ledStep s))) with hm
    have hov : ¬ overlapsPlayerPaddle m := by
      rw [hm, overlapsPlayerPaddle_after_move]; exact hleft.1
    have hx : m.ballX - m.ballRadius < 0 := by
      have : m.ballX = (moveStep s).ballX := by simp [hm, moveStep]
      rw [this]; simpa [hm] using hleft.2
    have hl : leftStep inp m = leftScore inp m := by
      unfold leftStep; rw [if_neg hov, if_pos hx]
    rw [hbr, rightPaddleStep_abs_speedX, hl]
    simp only [leftScore]
    rw [resetBall_abs_speedX _ _ _ (by simpa [hm] using hw) (by simpa [hm] using hmax)]
    simp [hm]

/-- C25. Boost survives a ball reset: `resetBall` leaves `speedBoostActive` and
`speedBoostStartTime` unchanged. Hence in a frame in which a score resets the ball
while a boost that began more than 2000 ms ago is still flagged active, the boost
ends and the frame ends with
`|ballSpeedX| = min (3 * canvas.width / 800) maxBallSpeed / 1.5`: the freshly reset
speed is divided by the boost factor. -/
theorem boost_survives_reset (inp : FrameInput) (s : State)
    (hw : 0 ≤ s.canvas_width) (hmax : 0 ≤ s.maxBallSpeed)
    (hadv : ballAdvanced s = true) (hact : s.speedBoostActive = true)
    (hexp : inp.nowAtCheck - s.speedBoostStartTime > speedBoostDuration)
    (hscore : (¬ overlapsPlayerPaddle (moveStep s) ∧ (moveStep s).ballX - s.ballRadius < 0) ∨
      (beforeRightScore inp s).ballX + s.ballRadius > s.canvas_width) :
    (∀ (r1 r2 : ℚ) (t : State),
      (resetBall r1 r2 t).speedBoostActive = t.speedBoostActive ∧
      (resetBall r1 r2 t).speedBoostStartTime = t.speedBoostStartTime) ∧
    |(draw inp s).ballSpeedX| = min (3 * s.canvas_width / 800) s.maxBallSpeed / 1.5 ∧
    (draw inp s).speedBoostActive = false := by
  refine ⟨fun r1 r2 t => ⟨rfl, rfl⟩, ?_⟩
  have h15 : (1.5 : ℚ) = 3 / 2 := by norm_num
  have hM := collisionPhase_abs_speedX_of_score inp s hw hmax hscore
  have hM0 : 0 ≤ min (3 * s.canvas_width / 800) s.maxBallSpeed :=
    le_min (by positivity) hmax
  obtain ⟨c1, c2⟩ := collisionPhase_boost_kept inp (ledStep s) (by simpa using hact)
  rw [ledStep_speedBoostStartTime] at c2
  have hcond : (aiStep inp (collisionPhase inp (ledStep s))).speedBoostActive = true ∧
      inp.nowAtCheck - (aiStep inp (collisionPhase inp (ledStep s))).speedBoostStartTime
        > speedBoostDuration := by
    rw [aiStep_speedBoostActive, aiStep_speedBoostStartTime, c1, c2]
    exact ⟨rfl, hexp⟩
  simp only [draw, computerKeyStep_speedBoostActive, playerKeyStep_speedBoostActive,
    computerKeyStep_ballSpeedX, playerKeyStep_ballSpeedX, ballStep_of_advanced inp s hadv, ballBody]
  unfold boostExpiryStep
  rw [if_pos hcond]
  simp only [clampStep, aiStep_ballSpeedX, aiStep_maxBallSpeed, collisionPhase_maxBallSpeed,
    ledStep_maxBallSpeed, speedBoostFactor, h15]
  have habs : |(collisionPhase inp (ledStep s)).ballSpeedX / (3 / 2)|
      = min (3 * s.canvas_width / 800) s.maxBallSpeed / (3 / 2) := by
    rw [abs_div, hM, abs_of_pos (by norm_num : (0 : ℚ) < 3 / 2)]
  have hle : |(collisionPhase inp (ledStep s)).ballSpeedX / (3 / 2)| ≤ s.maxBallSpeed := by
    rw [habs]
    have : min (3 * s.canvas_width / 800) s.maxBallSpeed ≤ s.maxBallSpeed := min_le_right _ _
    linarith
  rw [clampSpeed_of_abs_le _ _ hle]
  exact ⟨habs, trivial⟩

/-- C25, witness: the ball leaves on the left three seconds after a boost began;
the reset speed 3 ends the frame as 2. -/
theorem boost_survives_reset_witness :
    boostedMiss.speedBoostActive = true ∧
    (frameAt 3000 0).nowAtCheck - boostedMiss.speedBoostStartTime > speedBoostDuration ∧
    |(draw (frameAt 3000 0) boostedMiss).ballSpeedX|
      = min (3 * boostedMiss.canvas_width / 800) boostedMiss.maxBallSpeed / 1.5 ∧
    (draw (frameAt 3000 0) boostedMiss).ballSpeedX = -2 ∧
    (draw (frameAt 3000 0) boostedMiss).computerScore = 1 :=
  ⟨by decide!, by decide!,
    (boost_survives_reset (frameAt 3000 0) boostedMiss (by decide!) (by decide!) (by decide!)
      (by decide!) (by decide!) (by decide!)).2.1,
    by decide!, by decide!⟩

/-! ## The ball caught in the top wall -/

/-- One frame of the wall example: the setting is kept, the ball at y = 2 moving
up ends at y = -1 moving down, and the ball at y = -1 moving down ends at y = 2
moving up. -/
theorem wallLoop_draw (inp : FrameInput) (t : State) (h : wallLoop t)
    (hy : (t.ballY = 2 ∧ t.ballSpeedY = -3) ∨ (t.ballY = -1 ∧ t.ballSpeedY = 3)) :
    wallLoop (draw inp t) ∧ (draw inp t).ballY = t.ballY + t.ballSpeedY ∧
      (draw inp t).ballSpeedY = -t.ballSpeedY := by
  obtain ⟨hd, hp, hc, hx, hvx, hW, hH, hr, hpw, hpg, hmax, hb⟩ := h
  have hadv : ballAdvanced t = true := by simp [ballAdvanced, canSpawnBall, hd, hp, hc]
  set m := wallStep (trailStep (moveStep (ledStep t))) with hm
  have mx : m.ballX = 400 := by simp [hm, moveStep, hx, hvx]
  have mr : m.ballRadius = 10 := by simp [hm, hr]
  have mW : m.canvas_width = 800 := by simp [hm, hW]
  have mpw : m.paddleWidth = 15 := by simp [hm, hpw]
  have mpg : m.paddleGap = 15 := by simp [hm, hpg]
  have hl : leftStep inp m = m := by
    unfold leftStep
    rw [if_neg (by unfold overlapsPlayerPaddle; rw [mx, mr, mpw, mpg]; norm_num),
      if_neg (by rw [mx, mr]; norm_num)]
  have hrp : rightPaddleStep m = m := by
    unfold rightPaddleStep
    rw [if_neg (by unfold overlapsComputerPaddle; rw [mx, mr, mW, mpw, mpg]; norm_num)]
  have hrs : rightScoreStep inp m = m := by
    unfold rightScoreStep
    rw [if_neg (by rw [mx, mr, mW]; norm_num)]
  have hcp : collisionPhase inp (ledStep t) = m := by
    unfold collisionPhase
    rw [← hm, hl, hrp, hrs]
  have hbe : boostExpiryStep inp.nowAtCheck (aiStep inp m) = aiStep inp m := by
    unfold boostExpiryStep
    rw [if_neg (by simp [hm, hb])]
  have my : m.ballY = t.ballY + t.ballSpeedY := by simp [hm, moveStep]
  have mvx : m.ballSpeedX = 0 := by simp [hm, hvx]
  have mvy : m.ballSpeedY = -t.ballSpeedY := by
    have hwall : (trailStep (moveStep (ledStep t))).ballY
          + (trailStep (moveStep (ledStep t))).ballRadius
            > (trailStep (moveStep (ledStep t))).canvas_height ∨
        (trailStep (moveStep (ledStep t))).ballY - (trailStep (moveStep (ledStep t))).ballRadius
          < 0 := by
      right
      have e1 : (trailStep (moveStep (ledStep t))).ballY = t.ballY + t.ballSpeedY := by
        simp [moveStep]
      have e2 : (trailStep (moveStep (ledStep t))).ballRadius = 10 := by simp [hr]
      rw [e1, e2]
      rcases hy with ⟨a, b⟩ | ⟨a, b⟩ <;> rw [a, b] <;> norm_num
    rw [hm]
    unfold wallStep
    rw [if_pos hwall]
    simp
  have mmax : m.maxBallSpeed = 5 := by simp [hm, hmax]
  have hfin : draw inp t
      = computerKeyStep inp.paddleSpeedInput (playerKeyStep inp.paddleSpeedInput
          (clampStep (aiStep inp m))) := by
    simp only [draw, ballStep_of_advanced inp t hadv, ballBody, hcp, hbe]
  have hcx : clampSpeed 0 5 = 0 := by simp [clampSpeed, sign]
  have hcy : clampSpeed (-t.ballSpeedY) 5 = -t.ballSpeedY := by
    apply clampSpeed_of_abs_le
    rcases hy with ⟨_, b⟩ | ⟨_, b⟩ <;> rw [b] <;> norm_num [abs_of_pos]
  refine ⟨?_, ?_, ?_⟩
  · rw [hfin]
    unfold wallLoop
    simp only [computerKeyStep_ballDefined, playerKeyStep_ballDefined, clampStep_ballDefined,
      aiStep_ballDefined, computerKeyStep_playerScore, playerKeyStep_playerScore,
      clampStep_playerScore, aiStep_playerScore, computerKeyStep_computerScore,
      playerKeyStep_computerScore, clampStep_computerScore, aiStep_computerScore,
      computerKeyStep_ballX, playerKeyStep_ballX, clampStep_ballX, aiStep_ballX,
      computerKeyStep_ballSpeedX, playerKeyStep_ballSpeedX, computerKeyStep_canvas_width,
      playerKeyStep_canvas_width, clampStep_canvas_width, aiStep_canvas_width,
      computerKeyStep_canvas_height, playerKeyStep_canvas_height, clampStep_canvas_height,
      aiStep_canvas_height, computerKeyStep_ballRadius, playerKeyStep_ballRadius,
      clampStep_ballRadius, aiStep_ballRadius, computerKeyStep_paddleWidth,
      playerKeyStep_paddleWidth, clampStep_paddleWidth, aiStep_paddleWidth,
      computerKeyStep_paddleGap, playerKeyStep_paddleGap, clampStep_paddleGap, aiStep_paddleGap,
      computerKeyStep_maxBallSpeed, playerKeyStep_maxBallSpeed, clampStep_maxBallSpeed,
      aiStep_maxBallSpeed, computerKeyStep_speedBoostActive, playerKeyStep_speedBoostActive,
      clampStep_speedBoostActive, aiStep_speedBoostActive]
    refine ⟨by simp [hm, hd], by simpa [hm] using hp, by simpa [hm] using hc, mx, ?_,
      mW, by simp [hm, hH], mr, mpw, mpg, mmax, by simp [hm, hb]⟩
    simp only [clampStep, aiStep_ballSpeedX, aiStep_maxBallSpeed, mvx, mmax, hcx]
  · rw [hfin]
    simp [my]
  · rw [hfin]
    simp only [computerKeyStep_ballSpeedY, playerKeyStep_ballSpeedY, clampStep, aiStep_ballSpeedY,
      aiStep_maxBallSpeed, mvy, mmax, hcy]

/-- Any number of consecutive frames of the wall example: after an even number
the ball is at y = 2 moving up with speed 3, after an odd number at y = -1 moving
down with speed 3. -/
theorem wallLoop_run (fs : List FrameInput) (t : State) (h : wallLoop t)
    (hy : t.ballY = 2 ∧ t.ballSpeedY = -3) :
    if fs.length % 2 = 0 then
      (run (fs.map Event.frame) t).ballY = 2 ∧ (run (fs.map Event.frame) t).ballSpeedY = -3
    else
      (run (fs.map Event.frame) t).ballY = -1 ∧ (run (fs.map Event.frame) t).ballSpeedY = 3 := by
  have key : ∀ (n : ℕ) (fs : List FrameInput) (t : State), fs.length = n → wallLoop t →
      ((t.ballY = 2 ∧ t.ballSpeedY = -3) →
        if n % 2 = 0 then
          (run (fs.map Event.frame) t).ballY = 2 ∧ (run (fs.map Event.frame) t).ballSpeedY = -3
        else
          (run (fs.map Event.frame) t).ballY = -1 ∧ (run (fs.map Event.frame) t).ballSpeedY = 3) ∧
      ((t.ballY = -1 ∧ t.ballSpeedY = 3) →
        if n % 2 = 0 then
          (run (fs.map Event.frame) t).ballY = -1 ∧ (run (fs.map Event.frame) t).ballSpeedY = 3
        else
          (run (fs.map Event.frame) t).ballY = 2 ∧ (run (fs.map Event.frame) t).ballSpeedY = -3) := by
    intro n
    induction n with
    | zero =>
      intro fs t hlen _
      have : fs = [] := List.length_eq_zero.mp hlen
      subst this
      simp [run]
    | succ n ih =>
      intro fs t hlen hw
      cases fs with
      | nil => simp at hlen
      | cons f fs =>
        have hlen2 : fs.length = n := by simpa using hlen
        simp only [List.map_cons, run, step]
        constructor
        · intro hy0
          obtain ⟨w2, y2, v2⟩ := wallLoop_draw f t hw (Or.inl hy0)
          have hnext : (draw f t).ballY = -1 ∧ (draw f t).ballSpeedY = 3 := by
            rw [y2, v2, hy0.1, hy0.2]; constructor <;> norm_num
          have := (ih fs (draw f t) hlen2 w2).2 hnext
          rcases Nat.mod_two_eq_zero_or_one n with hn | hn
          · have hn1 : (n + 1) % 2 = 1 := by omega
            simp only [hn, hn1] at this ⊢
            simpa using this
          · have hn1 : (n + 1) % 2 = 0 := by omega
            simp only [hn, hn1] at this ⊢
            simpa using this
        · intro hy1
          obtain ⟨w2, y2, v2⟩ := wallLoop_draw f t hw (Or.inr hy1)
          have hnext : (draw f t).ballY = 2 ∧ (draw f t).ballSpeedY = -3 := by
            rw [y2, v2, hy1.1, hy1.2]; constructor <;> norm_num
          have := (ih fs (draw f t) hlen2 w2).1 hnext
          rcases Nat.mod_two_eq_zero_or_one n with hn | hn
          · have hn1 : (n + 1) % 2 = 1 := by omega
            simp only [hn, hn1] at this ⊢
            simpa using this
          · have hn1 : (n + 1) % 2 = 0 := by omega
            simp only [hn, hn1] at this ⊢
            simpa using this
  exact (key fs.length fs t rfl h).1 hy

/-- C26. Wall bounce is not direction-gated: when, at the wall test of line 314,
the ball sticks out above the top while already moving down
(`ballY - ballRadius < 0` and `speedY > 0`), or below the bottom while moving up,
`speedY` is negated again. From (400, 2) with velocity (0, -3) on the default
arena, after any number of consecutive frames, whatever their inputs, the ball is
at y = 2 with vertical speed -3 (even number of frames) or at y = -1 with vertical
speed 3 (odd number). -/
theorem wall_not_direction_gated (s : State) (fs : List FrameInput)
    (h : (s.ballY - s.ballRadius < 0 ∧ s.ballSpeedY > 0) ∨
      (s.ballY + s.ballRadius > s.canvas_height ∧ s.ballSpeedY < 0)) :
    (wallStep s).ballSpeedY = -s.ballSpeedY ∧
    (if fs.length % 2 = 0 then
      (run (fs.map Event.frame) wallExample).ballY = 2 ∧
        (run (fs.map Event.frame) wallExample).ballSpeedY = -3
    else
      (run (fs.map Event.frame) wallExample).ballY = -1 ∧
        (run (fs.map Event.frame) wallExample).ballSpeedY = 3) := by
  constructor
  · unfold wallStep
    rw [if_pos (by rcases h with h | h; exact Or.inr h.1; exact Or.inl h.1)]
  · exact wallLoop_run fs wallExample (by decide!) (by decide!)

/-- C26, witness: the second frame of the wall example: after integration the
ball is at y = 2, still above the top edge, moving down with speed 3, and the wall
test sends it up again. -/
theorem wall_not_direction_gated_witness :
    ((trailStep (moveStep (draw (frameAt 0 0) wallExample))).ballY
        - (trailStep (moveStep (draw (frameAt 0 0) wallExample))).ballRadius < 0 ∧
      (trailStep (moveStep (draw (frameAt 0 0) wallExample))).ballSpeedY > 0) ∧
    (wallStep (trailStep (moveStep (draw (frameAt 0 0) wallExample)))).ballSpeedY
      = -(trailStep (moveStep (draw (frameAt 0 0) wallExample))).ballSpeedY ∧
    (run ([frameAt 0 0, frameAt 16 0, frameAt 33 0].map Event.frame) wallExample).ballY = -1 :=
  ⟨by decide!,
    (wall_not_direction_gated (trailStep (moveStep (draw (frameAt 0 0) wallExample)))
      [frameAt 0 0, frameAt 16 0, frameAt 33 0] (Or.inl (by decide!))).1,
    ((wall_not_direction_gated (trailStep (moveStep (draw (frameAt 0 0) wallExample)))
      [frameAt 0 0, frameAt 16 0, frameAt 33 0] (Or.inl (by decide!))).2).1⟩

/-! ## The bound on the scores -/

/-- Lines 319-365 never raise the player score and raise the computer score by at
most one. -/
theorem leftStep_score_le (inp : FrameInput) (s : State) :
    (leftStep inp s).playerScore ≤ s.playerScore ∧
    (leftStep inp s).computerScore ≤ s.computerScore + 1 := by
  unfold leftStep
  split_ifs
  · simp
  · obtain ⟨_, _, hcase⟩ := leftScore_spec inp s
    rcases hcase with ⟨_, _, hp, hc⟩ | ⟨_, _, hp, hc⟩
    · rw [hp, hc]; exact ⟨le_rfl, le_rfl⟩
    · rw [hp, hc]; exact ⟨Nat.zero_le _, Nat.zero_le _⟩
  · exact ⟨le_rfl, Nat.le_succ _⟩

/-- Lines 391-396 never raise the computer score and raise the player score by at
most one. -/
theorem rightScoreStep_score_le (inp : FrameInput) (s : State) :
    (rightScoreStep inp s).playerScore ≤ s.playerScore + 1 ∧
    (rightScoreStep inp s).computerScore ≤ s.computerScore := by
  unfold rightScoreStep
  split_ifs
  · by_cases h : s.gameActive = true ∧ (20 ≤ s.playerScore + 1 ∨ 20 ≤ s.computerScore)
    · simp only [rightScore]
      rw [checkWinner_of_win _ _ { s with playerScore := s.playerScore + 1 } h.1 h.2]
      simp [resetBall, displayWinner]
    · simp only [rightScore]
      rw [checkWinner_of_no_win _ _ { s with playerScore := s.playerScore + 1 } h]
      simp [resetBall]
  · exact ⟨Nat.le_succ _, le_rfl⟩

/-- Each score grows by at most one over a call of `draw`, and not at all when
the ball is not advanced. -/
theorem draw_score_le (inp : FrameInput) (s : State) :
    (draw inp s).playerScore ≤ s.playerScore + 1 ∧
    (draw inp s).computerScore ≤ s.computerScore + 1 ∧
    (ballAdvanced s = false →
      (draw inp s).playerScore = s.playerScore ∧ (draw inp s).computerScore = s.computerScore) := by
  by_cases hadv : ballAdvanced s = true
  · obtain ⟨_, _, _, dp, dc, _⟩ := draw_eq_collisionPhase inp s hadv
    rw [dp, dc]
    unfold collisionPhase
    set m := wallStep (trailStep (moveStep (ledStep s))) with hm
    have hmp : m.playerScore = s.playerScore := by simp [hm]
    have hmc : m.computerScore = s.computerScore := by simp [hm]
    obtain ⟨l1, l2⟩ := leftStep_score_le inp m
    obtain ⟨r1, r2⟩ := rightScoreStep_score_le inp (rightPaddleStep (leftStep inp m))
    simp only [rightPaddleStep_playerScore, rightPaddleStep_computerScore] at r1 r2
    refine ⟨by omega, by omega, fun h => ?_⟩
    rw [hadv] at h
    exact absurd h (by simp)
  · have hb := ballStep_of_not_advanced inp s (by simpa using hadv)
    have hp : (draw inp s).playerScore = s.playerScore := by simp [draw, hb]
    have hc : (draw inp s).computerScore = s.computerScore := by simp [draw, hb]
    exact ⟨by omega, by omega, fun _ => ⟨hp, hc⟩⟩

/-- No action takes a score above 20. -/
theorem perform_score_bound (a : Action) (s : State)
    (hp : s.playerScore ≤ 20) (hc : s.computerScore ≤ 20) :
    (perform a s).playerScore ≤ 20 ∧ (perform a s).computerScore ≤ 20 := by
  cases a with
  | event e =>
    cases e with
    | frame inp =>
      simp only [perform, step]
      obtain ⟨d1, d2, d3⟩ := draw_score_le inp s
      by_cases hadv : ballAdvanced s = true
      · have h20 : s.playerScore < 20 ∧ s.computerScore < 20 := by
          simp [ballAdvanced, canSpawnBall] at hadv
          exact hadv.1
        exact ⟨by omega, by omega⟩
      · obtain ⟨e1, e2⟩ := d3 (by simpa using hadv)
        rw [e1, e2]
        exact ⟨hp, hc⟩
    | mouse mouseY => simpa [perform, step] using ⟨hp, hc⟩
    | timer i => simpa [perform, step] using ⟨hp, hc⟩
    | keyDown k => simpa [perform, step] using ⟨hp, hc⟩
    | keyUp k => simpa [perform, step] using ⟨hp, hc⟩
    | start c d r1 r2 => simpa [perform, step] using ⟨hp, hc⟩
  | winCheck r1 r2 =>
    simp only [perform]
    by_cases h : s.gameActive = true ∧ (20 ≤ s.playerScore ∨ 20 ≤ s.computerScore)
    · rw [checkWinner_of_win r1 r2 s h.1 h.2]
      simp [resetBall, displayWinner]
    · rw [checkWinner_of_no_win r1 r2 s h]
      exact ⟨hp, hc⟩

theorem performAll_score_bound (as : List Action) (s : State)
    (hp : s.playerScore ≤ 20) (hc : s.computerScore ≤ 20) :
    (performAll as s).playerScore ≤ 20 ∧ (performAll as s).computerScore ≤ 20 := by
  induction as generalizing s with
  | nil => exact ⟨hp, hc⟩
  | cons a as ih =>
    obtain ⟨h1, h2⟩ := perform_score_bound a s hp hc
    exact ih (perform a s) h1 h2

/-- C27. Score upper bound: starting from scores 0, after every sequence of frame
updates, start-game actions, win checks, deferred moves, mouse moves and key
events both scores are at most 20, whatever the width of the arena: the ball is
only advanced while both scores are below 20, and each score grows by at most 1
per frame. -/
theorem score_upper_bound (s : State) (as : List Action)
    (hp : s.playerScore = 0) (hc : s.computerScore = 0) :
    ((performAll as s).playerScore ≤ 20 ∧ (performAll as s).computerScore ≤ 20) ∧
    (∀ (inp : FrameInput) (t : State),
      (ballAdvanced t = true → t.playerScore < 20 ∧ t.computerScore < 20) ∧
      (draw inp t).playerScore ≤ t.playerScore + 1 ∧
      (draw inp t).computerScore ≤ t.computerScore + 1 ∧
      (ballAdvanced t = false →
        (draw inp t).playerScore = t.playerScore ∧
        (draw inp t).computerScore = t.computerScore)) := by
  refine ⟨performAll_score_bound as s (by omega) (by omega), fun inp t => ⟨fun hadv => ?_, draw_score_le inp t⟩⟩
  simp [ballAdvanced, canSpawnBall] at hadv
  exact hadv.1

/-- C27, witness: from the initial state, the run `firstPoint` followed by a win
check, the timer of the first frame and a second click on the start button. -/
theorem score_upper_bound_witness :
    initial.playerScore = 0 ∧ initial.computerScore = 0 ∧
    (performAll firstPointAndMore initial).playerScore ≤ 20 ∧
    (performAll firstPointAndMore initial).computerScore ≤ 20 ∧
    (performAll firstPointAndMore initial).computerScore = 1 :=
  ⟨by decide, by decide,
    (score_upper_bound initial firstPointAndMore (by decide) (by decide)).1.1,
    (score_upper_bound initial firstPointAndMore (by decide) (by decide)).1.2,
    by decide!⟩

/-! ## The page before a winner is announced -/

/-- A win check that ends with an empty alert log started with an empty log. -/
theorem checkWinner_alerts_nil (r1 r2 : ℚ) (s : State)
    (h : (checkWinner r1 r2 s).alerts = []) : s.alerts = [] := by
  unfold checkWinner at h
  split_ifs at h
  · exact h
  · simp [displayWinner] at h
  · simp [displayWinner] at h
  · exact h

/-- A frame that ends with an empty alert log started with an empty log. -/
theorem draw_alerts_nil (inp : FrameInput) (s : State)
    (h : (draw inp s).alerts = []) : s.alerts = [] := by
  rcases draw_scores inp s with h1 | ⟨w, hw⟩
  · rw [← h1.1]
    exact h
  · rw [hw] at h
    simp at h

/-- A point for the computer during a match, without an announcement: the match
stays on and both scores stay below 20. -/
theorem leftScore_playing (inp : FrameInput) (s : State) (hg : s.gameActive = true)
    (hp : s.playerScore < 20) (h : (leftScore inp s).alerts = []) :
    (leftScore inp s).ballDefined = true ∧ (leftScore inp s).gameActive = true ∧
      (leftScore inp s).playerScore < 20 ∧ (leftScore inp s).computerScore < 20 := by
  have hp2 : ¬ 20 ≤ s.playerScore := not_le.mpr hp
  unfold leftScore checkWinner at h ⊢
  simp only [hg, Bool.not_true, Bool.false_eq_true, if_false, ge_iff_le, hp2] at h ⊢
  split_ifs at h ⊢ with hc
  · simp [displayWinner] at h
  · simp [resetBall, hg, hp]
    omega

/-- A point for the player during a match, without an announcement: the match
stays on and both scores stay below 20. -/
theorem rightScore_playing (inp : FrameInput) (s : State) (hg : s.gameActive = true)
    (hc : s.computerScore < 20) (h : (rightScore inp s).alerts = []) :
    (rightScore inp s).ballDefined = true ∧ (rightScore inp s).gameActive = true ∧
      (rightScore inp s).playerScore < 20 ∧ (rightScore inp s).computerScore < 20 := by
  have hc2 : ¬ 20 ≤ s.computerScore := not_le.mpr hc
  unfold rightScore checkWinner at h ⊢
  simp only [hg, Bool.not_true, Bool.false_eq_true, if_false, ge_iff_le, hc2] at h ⊢
  split_ifs at h ⊢ with hp
  · simp [displayWinner] at h
  · simp [resetBall, hg, hc]
    omega

/-- The left paddle and the left edge during a match, without an announcement. -/
theorem leftStep_playing (inp : FrameInput) (s : State) (hd : s.ballDefined = true)
    (hg : s.gameActive = true) (hp : s.playerScore < 20) (hc : s.computerScore < 20)
    (h : (leftStep inp s).alerts = []) :
    (leftStep inp s).ballDefined = true ∧ (leftStep inp s).gameActive = true ∧
      (leftStep inp s).playerScore < 20 ∧ (leftStep inp s).computerScore < 20 := by
  unfold leftStep at h ⊢
  split_ifs at h ⊢
  · simp [hd, hg, hp, hc]
  · exact leftScore_playing inp s hg hp h
  · exact ⟨hd, hg, hp, hc⟩

/-- The right edge during a match, without an announcement. -/
theorem rightScoreStep_playing (inp : FrameInput) (s : State) (hd : s.ballDefined = true)
    (hg : s.gameActive = true) (hp : s.playerScore < 20) (hc : s.computerScore < 20)
    (h : (rightScoreStep inp s).alerts = []) :
    (rightScoreStep inp s).ballDefined = true ∧ (rightScoreStep inp s).gameActive = true ∧
      (rightScoreStep inp s).playerScore < 20 ∧ (rightScoreStep inp s).computerScore < 20 := by
  unfold rightScoreStep at h ⊢
  split_ifs at h ⊢
  · exact rightScore_playing inp s hg hc h
  · exact ⟨hd, hg, hp, hc⟩

/-- An alert log that is empty after the right edge was empty before it. -/
theorem rightScoreStep_alerts_nil (inp : FrameInput) (s : State)
    (h : (rightScoreStep inp s).alerts = []) : s.alerts = [] := by
  unfold rightScoreStep rightScore at h
  split_ifs at h
  · rw [resetBall_alerts] at h
    exact checkWinner_alerts_nil (inp.rand 4) (inp.rand 5)
      { s with playerScore := s.playerScore + 1 } h
  · exact h

/-- The movement and collision part of a frame during a match, without an
announcement: the ball stays defined, the match stays on and both scores stay
below 20. -/
theorem collisionPhase_playing (inp : FrameInput) (s : State) (hd : s.ballDefined = true)
    (hg : s.gameActive = true) (hp : s.playerScore < 20) (hc : s.computerScore < 20)
    (h : (collisionPhase inp s).alerts = []) :
    (collisionPhase inp s).ballDefined = true ∧ (collisionPhase inp s).gameActive = true ∧
      (collisionPhase inp s).playerScore < 20 ∧ (collisionPhase inp s).computerScore < 20 := by
  unfold collisionPhase at h ⊢
  have h1 := rightScoreStep_alerts_nil inp _ h
  rw [rightPaddleStep_alerts] at h1
  obtain ⟨a1, a2, a3, a4⟩ := leftStep_playing inp (wallStep (trailStep (moveStep s)))
    (by simpa using hd) (by simpa using hg) (by simpa using hp) (by simpa using hc) h1
  exact rightScoreStep_playing inp _ (by simpa using a1) (by simpa using a2)
    (by simpa using a3) (by simpa using a4) h

/-- A frame during a match, without an announcement: the ball stays defined, the
match stays on and both scores stay below 20. -/
theorem draw_playing (inp : FrameInput) (s : State) (hd : s.ballDefined = true)
    (hg : s.gameActive = true) (hp : s.playerScore < 20) (hc : s.computerScore < 20)
    (h : (draw inp s).alerts = []) :
    (draw inp s).ballDefined = true ∧ (draw inp s).gameActive = true ∧
      (draw inp s).playerScore < 20 ∧ (draw inp s).computerScore < 20 := by
  have hadv : ballAdvanced s = true := by simp [ballAdvanced, canSpawnBall, hd, hp, hc]
  have hb := ballStep_of_advanced inp s hadv
  have e : (draw inp s).ballDefined = (collisionPhase inp (ledStep s)).ballDefined ∧
      (draw inp s).gameActive = (collisionPhase inp (ledStep s)).gameActive ∧
      (draw inp s).playerScore = (collisionPhase inp (ledStep s)).playerScore ∧
      (draw inp s).computerScore = (collisionPhase inp (ledStep s)).computerScore ∧
      (draw inp s).alerts = (collisionPhase inp (ledStep s)).alerts := by
    simp [draw, hb, ballBody]
  obtain ⟨e1, e2, e3, e4, e5⟩ := e
  rw [e1, e2, e3, e4]
  exact collisionPhase_playing inp (ledStep s) (by simpa using hd) (by simpa using hg)
    (by simpa using hp) (by simpa using hc) (by rw [← e5]; exact h)

/-- A frame that does not advance the ball leaves alone whether a ball exists and
whether a match is on. -/
theorem draw_idle (inp : FrameInput) (s : State) (h : ballAdvanced s = false) :
    (draw inp s).ballDefined = s.ballDefined ∧ (draw inp s).gameActive = s.gameActive := by
  simp [draw, ballStep_of_not_advanced inp s h]

/-- A frame without an announcement keeps `beforeWin`. -/
theorem draw_beforeWin (inp : FrameInput) (s : State) (hs : beforeWin s)
    (h : (draw inp s).alerts = []) : beforeWin (draw inp s) := by
  obtain ⟨hp, hc, hg, ht⟩ := hs
  by_cases hadv : ballAdvanced s = true
  · have hd : s.ballDefined = true := by
      simp only [ballAdvanced, Bool.and_eq_true] at hadv
      exact hadv.2
    obtain ⟨a1, a2, a3, a4⟩ := draw_playing inp s hd (hg hd) hp hc h
    refine ⟨a3, a4, fun _ => a2, fun hf => ?_⟩
    rw [a1] at hf
    exact absurd hf (by decide)
  · have hadv2 : ballAdvanced s = false := by simpa using hadv
    obtain ⟨b1, b2⟩ := draw_idle inp s hadv2
    obtain ⟨c1, c2, c3, c4, c5, c6⟩ := frame_without_ball inp s hadv2
    obtain ⟨t1, t2⟩ := draw_ballTrail inp s
    rw [if_neg hadv] at t1 t2
    unfold beforeWin
    rw [c5, c6, b1, b2, t1, t2]
    exact ⟨hp, hc, hg, ht⟩

/-- The assignments of `updateCanvasSize()` leave the alert log alone. -/
theorem updateCanvasSizeBody_alerts (m r1 r2 : ℚ) (s : State) :
    (updateCanvasSizeBody m r1 r2 s).alerts = s.alerts := by
  unfold updateCanvasSizeBody
  by_cases hd : s.ballDefined = true
  · simp [hd]
  · simp [hd]

/-- The assignments of `updateCanvasSize()` keep `beforeWin`. -/
theorem updateCanvasSizeBody_beforeWin (m r1 r2 : ℚ) (s : State) (hs : beforeWin s) :
    beforeWin (updateCanvasSizeBody m r1 r2 s) := by
  obtain ⟨hp, hc, hg, ht⟩ := hs
  unfold beforeWin updateCanvasSizeBody
  by_cases hd : s.ballDefined = true
  · simp [hd, hp, hc, hg hd]
  · simp [hd, hp, hc]

/-- The function `updateCanvasSize()` keeps `beforeWin` if it ends without an
announcement. -/
theorem updateCanvasSize_beforeWin (m r1 r2 : ℚ) (inp : FrameInput) (s : State)
    (hs : beforeWin s) (h : (updateCanvasSize m r1 r2 inp s).alerts = []) :
    beforeWin (updateCanvasSize m r1 r2 inp s) :=
  draw_beforeWin inp _ (updateCanvasSizeBody_beforeWin m r1 r2 s hs) h

/-- An alert log that is empty after `updateCanvasSize()` was empty before it. -/
theorem updateCanvasSize_alerts_nil (m r1 r2 : ℚ) (inp : FrameInput) (s : State)
    (h : (updateCanvasSize m r1 r2 inp s).alerts = []) : s.alerts = [] := by
  have h1 := draw_alerts_nil inp (updateCanvasSizeBody m r1 r2 s) h
  rw [updateCanvasSizeBody_alerts] at h1
  exact h1

/-- Assigning the settings variables, or one of them, keeps `beforeWin`. -/
theorem assignSettings_beforeWin (v : Settings) (s : State) (hs : beforeWin s) :
    beforeWin (assignSettings v s) := hs

/-- An alert log that is empty after an action was empty before it. -/
theorem perform_alerts_nil (a : Action) (s : State) (h : (perform a s).alerts = []) :
    s.alerts = [] := by
  cases a with
  | event e =>
    cases e with
    | frame inp => exact draw_alerts_nil inp s h
    | mouse y => simpa [perform, step] using h
    | timer i => simpa [perform, step] using h
    | keyDown k => simpa [perform, step] using h
    | keyUp k => simpa [perform, step] using h
    | start c d r1 r2 => simpa [perform, step] using h
  | winCheck r1 r2 => exact checkWinner_alerts_nil r1 r2 s h

/-- An alert log that is empty after a page action was empty before it. -/
theorem handle_alerts_nil (a : PageAction) (s : State) (h : (handle a s).alerts = []) :
    s.alerts = [] := by
  cases a with
  | action a => exact perform_alerts_nil a s h
  | load v => exact h
  | trailBox c => exact h
  | speedSlider v => exact h
  | widthSlider v m r1 r2 inp =>
    exact updateCanvasSize_alerts_nil m r1 r2 inp { s with canvasWidth := v } h
  | heightSlider v m r1 r2 inp =>
    exact updateCanvasSize_alerts_nil m r1 r2 inp { s with canvasHeight := v } h
  | applyButton v r1 r2 inp =>
    exact updateCanvasSize_alerts_nil v.maxBallSpeed r1 r2 inp (assignSettings v s) h
  | resetButton r1 r2 inp =>
    exact updateCanvasSize_alerts_nil 5 r1 r2 inp (assignSettings defaultSettings s) h

/-- An alert log that is empty after a list of page actions was empty before
it. -/
theorem handleAll_alerts_nil (as : List PageAction) (s : State)
    (h : (handleAll as s).alerts = []) : s.alerts = [] := by
  induction as generalizing s with
  | nil => exact h
  | cons a as ih => exact handle_alerts_nil a s (ih (handle a s) h)

/-- A click on the start button keeps `beforeWin`. -/
theorem startGame_beforeWin (c : ℚ) (d : Difficulty) (r1 r2 : ℚ) (s : State)
    (hs : beforeWin s) : beforeWin (startGame c d r1 r2 s) := by
  obtain ⟨hp, hc, -, -⟩ := hs
  unfold beforeWin startGame
  by_cases hd : s.difficulty = .custom
  · simp [hd, resetBall, hp, hc]
  · simp [hd, resetBall, hp, hc]

/-- An action without an announcement keeps `beforeWin`. -/
theorem perform_beforeWin (a : Action) (s : State) (hs : beforeWin s)
    (h : (perform a s).alerts = []) : beforeWin (perform a s) := by
  cases a with
  | event e =>
    cases e with
    | frame inp => exact draw_beforeWin inp s hs h
    | mouse y => simpa [perform, step, beforeWin] using hs
    | timer i => simpa [perform, step, beforeWin] using hs
    | keyDown k => simpa [perform, step, beforeWin] using hs
    | keyUp k => simpa [perform, step, beforeWin] using hs
    | start c d r1 r2 => exact startGame_beforeWin c d r1 r2 s hs
  | winCheck r1 r2 =>
    have e : checkWinner r1 r2 s = s :=
      checkWinner_of_no_win r1 r2 s (fun hw => by
        rcases hw.2 with h1 | h1
        · exact absurd hs.1 (not_lt.mpr h1)
        · exact absurd hs.2.1 (not_lt.mpr h1))
    simpa [perform, e] using hs

/-- A page action without an announcement keeps `beforeWin`. -/
theorem handle_beforeWin (a : PageAction) (s : State) (hs : beforeWin s)
    (h : (handle a s).alerts = []) : beforeWin (handle a s) := by
  cases a with
  | action a => exact perform_beforeWin a s hs h
  | load v => exact hs
  | trailBox c => exact hs
  | speedSlider v => exact hs
  | widthSlider v m r1 r2 inp =>
    exact updateCanvasSize_beforeWin m r1 r2 inp { s with canvasWidth := v } hs h
  | heightSlider v m r1 r2 inp =>
    exact updateCanvasSize_beforeWin m r1 r2 inp { s with canvasHeight := v } hs h
  | applyButton v r1 r2 inp =>
    exact updateCanvasSize_beforeWin v.maxBallSpeed r1 r2 inp (assignSettings v s)
      (assignSettings_beforeWin v s hs) h
  | resetButton r1 r2 inp =>
    exact updateCanvasSize_beforeWin 5 r1 r2 inp (assignSettings defaultSettings s)
      (assignSettings_beforeWin defaultSettings s hs) h

/-- On a page that ends a list of page actions without an announcement,
`beforeWin` holds at the end if it held at the start. -/
theorem handleAll_beforeWin (as : List PageAction) (s : State) (hs : beforeWin s)
    (h : (handleAll as s).alerts = []) : beforeWin (handleAll as s) := by
  induction as generalizing s with
  | nil => exact hs
  | cons a as ih =>
    exact ih (handle a s) (handle_beforeWin a s hs (handleAll_alerts_nil as _ h)) h

/-- A freshly loaded page satisfies `beforeWin`. -/
theorem freshPage_beforeWin (s : State) (h : freshPage s) : beforeWin s := by
  obtain ⟨h1, h2, h3, h4, h5, h6, -⟩ := h
  refine ⟨by omega, by omega, fun hd => ?_, fun _ => ⟨h5, h6⟩⟩
  rw [h1] at hd
  exact absurd hd (by decide)

/-- C6. Match state gating: on a page that was freshly loaded and has handled any
list of page actions without announcing a winner (`displayWinner`, the only place
that clears `gameActive`, shows the alert and asks for the reload of the page on
lines 105-106), a frame update taken while `gameActive` is false does not advance
the ball: `ballX`, `ballY`, `ballSpeedX`, `ballSpeedY` and both scores are the
same after the frame as before it, and the ball is still `undefined`. -/
theorem frame_while_not_playing (s0 : State) (as : List PageAction) (inp : FrameInput)
    (h0 : freshPage s0) (hrun : (handleAll as s0).alerts = [])
    (hmenu : (handleAll as s0).gameActive = false) :
    (draw inp (handleAll as s0)).ballX = (handleAll as s0).ballX ∧
    (draw inp (handleAll as s0)).ballY = (handleAll as s0).ballY ∧
    (draw inp (handleAll as s0)).ballSpeedX = (handleAll as s0).ballSpeedX ∧
    (draw inp (handleAll as s0)).ballSpeedY = (handleAll as s0).ballSpeedY ∧
    (draw inp (handleAll as s0)).playerScore = (handleAll as s0).playerScore ∧
    (draw inp (handleAll as s0)).computerScore = (handleAll as s0).computerScore ∧
    (draw inp (handleAll as s0)).ballDefined = false := by
  obtain ⟨-, -, hg, -⟩ := handleAll_beforeWin as s0 (freshPage_beforeWin s0 h0) hrun
  have hd : (handleAll as s0).ballDefined = false := by
    cases hb : (handleAll as s0).ballDefined with
    | false => rfl
    | true =>
      rw [hg hb] at hmenu
      exact absurd hmenu (by decide)
  have hadv : ballAdvanced (handleAll as s0) = false := by simp [ballAdvanced, hd]
  obtain ⟨c1, c2, c3, c4, c5, c6⟩ := frame_without_ball inp _ hadv
  exact ⟨c1, c2, c3, c4, c5, c6, by rw [(draw_idle inp _ hadv).1, hd]⟩

/-- C6, witness: a frame after the actions of `menuActions`, before the first
click on the start button. -/
theorem frame_while_not_playing_witness :
    freshPage initial ∧ (handleAll menuActions initial).alerts = [] ∧
    (handleAll menuActions initial).gameActive = false ∧
    (draw (frameAt 0 0) (handleAll menuActions initial)).ballSpeedX
      = (handleAll menuActions initial).ballSpeedX ∧
    (draw (frameAt 0 0) (handleAll menuActions initial)).playerScore
      = (handleAll menuActions initial).playerScore :=
  ⟨by decide!, by decide!, by decide!,
    (frame_while_not_playing initial menuActions (frameAt 0 0)
      (by decide!) (by decide!) (by decide!)).2.2.1,
    (frame_while_not_playing initial menuActions (frameAt 0 0)
      (by decide!) (by decide!) (by decide!)).2.2.2.2.1⟩

/-- C24. Trails cleared while disabled: on a page that was freshly loaded and has
handled any list of page actions without announcing a winner (`displayWinner`
shows the alert and asks for the reload of the page on lines 105-106), a frame
update taken with `ballTrailEnabled = false` leaves `ballTrail` and `glowTrail`
empty, whatever they held before and whether or not the ball is advanced in that
frame. -/
theorem trails_cleared_while_disabled (s0 : State) (as : List PageAction) (inp : FrameInput)
    (h0 : freshPage s0) (hrun : (handleAll as s0).alerts = [])
    (hoff : (handleAll as s0).ballTrailEnabled = false) :
    (draw inp (handleAll as s0)).ballTrail = [] ∧
    (draw inp (handleAll as s0)).glowTrail = [] := by
  obtain ⟨hp, hc, -, ht⟩ := handleAll_beforeWin as s0 (freshPage_beforeWin s0 h0) hrun
  obtain ⟨k1, k2⟩ := trails_while_disabled inp (handleAll as s0) hoff
  by_cases hadv : ballAdvanced (handleAll as s0) = true
  · exact k1 hadv
  · have hadv2 : ballAdvanced (handleAll as s0) = false := by simpa using hadv
    have hd : (handleAll as s0).ballDefined = false := by
      simpa [ballAdvanced, canSpawnBall, hp, hc] using hadv2
    obtain ⟨e1, e2⟩ := k2 hadv2
    rw [e1, e2]
    exact ht hd

/-- C24, witness: a match is started, two frames fill the trails with two
entries, the trail is switched off; the next frame empties both buffers. -/
theorem trails_cleared_while_disabled_witness :
    freshPage initial ∧ (handleAll trailSwitchedOff initial).alerts = [] ∧
    (handleAll trailSwitchedOff initial).ballTrailEnabled = false ∧
    (handleAll trailSwitchedOff initial).ballTrail.length = 2 ∧
    (draw (frameAt 0 0) (handleAll trailSwitchedOff initial)).ballTrail = [] ∧
    (draw (frameAt 0 0) (handleAll trailSwitchedOff initial)).glowTrail = [] :=
  ⟨by decide!, by decide!, by decide!, by decide!,
    (trails_cleared_while_disabled initial trailSwitchedOff (frameAt 0 0)
      (by decide!) (by decide!) (by decide!)).1,
    (trails_cleared_while_disabled initial trailSwitchedOff (frameAt 0 0)
      (by decide!) (by decide!) (by decide!)).2⟩

end PingPong
